import Mathlib

/-!
Shallow embedding of the ProxSyncBox reconciliation engine
(src/proxmox_handler.py, src/netbox_handler.py, src/sync_orchestrator.py,
src/utils.py) and proofs about the spec claims.

Python strings are modelled as Lean `String`, dictionaries with optional
keys as `Option`-valued record fields or association lists, machine
numbers as `Int`/`Nat` and exact integer fractions (Python floats in
this code only ever hold small decimal literals, where exact fraction
arithmetic agrees with IEEE float arithmetic).  Fallible paths return
`Option`.  Registry (NetBox) side effects are modelled by explicit
state passing plus a log of the attempted write operations.

String helpers are reimplemented over `List Char` with structural
recursion so that every definition evaluates inside the kernel.
-/

namespace ProxSyncBox

/-! ### Python string and number primitives -/

/-- Python whitespace class, as used by str.strip and the regex \s. -/
def pyIsSpace (c : Char) : Bool :=
  c = ' ' || c = '\t' || c = '\n' || c = '\r' || c.toNat = 11 || c.toNat = 12

/-- Python str.upper restricted to ASCII letters (all inputs in this code
base are ASCII: MAC addresses, size strings, config keys). -/
def pyUpper (s : String) : String :=
  ⟨s.data.map Char.toUpper⟩

/-- Python str.lower restricted to ASCII letters. -/
def pyLower (s : String) : String :=
  ⟨s.data.map Char.toLower⟩

/-- Python s.startswith(pre). -/
def pyStartsWith (s pre : String) : Bool :=
  pre.data.isPrefixOf s.data

/-- Python s.endswith(suf). -/
def pyEndsWith (s suf : String) : Bool :=
  suf.data.isSuffixOf s.data

/-- Strip Python whitespace from both ends of a character list. -/
def pyStripChars (cs : List Char) : List Char :=
  ((cs.dropWhile pyIsSpace).reverse.dropWhile pyIsSpace).reverse

/-- Python s.strip(). -/
def pyStrip (s : String) : String :=
  ⟨pyStripChars s.data⟩

/-- Worker for pySplit: fuel-based scan so that recursion is structural
(each step consumes at least one character when the separator is
nonempty, so fuel = length + 1 suffices). -/
def pySplitGo (sep : List Char) : Nat → List Char → List Char → List (List Char)
  | 0, _, acc => [acc.reverse]
  | _ + 1, [], acc => [acc.reverse]
  | fuel + 1, c :: tl, acc =>
    if sep.isPrefixOf (c :: tl) then
      acc.reverse :: pySplitGo sep fuel ((c :: tl).drop sep.length) []
    else
      pySplitGo sep fuel tl (c :: acc)

/-- Python s.split(sep) for a nonempty separator: scans left to right,
non-overlapping, keeps empty parts; the empty string yields a single
empty part. -/
def pySplit (s sep : String) : List String :=
  (pySplitGo sep.data (s.data.length + 1) s.data []).map (fun cs => ⟨cs⟩)

/-- Python sep.join(parts). -/
def pyJoin (sep : String) (parts : List String) : String :=
  match parts with
  | [] => ""
  | p :: tl => tl.foldl (fun acc q => acc ++ sep ++ q) p

/-- Python s.split(sep, 1): split at the first occurrence only. -/
def pySplit1 (s sep : String) : List String :=
  match pySplit s sep with
  | [] => []
  | p :: tl => if tl.isEmpty then [p] else [p, pyJoin sep tl]

/-- Python s.replace(old, new) for a nonempty old. -/
def pyReplace (s old new : String) : String :=
  pyJoin new (pySplit s old)

/-- Python substring containment (the in operator) for a nonempty
needle, expressed through pySplit. -/
def pyContains (s sub : String) : Bool :=
  (pySplit s sub).length > 1

/-- Python s.removesuffix(suf). -/
def pyRemoveSuffix (s suf : String) : String :=
  if suf ≠ "" && pyEndsWith s suf then ⟨s.data.take (s.data.length - suf.data.length)⟩ else s

/-- Value of a list of decimal digit characters. -/
def digitsVal (ds : List Char) : Nat :=
  ds.foldl (fun a c => 10 * a + (c.toNat - 48)) 0

/-- Exact fraction standing in for a Python float; den is always
positive. -/
structure PyFloat where
  num : Int
  den : Int
  deriving Repr, DecidableEq

/-- Value of the regex group (\d+\.?\d*): integer digits plus an
optional fraction, as an exact fraction. -/
def pyFloatOfDigits (ds1 ds2 : List Char) : PyFloat :=
  ⟨(digitsVal ds1 : Int) * (10 : Int) ^ ds2.length + (digitsVal ds2 : Int), (10 : Int) ^ ds2.length⟩

/-- Multiply a Python float by a natural constant. -/
def PyFloat.mulNat (x : PyFloat) (k : Nat) : PyFloat :=
  ⟨x.num * (k : Int), x.den⟩

/-- Divide a Python float by a positive natural constant. -/
def PyFloat.divNat (x : PyFloat) (k : Nat) : PyFloat :=
  ⟨x.num, x.den * (k : Int)⟩

/-- Python round() on an exact fraction num/den with den positive:
round half to even. -/
def pyRoundFrac (num den : Int) : Int :=
  let f := Int.fdiv num den
  let r2 := 2 * (num - f * den)
  if r2 < den then f
  else if den < r2 then f + 1
  else if f % 2 = 0 then f else f + 1

/-- Python round() of a modelled float. -/
def pyRound (x : PyFloat) : Int :=
  pyRoundFrac x.num x.den

/-- Helper for pyDigitsVal: consume digits with single underscores
allowed between digit groups, as Python int() literals do. -/
def pyDigitsValGo : List Char → Nat → Option Nat
  | [], acc => some acc
  | c :: tl, acc =>
    if c.isDigit then pyDigitsValGo tl (10 * acc + (c.toNat - 48))
    else if c = '_' then
      match tl with
      | d :: tl2 =>
        if d.isDigit then pyDigitsValGo tl2 (10 * acc + (d.toNat - 48)) else none
      | [] => none
    else none

/-- Digit-group value of a character list: at least one digit, single
underscores permitted between digits, nothing else. -/
def pyDigitsVal : List Char → Option Nat
  | [] => none
  | c :: tl => if c.isDigit then pyDigitsValGo tl (c.toNat - 48) else none

/-- Python int(s) on an ASCII decimal literal: optional surrounding
whitespace, optional sign, digits with optional single underscores. -/
def pyIntOfString (s : String) : Option Int :=
  let t := pyStripChars s.data
  match t with
  | '+' :: tl => (pyDigitsVal tl).map (fun n => (n : Int))
  | '-' :: tl => (pyDigitsVal tl).map (fun n => -(n : Int))
  | _ => (pyDigitsVal t).map (fun n => (n : Int))

/-! ### src/utils.py -/

/-- utils.map_proxmox_status_to_netbox: running maps to active, stopped
to offline, everything else (including a missing status) to staged. -/
def map_proxmox_status_to_netbox (proxmox_status : Option String) : String :=
  match proxmox_status with
  | some "running" => "active"
  | some "stopped" => "offline"
  | _ => "staged"

/-! ### src/proxmox_handler.py: size parsing -/

/-- proxmox_handler._parse_size_to_mb.  The regex
(\d+\.?\d*)\s*([KMGT])?B? is matched at the start of the uppercased
string (re.match); it succeeds exactly when the string starts with a
digit.  On regex failure the code falls back to int(size_str) taken as
bytes; if that fails too the result is None (logged, not raised). -/
def parse_size_to_mb (size_str : String) : Option Int :=
  if size_str = "" then none
  else
    let cs := (pyUpper size_str).data
    let ds1 := cs.takeWhile Char.isDigit
    if ds1.isEmpty then
      match pyIntOfString size_str with
      | some n => some (pyRoundFrac n (1024 * 1024))
      | none => none
    else
      let rest1 := cs.dropWhile Char.isDigit
      let (ds2, rest2) :=
        match rest1 with
        | '.' :: tl => (tl.takeWhile Char.isDigit, tl.dropWhile Char.isDigit)
        | _ => ([], rest1)
      let rest3 := rest2.dropWhile pyIsSpace
      let num := pyFloatOfDigits ds1 ds2
      match rest3 with
      | 'T' :: _ => some (pyRound (num.mulNat (1024 * 1024)))
      | 'G' :: _ => some (pyRound (num.mulNat 1024))
      | 'M' :: _ => some (pyRound num)
      | 'K' :: _ => some (pyRound (num.divNat 1024))
      | _ => some (pyRound (num.mulNat 1024))

/-! ### src/proxmox_handler.py: QEMU boot disk selection -/

/-- proxmox_handler._process_resource_config, boot-disk-key fragment
(lines 432 to 453).  The config dict is modelled as an association
list; config.get with a default becomes lookup plus getD.  Note the
source computes order_str as boot_config.split("order=")[1].split(";")[0],
cutting the order list at its first semicolon before filtering out
net entries. -/
def qemu_boot_disk_key (config : List (String × String)) : Option String :=
  let boot_config := (config.lookup "boot").getD ""
  let key1 : Option String :=
    if pyContains boot_config "order=" then
      let order_str := ((pySplit ((pySplit boot_config "order=").getD 1 "") ";").headD "")
      let potential := (pySplit order_str ";").filter (fun bk => ¬ pyStartsWith bk "net")
      potential.head?
    else if boot_config ≠ "" ∧ ¬ (pyContains boot_config "=" ∨ pyContains boot_config ";") then
      if ¬ pyStartsWith boot_config "net" then some boot_config else none
    else none
  match key1 with
  | some k => some k
  | none =>
    match config.lookup "bootdisk" with
    | some bd =>
      if bd ≠ "" then (if ¬ pyStartsWith bd "net" then some bd else none) else none
    | none => none

/-- Boot-disk selection following the words of the claim: the boot disk
is the first non-network device named in the order=... list of the boot
field (skipping entries that start with net), with the bare single
device form also accepted, falling back to the legacy bootdisk field
when the boot-order directive yields no disk device. -/
def boot_disk_key_spec (config : List (String × String)) : Option String :=
  let boot_config := (config.lookup "boot").getD ""
  let key1 : Option String :=
    if pyContains boot_config "order=" then
      let order_list := pySplit ((pySplit boot_config "order=").getD 1 "") ";"
      (order_list.filter (fun bk => ¬ pyStartsWith bk "net")).head?
    else if boot_config ≠ "" ∧ ¬ (pyContains boot_config "=" ∨ pyContains boot_config ";") then
      if ¬ pyStartsWith boot_config "net" then some boot_config else none
    else none
  match key1 with
  | some k => some k
  | none =>
    match config.lookup "bootdisk" with
    | some bd =>
      if bd ≠ "" then (if ¬ pyStartsWith bd "net" then some bd else none) else none
    | none => none

/-! ### src/proxmox_handler.py: network interface extraction -/

/-- Address entry collected from the QEMU agent.  The source validates
each raw (address, prefix) pair through the external ipaddress library
and stores the CIDR string plus family; the selection step re-reads the
classification flags from ipaddress.  The library is external to this
repository, so entries carry its outputs as fields: the CIDR string,
the family string, and the three classification flags. -/
structure AgentIp where
  address : String
  family : String
  link_local : Bool
  loopback : Bool
  multicast : Bool
  deriving Repr, DecidableEq

/-- One interface reported by the QEMU agent. -/
structure AgentIface where
  hardware_address : Option String
  ip_addresses : List AgentIp
  deriving Repr, DecidableEq

/-- Normalized network interface dictionary produced by
extract_network_interfaces_from_config and consumed by
sync_vm_interfaces (keys read there with .get, hence Option fields). -/
structure PIface where
  name : Option String
  mac_address : Option String
  ip_cidr : Option String
  bridge : Option String
  model : Option String
  vlan_tag : Option Int
  agent_ips : List AgentIp
  deriving Repr, DecidableEq

/-- Association-list insert with Python dict semantics: an existing key
keeps its position and gets the new value, a new key is appended. -/
def pyDictInsert {κ α : Type} [DecidableEq κ] (m : List (κ × α)) (k : κ) (v : α) :
    List (κ × α) :=
  if m.any (fun p => p.1 = k) then m.map (fun p => if p.1 = k then (k, v) else p)
  else m ++ [(k, v)]

/-- Python dict(pairs) built from item.split("=", 1) over the
comma-separated parts that contain an equals sign. -/
def pyPairsToDict (items : List String) : List (String × String) :=
  items.foldl
    (fun m item =>
      if pyContains item "=" then
        match pySplit1 item "=" with
        | [k, v] => pyDictInsert m k v
        | _ => m
      else m)
    []

/-- Known QEMU network device models (proxmox_handler lines 548 to 559). -/
def known_qemu_models : List String :=
  ["virtio", "e1000", "rtl8139", "vmxnet3", "i82551", "i82557b", "i82559er", "pcnet", "ne2k_pci", "ne2k_isa"]

/-- Agent-IP selection when no static IP is configured (lines 624 to
661): first a global IPv4, then a global IPv6, then any address that is
neither loopback nor multicast. -/
def select_agent_ip (agent_ips : List AgentIp) : Option AgentIp :=
  match agent_ips.find? (fun i =>
      i.family == "ipv4" && !i.link_local && !i.loopback && !i.multicast) with
  | some i => some i
  | none =>
    match agent_ips.find? (fun i =>
        i.family == "ipv6" && !i.link_local && !i.loopback && !i.multicast) with
    | some i => some i
    | none => agent_ips.find? (fun i => !i.loopback && !i.multicast)

/-- Body of the net-key loop of extract_network_interfaces_from_config
for one config entry (key, value). -/
def extract_one_interface (resource_type : String)
    (agent_network_data : Option (List AgentIface)) (key value : String) : Option PIface :=
  let parts := pyPairsToDict (pySplit value ",")
  let iface_name := (parts.lookup "name").getD key
  let bridge := parts.lookup "bridge"
  let vlan_tag : Option Int :=
    match parts.lookup "tag" with
    | some t => pyIntOfString t
    | none => none
  let mac0 : Option String :=
    match parts.lookup "hwaddr" with
    | some m => some m
    | none =>
      let device_part := (pySplit value ",").headD ""
      if pyContains device_part "=" then
        match pySplit1 device_part "=" with
        | [_, mac_candidate] =>
          if mac_candidate.data.length == 17 && ((pySplit mac_candidate ":").length - 1) == 5 then
            some mac_candidate
          else none
        | _ => none
      else none
  match mac0 with
  | none => none
  | some m =>
    if m = "" then none
    else
      let model : Option String :=
        if resource_type == "qemu" then
          let model_candidate := (pySplit ((pySplit value "=").headD "") ",").headD ""
          if known_qemu_models.contains model_candidate then some model_candidate else none
        else if resource_type == "lxc" then some "veth"
        else none
      let mac := pyUpper m
      let ip_cidr : Option String :=
        match parts.lookup "ip" with
        | some ip_value =>
          if pyContains ip_value "/" && pyLower ip_value ≠ "dhcp" then some ip_value else none
        | none => none
      let agent_ips : List AgentIp :=
        if resource_type == "qemu" then
          match agent_network_data with
          | some data =>
            match data.find? (fun a =>
                match a.hardware_address with
                | some am => pyUpper am == pyUpper mac
                | none => false) with
            | some a => a.ip_addresses
            | none => []
          | none => []
        else []
      let derived_ip_cidr_from_agent : Option String :=
        if ip_cidr.isNone && !agent_ips.isEmpty then
          (select_agent_ip agent_ips).map (fun i => i.address)
        else none
      some
        { name := some iface_name
          mac_address := some mac
          ip_cidr := ip_cidr <|> derived_ip_cidr_from_agent
          bridge := bridge
          model := model
          vlan_tag := vlan_tag
          agent_ips := agent_ips }

/-- proxmox_handler.extract_network_interfaces_from_config: walks the
config entries whose key starts with net, parses the per-slot value,
and keeps only interfaces with a resolvable MAC (uppercased). -/
def extract_network_interfaces_from_config (config : List (String × String))
    (resource_type : String) (agent_network_data : Option (List AgentIface)) : List PIface :=
  config.foldl
    (fun acc kv =>
      if pyStartsWith kv.1 "net" then
        match extract_one_interface resource_type agent_network_data kv.1 kv.2 with
        | some iface => acc ++ [iface]
        | none => acc
      else acc)
    []

/-! ### NetBox registry model

The registry is a record of object tables plus a fresh-id counter.
Every attempted write is logged as an Op; an update that violates the
registry name-uniqueness constraint is logged but leaves the state
unchanged (the source catches the RequestError and continues). -/

/-- Custom fields attached to a NetBox VM.  The Python payload is a
dict filtered to non-None values; a record of Option fields compared
for equality models the filtered dict faithfully because the registry
records store exactly what this application writes. -/
structure CustomFieldsVM where
  vmid : Option Int
  vm_status : Option String
  vm_last_sync : Option String
  cpu_sockets : Option Int
  min_memory_mb : Option Int
  qemu_cpu_type : Option String
  qemu_bios_type : Option String
  qemu_machine_type : Option String
  qemu_numa_enabled : Option Bool
  qemu_cores_per_socket : Option Int
  qemu_boot_order : Option String
  lxc_architecture : Option String
  lxc_unprivileged : Option Bool
  lxc_features : Option String
  boot_disk_storage : Option String
  boot_disk_format : Option String
  lxc_rootfs_storage : Option String
  deriving Repr, DecidableEq

/-- NetBox virtual machine record. -/
structure NBVm where
  id : Nat
  name : String
  status : String
  memory : Option Int
  vcpus : Option Int
  disk : Option Int
  cluster : Option Nat
  comments : String
  tags : List Nat
  platform : Option Nat
  custom_fields : CustomFieldsVM
  deriving Repr, DecidableEq

/-- NetBox virtual disk record. -/
structure NBDisk where
  id : Nat
  virtual_machine : Nat
  name : String
  size : Int
  description : String
  deriving Repr, DecidableEq

/-- Custom fields of a VM interface (bridge, interface_model). -/
structure IfaceCF where
  bridge : Option String
  interface_model : Option String
  deriving Repr, DecidableEq

/-- NetBox VM interface record. -/
structure NBIface where
  id : Nat
  virtual_machine : Nat
  name : String
  itype : String
  enabled : Bool
  custom_fields : IfaceCF
  mode : Option String
  untagged_vlan : Option Nat
  primary_mac_address : Option Nat
  deriving Repr, DecidableEq

/-- NetBox MACAddress object (first-class link-address entity). -/
structure MacObj where
  id : Nat
  mac_address : String
  assigned_object_type : Option String
  assigned_object_id : Option Nat
  deriving Repr, DecidableEq

/-- NetBox IP address record. -/
structure IPObj where
  id : Nat
  address : String
  status : String
  assigned_object_type : Option String
  assigned_object_id : Option Nat
  deriving Repr, DecidableEq

/-- NetBox VLAN record. -/
structure VlanObj where
  id : Nat
  vid : Int
  name : String
  deriving Repr, DecidableEq

/-- NetBox tag record. -/
structure TagObj where
  id : Nat
  name : String
  slug : String
  deriving Repr, DecidableEq

/-- NetBox platform record. -/
structure PlatformObj where
  id : Nat
  name : String
  slug : String
  deriving Repr, DecidableEq

/-- NetBox cluster record. -/
structure ClusterObj where
  id : Nat
  name : String
  type_id : Nat
  deriving Repr, DecidableEq

/-- NetBox cluster type record. -/
structure ClusterTypeObj where
  id : Nat
  name : String
  deriving Repr, DecidableEq

/-- Value of the mgmt_only attribute on a DCIM interface as the orphan
loop of sync_node_interfaces_and_ips observes it: possibly missing,
a boolean, or a string (the source checks is True first and then the
uppercased string form against YES). -/
inductive MgmtOnly where
  | missing
  | bool (b : Bool)
  | str (s : String)
  deriving Repr, DecidableEq

/-- Custom fields of a node (device) interface. -/
structure NodeIfaceCF where
  proxmox_interface_type : Option String
  proxmox_interface_ports : Option String
  deriving Repr, DecidableEq

/-- NetBox DCIM interface record (on a device). -/
structure DcimIface where
  id : Nat
  device : Nat
  name : String
  itype : String
  enabled : Bool
  description : Option String
  custom_fields : Option NodeIfaceCF
  mgmt_only : MgmtOnly
  primary_mac_address : Option Nat
  deriving Repr, DecidableEq

/-- Whole registry state.  Fresh ids are assigned from next_id, which
starts at 1 (NetBox ids are positive, and the source tests object ids
for truthiness). -/
structure NBState where
  vms : List NBVm
  disks : List NBDisk
  ifaces : List NBIface
  macs : List MacObj
  ips : List IPObj
  vlans : List VlanObj
  tags : List TagObj
  platforms : List PlatformObj
  clusters : List ClusterObj
  cluster_types : List ClusterTypeObj
  dcim_ifaces : List DcimIface
  next_id : Nat
  deriving Repr, DecidableEq

/-- Empty registry. -/
def NBState.empty : NBState :=
  ⟨[], [], [], [], [], [], [], [], [], [], [], 1⟩

/-- Payload for creating or updating a NetBox VM (sync_orchestrator
lines 524 to 534).  Fields whose value would be None are dropped from
the Python dict before sending; Option fields model that directly.
The key insertion order of the dict is name, status, memory, vcpus,
disk, cluster, comments, tags, platform, custom_fields. -/
structure VMPayload where
  name : String
  status : String
  memory : Option Int
  vcpus : Int
  disk : Option Int
  cluster : Option Nat
  comments : String
  tags : Option (List Nat)
  platform : Option Nat
  custom_fields : CustomFieldsVM
  deriving Repr, DecidableEq

/-- Update payload for a virtual disk (size and description fields
added only when they differ). -/
structure DiskUpdate where
  size : Option Int
  description : Option String
  deriving Repr, DecidableEq

/-- Update payload for a VM interface.  The outer Option marks whether
the key is present in the payload, the inner value is what is sent
(mode, untagged_vlan and primary_mac_address can be set to null). -/
structure IfaceUpdate where
  name : Option String
  enabled : Option Bool
  custom_fields : Option IfaceCF
  mode : Option (Option String)
  untagged_vlan : Option (Option Nat)
  primary_mac_address : Option (Option Nat)
  deriving Repr, DecidableEq

/-- Empty interface update payload. -/
def IfaceUpdate.empty : IfaceUpdate :=
  ⟨none, none, none, none, none, none⟩

/-- Test whether the interface update dict has any key. -/
def IfaceUpdate.isEmptyPayload (u : IfaceUpdate) : Bool :=
  u.name.isNone && u.enabled.isNone && u.custom_fields.isNone &&
    u.mode.isNone && u.untagged_vlan.isNone && u.primary_mac_address.isNone

/-- Creation payload for a VM interface (lines 210 to 224; None values
are removed before the call). -/
structure IfaceCreate where
  virtual_machine : Nat
  name : String
  enabled : Bool
  itype : String
  custom_fields : Option IfaceCF
  mode : Option String
  untagged_vlan : Option Nat
  deriving Repr, DecidableEq

/-- Update payload for a DCIM (device) interface. -/
structure DevIfaceUpdate where
  itype : Option String
  enabled : Option Bool
  description : Option String
  custom_fields : Option NodeIfaceCF
  primary_mac_address : Option Nat
  deriving Repr, DecidableEq

/-- Test whether the device interface update dict has any key. -/
def DevIfaceUpdate.isEmptyPayload (u : DevIfaceUpdate) : Bool :=
  u.itype.isNone && u.enabled.isNone && u.description.isNone && u.custom_fields.isNone &&
    u.primary_mac_address.isNone

/-- One attempted write call against the registry, as logged by the
model.  Reads are not logged. -/
inductive Op where
  | createClusterType (name : String)
  | createCluster (name : String) (type_id : Nat)
  | createTag (name : String)
  | createPlatform (name : String)
  | createVlan (vid : Int)
  | createVM (payload : VMPayload)
  | updateVM (id : Nat) (payload : VMPayload)
  | renameVM (id : Nat) (new_name : String)
  | markDeleted (id : Nat) (ts : String)
  | createDisk (vm_id : Nat) (name : String) (size : Int) (description : String)
  | updateDisk (id : Nat) (name : String) (upd : DiskUpdate)
  | deleteDisk (id : Nat) (name : String)
  | createIface (payload : IfaceCreate)
  | updateIface (id : Nat) (name : String) (upd : IfaceUpdate)
  | createMac (mac : String)
  | assignMac (mac_id : Nat) (otype : String) (oid : Nat)
  | createIp (address : String) (otype : String) (oid : Nat)
  | reassignIp (ip_id : Nat) (otype : String) (oid : Nat)
  | createDevIface (device_id : Nat) (name : String) (itype : String)
  | updateDevIface (id : Nat) (name : String) (upd : DevIfaceUpdate)
  | deleteDevIface (id : Nat) (name : String)
  deriving Repr, DecidableEq

/-! ### src/netbox_handler.py get-or-create helpers, as state functions -/

/-- Slug derived from a name by lowercasing and replacing spaces
(netbox_handler tag and cluster-type slugs). -/
def simpleSlug (name : String) : String :=
  pyReplace (pyLower name) " " "-"

/-- One tag of the get_or_create_netbox_tags loop: resolve the name by
name, then by slug, creating the tag when absent. -/
def get_or_create_tag_step (acc : NBState × List Op × List Nat) (n : String) :
    NBState × List Op × List Nat :=
  match acc.1.tags.find? (fun t => t.name == n) with
  | some t => (acc.1, acc.2.1, acc.2.2 ++ [t.id])
  | none =>
    match acc.1.tags.find? (fun t => t.slug == simpleSlug n) with
    | some t => (acc.1, acc.2.1, acc.2.2 ++ [t.id])
    | none =>
      let t : TagObj := ⟨acc.1.next_id, n, simpleSlug n⟩
      ({ acc.1 with tags := acc.1.tags ++ [t], next_id := acc.1.next_id + 1 },
        acc.2.1 ++ [.createTag n], acc.2.2 ++ [t.id])

/-- netbox_handler.get_or_create_netbox_tags: resolve each tag name by
name, then by slug, creating it when absent; returns the tag ids. -/
def get_or_create_netbox_tags (st : NBState) (tag_names : List String) :
    NBState × List Op × List Nat :=
  tag_names.foldl get_or_create_tag_step (st, [], [])

/-- netbox_handler.get_or_create_cluster_type. -/
def get_or_create_cluster_type (st : NBState) (cluster_type_name : String) :
    NBState × List Op × Option ClusterTypeObj :=
  if cluster_type_name = "" then (st, [], none)
  else
    match st.cluster_types.find? (fun t => t.name == cluster_type_name) with
    | some t => (st, [], some t)
    | none =>
      let t : ClusterTypeObj := ⟨st.next_id, cluster_type_name⟩
      ({ st with cluster_types := st.cluster_types ++ [t], next_id := st.next_id + 1 },
        [.createClusterType cluster_type_name], some t)

/-- netbox_handler.get_or_create_cluster: fetch the cluster by name,
else resolve or create its type and create the cluster. -/
def get_or_create_cluster (st : NBState) (cluster_name cluster_type_name : String) :
    NBState × List Op × Option ClusterObj :=
  if cluster_type_name = "" then (st, [], none)
  else
    match st.clusters.find? (fun c => c.name == cluster_name) with
    | some c => (st, [], some c)
    | none =>
      let (st, ops, ctype) :=
        match st.cluster_types.find? (fun t => t.name == cluster_type_name) with
        | some t => (st, ([] : List Op), some t)
        | none =>
          let t : ClusterTypeObj := ⟨st.next_id, cluster_type_name⟩
          ({ st with cluster_types := st.cluster_types ++ [t], next_id := st.next_id + 1 },
            [.createClusterType cluster_type_name], some t)
      match ctype with
      | none => (st, ops, none)
      | some t =>
        let c : ClusterObj := ⟨st.next_id, cluster_name, t.id⟩
        ({ st with clusters := st.clusters ++ [c], next_id := st.next_id + 1 },
          ops ++ [.createCluster cluster_name t.id], some c)

/-- Slug used by get_or_create_netbox_platform. -/
def platformSlug (name : String) : String :=
  pyReplace (pyReplace (pyReplace (pyLower name) " " "-") "_" "-") "." "-"

/-- netbox_handler.get_or_create_netbox_platform: resolve by name, then
by slug, else create; returns the platform id. -/
def get_or_create_netbox_platform (st : NBState) (platform_name : String) :
    NBState × List Op × Option Nat :=
  if platform_name = "" then (st, [], none)
  else
    match st.platforms.find? (fun p => p.name == platform_name) with
    | some p => (st, [], some p.id)
    | none =>
      match st.platforms.find? (fun p => p.slug == platformSlug platform_name) with
      | some p => (st, [], some p.id)
      | none =>
        let p : PlatformObj := ⟨st.next_id, platform_name, platformSlug platform_name⟩
        ({ st with platforms := st.platforms ++ [p], next_id := st.next_id + 1 },
          [.createPlatform platform_name], some p.id)

/-- netbox_handler.get_or_create_netbox_vlan: a zero VLAN id is falsy
and yields None; otherwise resolve by vid or create VLAN_vid. -/
def get_or_create_netbox_vlan (st : NBState) (vlan_id : Int) :
    NBState × List Op × Option Nat :=
  if vlan_id = 0 then (st, [], none)
  else
    match st.vlans.find? (fun v => v.vid == vlan_id) with
    | some v => (st, [], some v.id)
    | none =>
      let v : VlanObj := ⟨st.next_id, vlan_id, "VLAN_" ++ toString vlan_id⟩
      ({ st with vlans := st.vlans ++ [v], next_id := st.next_id + 1 },
        [.createVlan vlan_id], some v.id)

/-- netbox_handler.get_or_create_and_assign_netbox_mac_address: search
the MACAddress objects holding the uppercased string; reuse the first
one already assigned to exactly this interface; otherwise create a new
object and assign it.  The defensive uniqueness-violation recovery
branch of the source is unreachable here because the registry model
does not constrain MACAddress strings, matching the primary code path
(the source explicitly creates a new object even when other objects
with the same string exist). -/
def get_or_create_and_assign_netbox_mac_address (st : NBState) (mac_str : String)
    (assign_to_interface_id : Option Nat) (assigned_object_type : Option String) :
    NBState × List Op × Option Nat :=
  if mac_str = "" then (st, [], none)
  else
    let mac_str_upper := pyUpper mac_str
    let candidates := st.macs.filter (fun o => o.mac_address == mac_str_upper)
    let matched : Option MacObj :=
      match assign_to_interface_id, assigned_object_type with
      | some i, some t =>
        candidates.find? (fun o =>
          o.mac_address == mac_str_upper &&
          o.assigned_object_id == some i &&
          (o.assigned_object_type.map pyLower) == some (pyLower t))
      | _, _ => none
    match matched with
    | some o => (st, [], some o.id)
    | none =>
      let created : MacObj := ⟨st.next_id, mac_str_upper, none, none⟩
      let st1 : NBState := { st with macs := st.macs ++ [created], next_id := st.next_id + 1 }
      match assign_to_interface_id, assigned_object_type with
      | some i, some t =>
        let st2 : NBState :=
          { st1 with macs := st1.macs.map (fun o =>
              if o.id == created.id then
                { o with assigned_object_type := some t, assigned_object_id := some i }
              else o) }
        (st2, [.createMac mac_str_upper, .assignMac created.id t i], some created.id)
      | _, _ => (st1, [.createMac mac_str_upper], some created.id)

/-- netbox_handler.get_or_create_device_interface: fetch the device
interface by name, updating type, enabled, description and custom
fields when they differ; create it otherwise.  The MAC string field is
deliberately not written (see the source comments); a freshly created
NetBox interface has mgmt_only false. -/
def get_or_create_device_interface (st : NBState) (device_id : Nat) (iface_name iface_type : String)
    (enabled : Bool) (description : Option String) (custom_fields : Option NodeIfaceCF) :
    NBState × List Op × Option Nat :=
  if iface_name = "" || iface_type = "" then (st, [], none)
  else
    match st.dcim_ifaces.find? (fun r => r.device == device_id && r.name == iface_name) with
    | some r =>
      let upd : DevIfaceUpdate :=
        { itype := if r.itype ≠ iface_type then some iface_type else none
          enabled := if r.enabled ≠ enabled then some enabled else none
          description :=
            match description with
            | some d => if d ≠ "" && r.description ≠ some d then some d else none
            | none => none
          custom_fields :=
            match custom_fields with
            | some cf => if r.custom_fields ≠ some cf then some cf else none
            | none => none
          primary_mac_address := none }
      if upd.isEmptyPayload then (st, [], some r.id)
      else
        let st1 : NBState :=
          { st with dcim_ifaces := st.dcim_ifaces.map (fun x =>
              if x.id == r.id then
                { x with
                  itype := (upd.itype).getD x.itype
                  enabled := (upd.enabled).getD x.enabled
                  description := match upd.description with | some d => some d | none => x.description
                  custom_fields := match upd.custom_fields with | some c => some c | none => x.custom_fields }
              else x) }
        (st1, [.updateDevIface r.id iface_name upd], some r.id)
    | none =>
      let r : DcimIface :=
        { id := st.next_id
          device := device_id
          name := iface_name
          itype := iface_type
          enabled := enabled
          description := match description with | some d => if d ≠ "" then some d else none | none => none
          custom_fields := custom_fields
          mgmt_only := .bool false
          primary_mac_address := none }
      ({ st with dcim_ifaces := st.dcim_ifaces ++ [r], next_id := st.next_id + 1 },
        [.createDevIface device_id iface_name iface_type], some r.id)

/-! ### src/sync_orchestrator.py: virtual disk reconciliation -/

/-- Normalized virtual disk dictionary produced by
_extract_virtual_disks and consumed by sync_vm_virtual_disks (keys
read there with .get, hence Option fields). -/
structure PDisk where
  name : Option String
  size_mb : Option Int
  storage_id : Option String
  format : Option String
  is_boot_disk : Bool
  mount_point : Option String
  proxmox_raw_config : Option String
  volume_name_or_path : Option String
  deriving Repr, DecidableEq

/-- Python comparison nb_disk_obj.description != p_raw_config between
the stored string and the optional raw config. -/
def disk_description_differs (stored : String) (raw : Option String) : Bool :=
  match raw with
  | some r => stored ≠ r
  | none => true

/-- Loop state of the disk reconciliation: remaining name-keyed map of
existing registry disks, the processed source names, the registry
state and the ops so far. -/
structure DiskLoopState where
  map : List (String × NBDisk)
  processed : List String
  st : NBState
  ops : List Op
  deriving Repr, DecidableEq

/-- Apply a disk update payload to the registry. -/
def applyDiskUpdate (st : NBState) (disk_id : Nat) (u : DiskUpdate) : NBState :=
  { st with disks := st.disks.map (fun d =>
      if d.id == disk_id then
        { d with
          size := (u.size).getD d.size
          description := (u.description).getD d.description }
      else d) }

/-- Invalid-size test of the disk loop (lines 69 to 75): the size is
missing or non-positive. -/
def disk_invalid (p : PDisk) : Bool :=
  match p.size_mb with | none => true | some s => s ≤ 0

/-- One iteration of the source-disk loop of sync_vm_virtual_disks
(lines 54 to 103): skip unnamed disks; record the name as processed;
drop invalid-size disks from the orphan map without writing; update a
name match if size or description differ; create otherwise. -/
def sync_vm_virtual_disks_step (vm_id : Nat) (acc : DiskLoopState) (p : PDisk) : DiskLoopState :=
  match p.name with
  | none => acc
  | some p_name =>
    if p_name = "" then acc
    else
      let acc := { acc with processed := acc.processed ++ [p_name] }
      if disk_invalid p then
        { acc with map := acc.map.filter (fun kv => kv.1 ≠ p_name) }
      else
        let sz := (p.size_mb).getD 0
        match acc.map.lookup p_name with
        | some nb_disk =>
          let map' := acc.map.filter (fun kv => kv.1 ≠ p_name)
          let upd : DiskUpdate :=
            { size := if nb_disk.size ≠ sz then some sz else none
              description :=
                if disk_description_differs nb_disk.description p.proxmox_raw_config then
                  some ((p.proxmox_raw_config).getD "")
                else none }
          if upd = ⟨none, none⟩ then { acc with map := map' }
          else
            { acc with
              map := map'
              st := applyDiskUpdate acc.st nb_disk.id upd
              ops := acc.ops ++ [.updateDisk nb_disk.id p_name upd] }
        | none =>
          let desc := (p.proxmox_raw_config).getD ""
          let newDisk : NBDisk := ⟨acc.st.next_id, vm_id, p_name, sz, desc⟩
          { acc with
            st := { acc.st with disks := acc.st.disks ++ [newDisk], next_id := acc.st.next_id + 1 }
            ops := acc.ops ++ [.createDisk vm_id p_name sz desc] }

/-- sync_orchestrator.sync_vm_virtual_disks: reconcile the source disk
list of one VM against the registry and delete the orphaned leftovers
of the name map. -/
def sync_vm_virtual_disks (st : NBState) (netbox_vm_id : Nat) (proxmox_disks_data : List PDisk) :
    NBState × List Op :=
  let existing := st.disks.filter (fun d => d.virtual_machine == netbox_vm_id)
  let map0 := existing.foldl (fun m d => pyDictInsert m d.name d) []
  let res := proxmox_disks_data.foldl (sync_vm_virtual_disks_step netbox_vm_id) ⟨map0, [], st, []⟩
  let finish := res.map.foldl
    (fun (a : NBState × List Op) kv =>
      ({ a.1 with disks := a.1.disks.filter (fun d => d.id ≠ kv.2.id) },
        a.2 ++ [.deleteDisk kv.2.id kv.1]))
    (res.st, res.ops)
  finish

/-! ### src/sync_orchestrator.py: VM interface reconciliation -/

/-- NetBox content type of a VM interface. -/
def NETBOX_OBJECT_TYPE_VMINTERFACE : String := "virtualization.vminterface"

/-- NetBox content type of a DCIM interface. -/
def NETBOX_OBJECT_TYPE_DCIM_INTERFACE : String := "dcim.interface"

/-- Apply an interface update payload to the registry. -/
def applyIfaceUpdate (st : NBState) (iface_id : Nat) (u : IfaceUpdate) : NBState :=
  { st with ifaces := st.ifaces.map (fun i =>
      if i.id == iface_id then
        { i with
          name := (u.name).getD i.name
          enabled := (u.enabled).getD i.enabled
          custom_fields := (u.custom_fields).getD i.custom_fields
          mode := match u.mode with | some m => m | none => i.mode
          untagged_vlan := match u.untagged_vlan with | some v => v | none => i.untagged_vlan
          primary_mac_address := match u.primary_mac_address with | some m => m | none => i.primary_mac_address }
      else i) }

/-- Interface custom fields built from the source data (lines 141 to
144): keys are added only for truthy values. -/
def build_iface_custom_fields (p : PIface) : IfaceCF :=
  { bridge := match p.bridge with | some b => if b ≠ "" then some b else none | none => none
    interface_model := match p.model with | some m => if m ≠ "" then some m else none | none => none }

/-- IP assignment step shared by found and created interfaces (lines
252 to 280): look the CIDR string up, reassign it when held elsewhere,
create and assign it when absent. -/
def sync_vm_iface_ip_step (st : NBState) (iface_id : Nat) (p : PIface) : NBState × List Op :=
  match p.ip_cidr with
  | none => (st, [])
  | some cidr =>
    if cidr = "" then (st, [])
    else
      match st.ips.find? (fun i => i.address == cidr) with
      | some ipobj =>
        if ipobj.assigned_object_id ≠ some iface_id ∨
            ipobj.assigned_object_type ≠ some NETBOX_OBJECT_TYPE_VMINTERFACE then
          ({ st with ips := st.ips.map (fun i =>
              if i.id == ipobj.id then
                { i with
                  assigned_object_type := some NETBOX_OBJECT_TYPE_VMINTERFACE
                  assigned_object_id := some iface_id
                  status := "active" }
              else i) },
            [.reassignIp ipobj.id NETBOX_OBJECT_TYPE_VMINTERFACE iface_id])
        else (st, [])
      | none =>
        ({ st with
            ips := st.ips ++
              [⟨st.next_id, cidr, "active", some NETBOX_OBJECT_TYPE_VMINTERFACE, some iface_id⟩]
            next_id := st.next_id + 1 },
          [.createIp cidr NETBOX_OBJECT_TYPE_VMINTERFACE iface_id])

/-- VLAN section of the interface update payload (lines 179 to 191):
resolve or create the VLAN and set access mode with the untagged VLAN
when the source reports a tag, or clear any previously set VLAN and
mode when it does not. -/
def vm_iface_vlan_update (st : NBState) (nb0 : NBIface) (vlan_tag : Option Int)
    (upd : IfaceUpdate) : NBState × List Op × IfaceUpdate :=
  match vlan_tag with
  | some t =>
    if t ≠ 0 then
      let r := get_or_create_netbox_vlan st t
      match r.2.2 with
      | some vid =>
        if nb0.mode ≠ some "access" ∨ nb0.untagged_vlan ≠ some vid then
          (r.1, r.2.1, { upd with mode := some (some "access"), untagged_vlan := some (some vid) })
        else (r.1, r.2.1, upd)
      | none => (r.1, r.2.1, upd)
    else
      if nb0.untagged_vlan.isSome || nb0.mode == some "access" then
        (st, [], { upd with mode := some none, untagged_vlan := some none })
      else (st, [], upd)
  | none =>
    if nb0.untagged_vlan.isSome || nb0.mode == some "access" then
      (st, [], { upd with mode := some none, untagged_vlan := some none })
    else (st, [], upd)

/-- VLAN section of the interface creation payload (lines 216 to
221). -/
def vm_iface_vlan_create (st : NBState) (vlan_tag : Option Int) :
    NBState × List Op × Option (String × Nat) :=
  match vlan_tag with
  | some t =>
    if t ≠ 0 then
      let r := get_or_create_netbox_vlan st t
      match r.2.2 with
      | some vid => (r.1, r.2.1, some ("access", vid))
      | none => (r.1, r.2.1, none)
    else (st, [], none)
  | none => (st, [], none)

/-- Found-interface branch of the interface loop (lines 154 to 205
plus the IP step): resolve the MAC object, assemble the update payload
field by field, apply it when nonempty, then process the IP. -/
def vm_iface_update_branch (st : NBState) (ops : List Op) (p : PIface)
    (p_name p_mac : String) (interface_custom_fields : IfaceCF) (nb0 : NBIface) :
    NBState × List Op :=
  let rmac :=
    get_or_create_and_assign_netbox_mac_address st p_mac (some nb0.id)
      (some NETBOX_OBJECT_TYPE_VMINTERFACE)
  let mac_object := rmac.2.2
  let upd1 : IfaceUpdate :=
    { IfaceUpdate.empty with
      name := if nb0.name ≠ p_name then some p_name else none
      enabled := if ¬ nb0.enabled then some true else none
      custom_fields :=
        if interface_custom_fields ≠ nb0.custom_fields then some interface_custom_fields
        else none }
  let rvlan := vm_iface_vlan_update rmac.1 nb0 p.vlan_tag upd1
  let upd3 :=
    if nb0.primary_mac_address ≠ mac_object then
      { rvlan.2.2 with primary_mac_address := some mac_object }
    else rvlan.2.2
  let rupd :=
    if upd3.isEmptyPayload then (rvlan.1, ([] : List Op))
    else (applyIfaceUpdate rvlan.1 nb0.id upd3, [.updateIface nb0.id p_name upd3])
  let rip := sync_vm_iface_ip_step rupd.1 nb0.id p
  (rip.1, ops ++ rmac.2.1 ++ rvlan.2.1 ++ rupd.2 ++ rip.2)

/-- Missing-interface branch of the interface loop (lines 206 to 250
plus the IP step): create the interface (with the VLAN payload when a
tag is present), then create, assign and link the MAC object, then
process the IP. -/
def vm_iface_create_branch (vm_id : Nat) (st : NBState) (ops : List Op) (p : PIface)
    (p_name p_mac : String) (interface_custom_fields : IfaceCF) : NBState × List Op :=
  let rvlan := vm_iface_vlan_create st p.vlan_tag
  let vlanPayload := rvlan.2.2
  let create_payload : IfaceCreate :=
    { virtual_machine := vm_id
      name := p_name
      enabled := true
      itype := "virtual"
      custom_fields :=
        if interface_custom_fields = ⟨none, none⟩ then none else some interface_custom_fields
      mode := vlanPayload.map (fun x => x.1)
      untagged_vlan := vlanPayload.map (fun x => x.2) }
  let newIface : NBIface :=
    { id := rvlan.1.next_id
      virtual_machine := vm_id
      name := p_name
      itype := "virtual"
      enabled := true
      custom_fields := (create_payload.custom_fields).getD ⟨none, none⟩
      mode := create_payload.mode
      untagged_vlan := create_payload.untagged_vlan
      primary_mac_address := none }
  let st2 : NBState :=
    { rvlan.1 with ifaces := rvlan.1.ifaces ++ [newIface], next_id := rvlan.1.next_id + 1 }
  let rmac :=
    get_or_create_and_assign_netbox_mac_address st2 p_mac (some newIface.id)
      (some NETBOX_OBJECT_TYPE_VMINTERFACE)
  let linkRes : NBState × List Op :=
    match rmac.2.2 with
    | some mid =>
      let linkUpd : IfaceUpdate := { IfaceUpdate.empty with primary_mac_address := some (some mid) }
      (applyIfaceUpdate rmac.1 newIface.id linkUpd, [.updateIface newIface.id p_name linkUpd])
    | none => (rmac.1, [])
  let rip := sync_vm_iface_ip_step linkRes.1 newIface.id p
  (rip.1, ops ++ rvlan.2.1 ++ [.createIface create_payload] ++ rmac.2.1 ++ linkRes.2 ++ rip.2)

/-- One iteration of the source-interface loop of sync_vm_interfaces
(lines 128 to 280).  Interfaces without a MAC are skipped.  A name
match is updated field by field (enabled, custom fields, VLAN access
mode, primary link address); otherwise the interface is created and
the MAC object is created, assigned and linked afterwards.  The
function never deletes registry interfaces. -/
def sync_vm_interfaces_step (vm_id : Nat) (acc : NBState × List Op) (p : PIface) :
    NBState × List Op :=
  let (st, ops) := acc
  let p_name := (p.name).getD "net_unnamed"
  let p_mac := (p.mac_address).getD ""
  if p_mac = "" then acc
  else
    let interface_custom_fields := build_iface_custom_fields p
    match (st.ifaces.filter (fun i => i.virtual_machine == vm_id && i.name == p_name)).head? with
    | some nb0 => vm_iface_update_branch st ops p p_name p_mac interface_custom_fields nb0
    | none => vm_iface_create_branch vm_id st ops p p_name p_mac interface_custom_fields

/-- sync_orchestrator.sync_vm_interfaces: reconcile the source
interfaces of one VM.  There is no orphan-deletion phase for VM
interfaces in the source. -/
def sync_vm_interfaces (st : NBState) (netbox_vm_id : Nat) (proxmox_ifaces_data : List PIface) :
    NBState × List Op :=
  proxmox_ifaces_data.foldl (sync_vm_interfaces_step netbox_vm_id) (st, [])

/-! ### src/sync_orchestrator.py: entity reconciler (sync_to_netbox) -/

/-- Source entity dictionary handed to sync_to_netbox, with the keys it
reads; keys read with .get are Option fields, the dict key type is
renamed vtype here. -/
structure VMData where
  name : String
  vmid : Int
  maxmem : Option Int
  vcpus_count : Option Int
  actual_status : Option String
  proxmox_description : Option String
  proxmox_tags : Option String
  proxmox_ostype : Option String
  vtype : Option String
  proxmox_cpu_sockets : Option Int
  proxmox_min_memory_mb : Option Int
  proxmox_qemu_cpu_type : Option String
  proxmox_qemu_bios_type : Option String
  proxmox_qemu_machine_type : Option String
  proxmox_qemu_numa_enabled : Option Bool
  proxmox_qemu_cores_per_socket : Option Int
  proxmox_qemu_boot_order : Option String
  proxmox_lxc_architecture : Option String
  proxmox_lxc_unprivileged : Option Bool
  proxmox_lxc_features : Option String
  proxmox_virtual_disks : Option (List PDisk)
  proxmox_network_interfaces : Option (List PIface)
  deriving Repr, DecidableEq

/-- In-pass lookup caches of sync_to_netbox: name to record id, name to
(vmid custom field to record id), vmid custom field to record id. -/
structure SyncCaches where
  existing_netbox_vms : List (String × Nat)
  by_name_vmid : List (String × List (Option Int × Nat))
  by_vmid : List (Int × Nat)
  deriving Repr, DecidableEq

/-- Accumulated state of the sync_to_netbox entity loop: registry
state, caches, op log and the summary counters. -/
structure SyncAcc where
  st : NBState
  caches : SyncCaches
  ops : List Op
  total_processed : Nat
  successfully_synced : Nat
  warnings : List String
  errors : List String
  deriving Repr, DecidableEq

/-- Python set.add on a list of names. -/
def setAdd (l : List String) (s : String) : List String :=
  if l.contains s then l else l ++ [s]

/-- Scope maps built at pass start (lines 306 to 341): walk the cached
registry VMs, keep the ones in the target cluster (all of them when no
cluster was obtained), and key them by name and vmid custom field. -/
def build_scope_maps (st : NBState) (cluster : Option ClusterObj) :
    List (String × List (Option Int × Nat)) × List (Int × Nat) :=
  st.vms.foldl
    (fun (maps : List (String × List (Option Int × Nat)) × List (Int × Nat)) nb_vm =>
      let is_in_scope :=
        match cluster with
        | some c => nb_vm.cluster == some c.id
        | none => true
      if is_in_scope then
        let vmid := nb_vm.custom_fields.vmid
        let inner := (maps.1.lookup nb_vm.name).getD []
        let m1 := pyDictInsert maps.1 nb_vm.name (pyDictInsert inner vmid nb_vm.id)
        let m2 :=
          match vmid with
          | some v => pyDictInsert maps.2 v nb_vm.id
          | none => maps.2
        (m1, m2)
      else maps)
    ([], [])

/-- Platform name extracted from the Notes field (lines 467 to 480):
the first line whose stripped lowercase form starts with os: and whose
remainder is nonempty wins.  Python splitlines is modelled by
splitting on the newline character. -/
def platform_name_from_description (desc : String) : Option String :=
  (pySplit desc "\n").findSome? (fun line =>
    let t := pyStrip line
    if pyStartsWith (pyLower t) "os:" then
      let potential := pyStrip ⟨t.data.drop 3⟩
      if potential ≠ "" then some potential else none
    else none)

/-- Disk-size aggregation loop of sync_to_netbox (lines 428 to 437):
sum of the positive sizes plus the flag recording whether any valid
disk was seen. -/
def calculated_disk_sum (disks : List PDisk) : Int × Bool :=
  disks.foldl
    (fun (a : Int × Bool) d =>
      match d.size_mb with
      | some v => if v > 0 then (a.1 + v, true) else a
      | none => a)
    (0, false)

/-- Custom-fields payload of a VM (lines 494 to 518), with the boot
disk information merged in. -/
def build_custom_fields_payload (vm : VMData) (now : String) : CustomFieldsVM :=
  let base : CustomFieldsVM :=
    { vmid := some vm.vmid
      vm_status := some "Deployed"
      vm_last_sync := some now
      cpu_sockets := vm.proxmox_cpu_sockets
      min_memory_mb := vm.proxmox_min_memory_mb
      qemu_cpu_type := vm.proxmox_qemu_cpu_type
      qemu_bios_type := vm.proxmox_qemu_bios_type
      qemu_machine_type := vm.proxmox_qemu_machine_type
      qemu_numa_enabled := vm.proxmox_qemu_numa_enabled
      qemu_cores_per_socket := vm.proxmox_qemu_cores_per_socket
      qemu_boot_order := vm.proxmox_qemu_boot_order
      lxc_architecture := vm.proxmox_lxc_architecture
      lxc_unprivileged := vm.proxmox_lxc_unprivileged
      lxc_features := vm.proxmox_lxc_features
      boot_disk_storage := none
      boot_disk_format := none
      lxc_rootfs_storage := none }
  match ((vm.proxmox_virtual_disks).getD []).find? (fun d => d.is_boot_disk) with
  | some d =>
    { base with
      boot_disk_storage := d.storage_id
      boot_disk_format := d.format
      lxc_rootfs_storage :=
        if vm.vtype == some "lxc" && d.name == some "rootfs" then d.storage_id else none }
  | none => base

/-- Tag names parsed from the semicolon-separated Proxmox tag string
(lines 453 to 456): split, strip, drop empties. -/
def tag_names_of (vm : VMData) : List String :=
  let s := (vm.proxmox_tags).getD ""
  if s ≠ "" then ((pySplit s ";").map pyStrip).filter (fun t => t ≠ "") else []

/-- Platform name for a VM (lines 459 to 487): the notes override wins,
else the truthy ostype. -/
def platform_name_of (vm : VMData) : Option String :=
  match platform_name_from_description ((vm.proxmox_description).getD "") with
  | some n => some n
  | none =>
    match vm.proxmox_ostype with
    | some o => if o ≠ "" then some o else none
    | none => none

/-- Disk field of the VM payload (lines 439 to 447): the sum of the
individual valid sizes when the disk list is nonempty, omitted when it
is absent or empty. -/
def disk_mb_of (vdisks : Option (List PDisk)) : Option Int :=
  let individual := vdisks.getD []
  if individual.isEmpty then none else some (calculated_disk_sum individual).1

/-- Payload construction of sync_to_netbox (lines 420 to 534): memory
in MB, vcpus, the disk total from the individual disks, status map,
comments, tags resolved and created, platform resolved from the notes
override or the ostype, and the custom fields.  Returns also the
warning flag for a disk list with no valid entry. -/
def build_vm_payload (st : NBState) (cluster_id : Option Nat) (now : String)
    (final_name : String) (vm : VMData) : NBState × List Op × VMPayload × Bool :=
  let ram_mb : Option Int :=
    match vm.maxmem with
    | some m => if m ≠ 0 then some (Int.fdiv m 1048576) else none
    | none => none
  let vcpus_int : Int := (vm.vcpus_count).getD 1
  let individual := (vm.proxmox_virtual_disks).getD []
  let sumRes := calculated_disk_sum individual
  let warn := !individual.isEmpty && !sumRes.2 && sumRes.1 == 0
  let netbox_status := map_proxmox_status_to_netbox vm.actual_status
  let comments := (vm.proxmox_description).getD ""
  let rtags : NBState × List Op × List Nat :=
    if (vm.proxmox_tags).getD "" ≠ "" then get_or_create_netbox_tags st (tag_names_of vm)
    else (st, [], [])
  let rplat : NBState × List Op × Option Nat :=
    match platform_name_of vm with
    | some n => get_or_create_netbox_platform rtags.1 n
    | none => (rtags.1, [], none)
  let payload : VMPayload :=
    { name := final_name
      status := netbox_status
      memory := ram_mb
      vcpus := vcpus_int
      disk := disk_mb_of vm.proxmox_virtual_disks
      cluster := cluster_id
      comments := comments
      tags := if rtags.2.2.isEmpty then none else some rtags.2.2
      platform := rplat.2.2
      custom_fields := build_custom_fields_payload vm now }
  (rplat.1, rtags.2.1 ++ rplat.2.1, payload, warn)

/-- Tag-set inequality used by the change detection: the id sets of
the current and new tag lists differ. -/
def tag_ids_set_ne (cur new : List Nat) : Bool :=
  !(cur.all (fun x => new.contains x) && new.all (fun x => cur.contains x))

/-- Field-by-field change detection of sync_to_netbox (lines 555 to
570) over the keys present in the None-filtered payload: tags compare
as id sets, cluster and platform by id, custom fields as the filtered
dict, everything else by value. -/
def vm_has_changes (r : NBVm) (p : VMPayload) : Bool :=
  !(r.name == p.name) ||
  !(r.status == p.status) ||
  (match p.memory with | some m => !(r.memory == some m) | none => false) ||
  !(r.vcpus == some p.vcpus) ||
  (match p.disk with | some d => !(r.disk == some d) | none => false) ||
  (match p.cluster with | some c => !(r.cluster == some c) | none => false) ||
  !(r.comments == p.comments) ||
  (match p.tags with | some ts => tag_ids_set_ne r.tags ts | none => false) ||
  (match p.platform with | some pid => !(r.platform == some pid) | none => false) ||
  !(r.custom_fields == p.custom_fields)

/-- PATCH semantics of a custom-fields dict: keys present in the
payload are set, absent keys keep their stored value. -/
def apply_cf (cur p : CustomFieldsVM) : CustomFieldsVM :=
  { vmid := match p.vmid with | some v => some v | none => cur.vmid
    vm_status := match p.vm_status with | some v => some v | none => cur.vm_status
    vm_last_sync := match p.vm_last_sync with | some v => some v | none => cur.vm_last_sync
    cpu_sockets := match p.cpu_sockets with | some v => some v | none => cur.cpu_sockets
    min_memory_mb := match p.min_memory_mb with | some v => some v | none => cur.min_memory_mb
    qemu_cpu_type := match p.qemu_cpu_type with | some v => some v | none => cur.qemu_cpu_type
    qemu_bios_type := match p.qemu_bios_type with | some v => some v | none => cur.qemu_bios_type
    qemu_machine_type := match p.qemu_machine_type with | some v => some v | none => cur.qemu_machine_type
    qemu_numa_enabled := match p.qemu_numa_enabled with | some v => some v | none => cur.qemu_numa_enabled
    qemu_cores_per_socket := match p.qemu_cores_per_socket with | some v => some v | none => cur.qemu_cores_per_socket
    qemu_boot_order := match p.qemu_boot_order with | some v => some v | none => cur.qemu_boot_order
    lxc_architecture := match p.lxc_architecture with | some v => some v | none => cur.lxc_architecture
    lxc_unprivileged := match p.lxc_unprivileged with | some v => some v | none => cur.lxc_unprivileged
    lxc_features := match p.lxc_features with | some v => some v | none => cur.lxc_features
    boot_disk_storage := match p.boot_disk_storage with | some v => some v | none => cur.boot_disk_storage
    boot_disk_format := match p.boot_disk_format with | some v => some v | none => cur.boot_disk_format
    lxc_rootfs_storage := match p.lxc_rootfs_storage with | some v => some v | none => cur.lxc_rootfs_storage }

/-- PATCH semantics of the full VM payload: keys present in the
None-filtered payload are applied, absent keys are untouched. -/
def apply_vm_payload (r : NBVm) (p : VMPayload) : NBVm :=
  { r with
    name := p.name
    status := p.status
    memory := match p.memory with | some m => some m | none => r.memory
    vcpus := some p.vcpus
    disk := match p.disk with | some d => some d | none => r.disk
    cluster := match p.cluster with | some c => some c | none => r.cluster
    comments := p.comments
    tags := match p.tags with | some ts => ts | none => r.tags
    platform := match p.platform with | some x => some x | none => r.platform
    custom_fields := apply_cf r.custom_fields p.custom_fields }

/-- Registry VM record produced by creating a VM with the given
payload. -/
def vm_of_payload (id : Nat) (p : VMPayload) : NBVm :=
  { id := id
    name := p.name
    status := p.status
    memory := p.memory
    vcpus := some p.vcpus
    disk := p.disk
    cluster := p.cluster
    comments := p.comments
    tags := (p.tags).getD []
    platform := p.platform
    custom_fields := p.custom_fields }

/-- Child synchronization dispatch (lines 617 to 619). -/
def sync_children (acc : SyncAcc) (vm_id : Nat) (vm : VMData) : SyncAcc :=
  let ri := sync_vm_interfaces acc.st vm_id ((vm.proxmox_network_interfaces).getD [])
  let rd := sync_vm_virtual_disks ri.1 vm_id ((vm.proxmox_virtual_disks).getD [])
  { acc with st := rd.1, ops := acc.ops ++ ri.2 ++ rd.2 }

/-- Rename of one conflicting registry VM (lines 388 to 416).  The
rename is skipped when the vmid custom field is missing; the update
call fails on a name-uniqueness violation (caught by the source, no
cache change).  On success the caches are adjusted exactly as the
source does: pynetbox has already set the local object name to the new
name before the cache code runs, so the stale old-name entries survive
and only the new-name entries are written. -/
def rename_conflicting_vm (proxmox_name : String) (acc : SyncAcc) (vm_id : Nat) : SyncAcc :=
  match acc.st.vms.find? (fun v => v.id == vm_id) with
  | none => acc
  | some obj =>
    match obj.custom_fields.vmid with
    | none => acc
    | some other_vmid =>
      let new_name := proxmox_name ++ " (" ++ toString other_vmid ++ ")"
      let op := Op.renameVM obj.id new_name
      if acc.st.vms.any (fun v => !(v.id == obj.id) && v.name == new_name) then
        { acc with ops := acc.ops ++ [op] }
      else
        let st' : NBState :=
          { acc.st with vms := acc.st.vms.map (fun v =>
              if v.id == obj.id then { v with name := new_name } else v) }
        let c := acc.caches
        let e1 :=
          match c.existing_netbox_vms.lookup new_name with
          | some i =>
            if i == obj.id then c.existing_netbox_vms.filter (fun kv => kv.1 ≠ new_name)
            else c.existing_netbox_vms
          | none => c.existing_netbox_vms
        let e2 := pyDictInsert e1 new_name obj.id
        let b1 :=
          match c.by_name_vmid.lookup new_name with
          | some inner0 =>
            if inner0.any (fun kv => kv.1 == some other_vmid) then
              let inner1 := inner0.filter (fun kv => kv.1 ≠ some other_vmid)
              if inner1.isEmpty then c.by_name_vmid.filter (fun kv => kv.1 ≠ new_name)
              else pyDictInsert c.by_name_vmid new_name inner1
            else c.by_name_vmid
          | none => c.by_name_vmid
        let b2 :=
          pyDictInsert b1 new_name
            (pyDictInsert ((b1.lookup new_name).getD []) (some other_vmid) obj.id)
        { acc with
          st := st'
          caches := { c with existing_netbox_vms := e2, by_name_vmid := b2 }
          ops := acc.ops ++ [op] }

/-- Per-entity body of the sync_to_netbox loop (lines 355 to 622):
match by vmid custom field, resolve the display name (appending the
vmid and renaming the bare-name holders when the name is taken by a
different vmid), build the payload, then update with change detection
or create, and finally reconcile the children. -/
def process_vm (cluster_id : Option Nat) (now : String) (acc : SyncAcc) (vm : VMData) : SyncAcc :=
  let acc := { acc with total_processed := acc.total_processed + 1 }
  let proxmox_name := vm.name
  let proxmox_vmid := vm.vmid
  let matched_id : Option Nat := acc.caches.by_vmid.lookup proxmox_vmid
  let inner := (acc.caches.by_name_vmid.lookup proxmox_name).getD []
  let is_taken := inner.any (fun kv => !(kv.1 == some proxmox_vmid))
  let final_target_name :=
    if is_taken then proxmox_name ++ " (" ++ toString proxmox_vmid ++ ")" else proxmox_name
  let acc :=
    if is_taken then
      let vms_to_rename :=
        inner.filter (fun kv =>
          !(kv.1 == some proxmox_vmid) &&
            (match acc.st.vms.find? (fun v => v.id == kv.2) with
             | some o => o.name == proxmox_name
             | none => false))
      vms_to_rename.foldl (fun a kv => rename_conflicting_vm proxmox_name a kv.2) acc
    else acc
  let rp := build_vm_payload acc.st cluster_id now final_target_name vm
  let payload := rp.2.2.1
  let acc :=
    { acc with
      st := rp.1
      ops := acc.ops ++ rp.2.1
      warnings := if rp.2.2.2 then setAdd acc.warnings final_target_name else acc.warnings }
  match matched_id with
  | some rid =>
    match acc.st.vms.find? (fun v => v.id == rid) with
    | none => acc
    | some r =>
      let status_fix :=
        r.custom_fields.vm_status == some "Deleted" &&
          payload.custom_fields.vm_status == some "Deployed"
      let has_changes := status_fix || vm_has_changes r payload
      if !has_changes then
        sync_children { acc with successfully_synced := acc.successfully_synced + 1 } r.id vm
      else
        let op := Op.updateVM r.id payload
        if acc.st.vms.any (fun v => !(v.id == r.id) && v.name == payload.name) then
          sync_children
            { acc with ops := acc.ops ++ [op], errors := setAdd acc.errors final_target_name }
            r.id vm
        else
          let st' : NBState :=
            { acc.st with vms := acc.st.vms.map (fun v =>
                if v.id == r.id then apply_vm_payload v payload else v) }
          sync_children
            { acc with
              st := st'
              ops := acc.ops ++ [op]
              successfully_synced := acc.successfully_synced + 1 }
            r.id vm
  | none =>
    let op := Op.createVM payload
    if acc.st.vms.any (fun v => v.name == payload.name) then
      { acc with
        ops := acc.ops ++ [op]
        errors := setAdd acc.errors final_target_name
        warnings := setAdd acc.warnings final_target_name }
    else
      let newVm := vm_of_payload acc.st.next_id payload
      let st' : NBState := { acc.st with vms := acc.st.vms ++ [newVm], next_id := acc.st.next_id + 1 }
      let c := acc.caches
      let c' : SyncCaches :=
        { existing_netbox_vms := pyDictInsert c.existing_netbox_vms newVm.name newVm.id
          by_name_vmid :=
            pyDictInsert c.by_name_vmid newVm.name
              (pyDictInsert ((c.by_name_vmid.lookup newVm.name).getD []) (some proxmox_vmid) newVm.id)
          by_vmid := pyDictInsert c.by_vmid proxmox_vmid newVm.id }
      sync_children
        { acc with
          st := st'
          caches := c'
          ops := acc.ops ++ [op]
          successfully_synced := acc.successfully_synced + 1 }
        newVm.id vm

/-- Name-to-record map of all fetched registry VMs
(netbox_handler.get_existing_vms as consumed by sync_to_netbox). -/
def build_existing_map (st : NBState) : List (String × Nat) :=
  st.vms.foldl (fun m v => pyDictInsert m v.name v.id) []

/-- sync_orchestrator.sync_to_netbox: resolve the cluster type and
cluster, build the scope maps from the fetched registry VMs, process
the snapshot entity by entity and return the summary counters
(processed, synced, warnings, errors). -/
def sync_to_netbox (st : NBState) (vm_data_list : List VMData)
    (netbox_cluster_name_for_sync netbox_cluster_type_name : String) (now : String) :
    NBState × List Op × (Nat × Nat × Nat × Nat) :=
  let existing_map := build_existing_map st
  let (stA, ctOps, _cluster_type_obj) := get_or_create_cluster_type st netbox_cluster_type_name
  let (stB, cOps, netbox_cluster) :=
    get_or_create_cluster stA netbox_cluster_name_for_sync netbox_cluster_type_name
  let (by_name_vmid, by_vmid) := build_scope_maps stB netbox_cluster
  let cluster_id := netbox_cluster.map (fun c => c.id)
  let acc0 : SyncAcc :=
    ⟨stB, ⟨existing_map, by_name_vmid, by_vmid⟩, ctOps ++ cOps, 0, 0, [], []⟩
  let accF := vm_data_list.foldl (process_vm cluster_id now) acc0
  (accF.st, accF.ops,
    (accF.total_processed, accF.successfully_synced, accF.warnings.length, accF.errors.length))

/-! ### src/sync_orchestrator.py: orphan sweep -/

/-- Candidate original name of a possibly disambiguated registry name:
remove the vmid suffix and strip (line 675). -/
def strip_disambiguation (name : String) (vmid : Int) : String :=
  pyStrip (pyRemoveSuffix name (" (" ++ toString vmid ++ ")"))

/-- Body of the orphan-sweep loop for one registry VM (lines 659 to
690): compute the orphan test against the active identities (under the
current and the suffix-stripped name), then mark the VM Deleted with a
fresh sync timestamp unless it already is. -/
def mark_orphaned_step (active_proxmox_vm_identities : List (String × Int)) (now : String)
    (a : NBState × List Op × Nat) (nb_vm : NBVm) : NBState × List Op × Nat :=
  let (stA, opsA, cnt) := a
  let is_orphaned :=
    match nb_vm.custom_fields.vmid with
    | some v =>
      if active_proxmox_vm_identities.contains (nb_vm.name, v) then false
      else if active_proxmox_vm_identities.contains (strip_disambiguation nb_vm.name v, v) then
        false
      else true
    | none => true
  if is_orphaned then
    if nb_vm.custom_fields.vm_status ≠ some "Deleted" then
      ({ stA with vms := stA.vms.map (fun v =>
          if v.id == nb_vm.id then
            { v with custom_fields :=
                { v.custom_fields with
                  vm_status := some "Deleted"
                  vm_last_sync := some now } }
          else v) },
        opsA ++ [.markDeleted nb_vm.id now], cnt + 1)
    else a
  else a

/-- sync_orchestrator.mark_orphaned_vms_as_deleted: for every VM of the
named cluster whose identity (name, vmid) is absent from the active
set under both the current name and the suffix-stripped name, set the
vm_status custom field to Deleted with a fresh sync timestamp, unless
it is already Deleted.  Records are never removed.  Returns None when
the cluster is missing, otherwise the (marked, errors) counters. -/
def mark_orphaned_vms_as_deleted (st : NBState) (cluster_name : String)
    (active_proxmox_vm_identities : List (String × Int)) (now : String) :
    NBState × List Op × Option (Nat × Nat) :=
  match st.clusters.find? (fun c => c.name == cluster_name) with
  | none => (st, [], none)
  | some cluster_obj =>
    let netbox_vms_in_cluster := st.vms.filter (fun v => v.cluster == some cluster_obj.id)
    if netbox_vms_in_cluster.isEmpty then (st, [], none)
    else
      let res := netbox_vms_in_cluster.foldl
        (mark_orphaned_step active_proxmox_vm_identities now) (st, [], 0)
      (res.1, res.2.1, some (res.2.2, 0))

/-! ### src/sync_orchestrator.py: node (device) interface reconciliation -/

/-- Node interface dictionary fetched from the Proxmox node API. -/
structure PNodeIface where
  name : Option String
  mac_address : Option String
  type_proxmox : Option String
  active : Bool
  ip_address : Option String
  netmask : Option String
  comments : Option String
  slaves : Option String
  bridge_ports : Option String
  deriving Repr, DecidableEq

/-- sync_orchestrator._map_proxmox_iface_type_to_netbox. -/
def map_proxmox_iface_type_to_netbox (proxmox_type : Option String) : String :=
  match proxmox_type with
  | none => "other"
  | some t0 =>
    if t0 = "" then "other"
    else
      let pt := pyLower t0
      if pt == "bridge" then "bridge"
      else if pt == "bond" then "lag"
      else if pt == "vlan" then "virtual"
      else if pt == "eth" then "1000base-t"
      else if pt == "loopback" then "virtual"
      else "other"

/-- Parse one dotted-quad octet as ipaddress does: plain digits, no
leading zero except for 0 itself, value at most 255. -/
def parseOctet (s : String) : Option Nat :=
  let cs := s.data
  if cs.isEmpty || !cs.all Char.isDigit then none
  else if cs.length > 1 && cs.headD '0' = '0' then none
  else
    let v := digitsVal cs
    if v ≤ 255 then some v else none

/-- Parse a dotted-quad IPv4 address to its 32-bit value. -/
def parseIPv4 (s : String) : Option Nat :=
  match (pySplit s ".").mapM parseOctet with
  | some [a, b, c, d] => some (((a * 256 + b) * 256 + c) * 256 + d)
  | _ => none

/-- Netmask value of a given prefix length. -/
def maskBitsOfLen (p : Nat) : Nat :=
  (2 ^ 32 - 2 ^ (32 - p)) % 2 ^ 32

/-- Parse an IPv4 netmask as ipaddress does: a prefix length, a
contiguous netmask, or a hostmask. -/
def parseNetmask4 (s : String) : Option Nat :=
  if s.data.all Char.isDigit && !s.data.isEmpty then
    let p := digitsVal s.data
    if p ≤ 32 then some p else none
  else
    match parseIPv4 s with
    | some m =>
      match (List.range 33).find? (fun p => maskBitsOfLen p = m) with
      | some p => some p
      | none =>
        match (List.range 33).find? (fun p => (2 ^ (32 - p) - 1) = m) with
        | some p => some p
        | none => none
    | none => none

/-- Dotted-quad rendering of a 32-bit IPv4 value. -/
def ipv4ToString (n : Nat) : String :=
  toString (n / 2 ^ 24 % 256) ++ "." ++ toString (n / 2 ^ 16 % 256) ++ "." ++
    toString (n / 2 ^ 8 % 256) ++ "." ++ toString (n % 256)

/-- IP handling of sync_node_interfaces_and_ips (lines 804 to 843):
build the interface CIDR with the ipaddress library, reject network
and broadcast addresses, then look up, reassign or create the address.
The ipaddress library is modelled for IPv4; other address forms take
the ValueError path (logged and skipped), which no claim touches. -/
def sync_node_iface_ip_step (st : NBState) (iface_id : Nat) (p : PNodeIface) :
    NBState × List Op :=
  match p.ip_address, p.netmask with
  | some ip, some mask =>
    if ip = "" || mask = "" then (st, [])
    else
      match parseIPv4 ip, parseNetmask4 mask with
      | some addr, some plen =>
        let network := addr / 2 ^ (32 - plen) * 2 ^ (32 - plen)
        let broadcast := network + (2 ^ (32 - plen) - 1)
        if addr = network then (st, [])
        else if addr = broadcast then (st, [])
        else
          let ip_cidr := ipv4ToString addr ++ "/" ++ toString plen
          match st.ips.find? (fun i => i.address == ip_cidr) with
          | some existing_ip =>
            if existing_ip.assigned_object_id ≠ some iface_id ∨
                existing_ip.assigned_object_type ≠ some NETBOX_OBJECT_TYPE_DCIM_INTERFACE then
              ({ st with ips := st.ips.map (fun i =>
                  if i.id == existing_ip.id then
                    { i with
                      assigned_object_type := some NETBOX_OBJECT_TYPE_DCIM_INTERFACE
                      assigned_object_id := some iface_id
                      status := "active" }
                  else i) },
                [.reassignIp existing_ip.id NETBOX_OBJECT_TYPE_DCIM_INTERFACE iface_id])
            else (st, [])
          | none =>
            ({ st with
                ips := st.ips ++
                  [⟨st.next_id, ip_cidr, "active", some NETBOX_OBJECT_TYPE_DCIM_INTERFACE,
                    some iface_id⟩]
                next_id := st.next_id + 1 },
              [.createIp ip_cidr NETBOX_OBJECT_TYPE_DCIM_INTERFACE iface_id])
      | _, _ => (st, [])
  | _, _ => (st, [])

/-- Whether the orphan loop preserves a device interface: its
mgmt_only attribute is the boolean True, or its string form uppercases
to YES (lines 852 to 859). -/
def mgmt_only_preserved (m : MgmtOnly) : Bool :=
  match m with
  | .missing => false
  | .bool b => b
  | .str s => pyUpper s == "YES"

/-- One iteration of the source loop of sync_node_interfaces_and_ips
(lines 742 to 847): skip unnamed interfaces, record the processed
name, get or create the device interface, resolve and link the MAC
object, then process the IP. -/
def sync_node_interfaces_step (device_id : Nat) (a : NBState × List Op × List String)
    (p : PNodeIface) : NBState × List Op × List String :=
  match p.name with
  | none => a
  | some p_name =>
    if p_name = "" then a
    else
      let processed := a.2.2 ++ [p_name]
      let iface_cf0 : NodeIfaceCF :=
        { proxmox_interface_type := p.type_proxmox
          proxmox_interface_ports :=
            match p.slaves with
            | some s => if s ≠ "" then some s else p.bridge_ports
            | none => p.bridge_ports }
      let iface_cf : NodeIfaceCF :=
        { proxmox_interface_type :=
            match iface_cf0.proxmox_interface_type with
            | some t => some t
            | none => none
          proxmox_interface_ports := iface_cf0.proxmox_interface_ports }
      let cfOpt := if iface_cf = ⟨none, none⟩ then none else some iface_cf
      let netbox_iface_type := map_proxmox_iface_type_to_netbox p.type_proxmox
      let rg :=
        get_or_create_device_interface a.1 device_id p_name netbox_iface_type p.active
          p.comments cfOpt
      match rg.2.2 with
      | none => (rg.1, a.2.1 ++ rg.2.1, processed)
      | some iid =>
        let macRes : NBState × List Op :=
          match p.mac_address with
          | some m =>
            if m ≠ "" then
              let rm :=
                get_or_create_and_assign_netbox_mac_address rg.1 m (some iid)
                  (some NETBOX_OBJECT_TYPE_DCIM_INTERFACE)
              match rm.2.2 with
              | some mid =>
                let cur :=
                  (rm.1.dcim_ifaces.find? (fun i => i.id == iid)).bind
                    (fun i => i.primary_mac_address)
                if cur ≠ some mid then
                  let upd : DevIfaceUpdate := ⟨none, none, none, none, some mid⟩
                  ({ rm.1 with dcim_ifaces := rm.1.dcim_ifaces.map (fun i =>
                      if i.id == iid then { i with primary_mac_address := some mid } else i) },
                    rm.2.1 ++ [.updateDevIface iid p_name upd])
                else (rm.1, rm.2.1)
              | none => (rm.1, rm.2.1)
            else (rg.1, [])
          | none => (rg.1, [])
        let rip := sync_node_iface_ip_step macRes.1 iid p
        (rip.1, a.2.1 ++ rg.2.1 ++ macRes.2 ++ rip.2, processed)

/-- Orphan deletion loop at the end of sync_node_interfaces_and_ips
(lines 849 to 864): delete every unprocessed entry of the name map
unless its mgmt_only flag preserves it. -/
def node_orphan_sweep (map0 : List (String × DcimIface)) (processedNames : List String)
    (a0 : NBState × List Op) : NBState × List Op :=
  map0.foldl
    (fun (a : NBState × List Op) kv =>
      if processedNames.contains kv.1 then a
      else if mgmt_only_preserved kv.2.mgmt_only then a
      else
        ({ a.1 with dcim_ifaces := a.1.dcim_ifaces.filter (fun i => i.id ≠ kv.2.id) },
          a.2 ++ [.deleteDevIface kv.2.id kv.1]))
    a0

/-- sync_orchestrator.sync_node_interfaces_and_ips: reconcile the node
interfaces of one device, then delete the orphaned entries of the
initial name map, preserving interfaces flagged mgmt_only. -/
def sync_node_interfaces_and_ips (st : NBState) (device_id : Nat)
    (proxmox_node_ifaces_data : List PNodeIface) : NBState × List Op :=
  let existing := st.dcim_ifaces.filter (fun i => i.device == device_id)
  let map0 := existing.foldl (fun m i => pyDictInsert m i.name i) []
  let loopRes := proxmox_node_ifaces_data.foldl (sync_node_interfaces_step device_id) (st, [], [])
  node_orphan_sweep map0 loopRes.2.2 (loopRes.1, loopRes.2.1)

/-! ### Specification-side comparison definitions and op classifiers -/

/-- Sum of the positive disk sizes as the spec words it (registry disk
total equals sum of positive-size VirtualDisk entries). -/
def spec_positive_disk_sum (disks : List PDisk) : Int :=
  ((disks.filterMap (fun d => d.size_mb)).filter (fun v => 0 < v)).sum

/-- Whether an op is a disk write (create, update or delete) naming the
given disk. -/
def Op.isDiskOpNamed (op : Op) (n : String) : Bool :=
  match op with
  | .createDisk _ nm _ _ => nm == n
  | .updateDisk _ nm _ => nm == n
  | .deleteDisk _ nm => nm == n
  | _ => false

/-- Whether an op is an entity update (the only write kind a converged
second pass performs). -/
def Op.isUpdateVM (op : Op) : Bool :=
  match op with
  | .updateVM _ _ => true
  | _ => false

/-- Whether an op deletes a device interface. -/
def Op.isDeleteDevIface (op : Op) : Bool :=
  match op with
  | .deleteDevIface _ _ => true
  | _ => false

/-- Orphan test of the sweep for one registry VM (lines 660 to 677):
the identity is absent from the active set under both the current name
and the suffix-stripped name; a missing vmid custom field counts as
orphaned. -/
def orphan_candidate (active : List (String × Int)) (v : NBVm) : Bool :=
  match v.custom_fields.vmid with
  | some vid =>
    !(active.contains (v.name, vid)) &&
      !(active.contains (strip_disambiguation v.name vid, vid))
  | none => true

/-- Record produced by the orphan-sweep write: only the vm_status and
vm_last_sync custom fields change. -/
def mark_deleted_record (now : String) (v : NBVm) : NBVm :=
  { v with custom_fields :=
      { v.custom_fields with vm_status := some "Deleted", vm_last_sync := some now } }

/-- Predicate selecting the VMs the sweep writes to: in the cluster,
orphaned, and not yet marked Deleted. -/
def sweep_marks (cluster_id : Nat) (active : List (String × Int)) (v : NBVm) : Bool :=
  v.cluster == some cluster_id && orphan_candidate active v &&
    !(v.custom_fields.vm_status == some "Deleted")

/-- Orphan test conjoined with the not-yet-Deleted test (the sweep body
without the cluster scoping). -/
def should_mark (active : List (String × Int)) (v : NBVm) : Bool :=
  orphan_candidate active v && !(v.custom_fields.vm_status == some "Deleted")

/-- One sweep write applied to the registry. -/
def markOne (now : String) (s : NBState) (i : Nat) : NBState :=
  { s with vms := s.vms.map (fun v => if v.id == i then mark_deleted_record now v else v) }

/-- Sequence of sweep writes applied to the registry. -/
def markAll (now : String) (s : NBState) (xs : List NBVm) : NBState :=
  xs.foldl (fun s v => markOne now s v.id) s

/-! ### Convergence predicates for the idempotence analysis

A registry state is converged for a snapshot entity when the pass has
nothing to write for it: the entity is matched by vmid, its name is
free of conflicts, its record equals the payload of the previous pass,
the taxonomy objects resolve without creation, and the children match
exactly.  These are the conditions the source leaves behind after a
fully successful pass. -/

/-- Tag id resolution without creation (get path of
get_or_create_netbox_tags). -/
def lookup_tag_id (st : NBState) (n : String) : Option Nat :=
  match st.tags.find? (fun t => t.name == n) with
  | some t => some t.id
  | none => (st.tags.find? (fun t => t.slug == simpleSlug n)).map (fun t => t.id)

/-- Platform id resolution without creation (get paths of
get_or_create_netbox_platform). -/
def lookup_platform_id (st : NBState) (n : String) : Option Nat :=
  match st.platforms.find? (fun p => p.name == n) with
  | some p => some p.id
  | none => (st.platforms.find? (fun p => p.slug == platformSlug n)).map (fun p => p.id)

/-- Tag ids the pass would use when every tag already exists; none when
one would have to be created. -/
def resolved_tag_ids (st : NBState) (vm : VMData) : Option (List Nat) :=
  if (vm.proxmox_tags).getD "" ≠ "" then (tag_names_of vm).mapM (lookup_tag_id st)
  else some []

/-- Platform id the pass would use when the platform already exists;
none when it would have to be created. -/
def resolved_platform_id (st : NBState) (vm : VMData) : Option (Option Nat) :=
  match platform_name_of vm with
  | some n => (lookup_platform_id st n).map some
  | none => some none

/-- Payload the pass would build when every taxonomy object already
exists; none when a tag or platform would have to be created. -/
def resolved_payload (st : NBState) (cluster_id : Option Nat) (now : String)
    (final_name : String) (vm : VMData) : Option VMPayload :=
  match resolved_tag_ids st vm with
  | none => none
  | some tag_ids =>
    match resolved_platform_id st vm with
    | none => none
    | some platform_id =>
      some
        { name := final_name
          status := map_proxmox_status_to_netbox vm.actual_status
          memory :=
            match vm.maxmem with
            | some m => if m ≠ 0 then some (Int.fdiv m 1048576) else none
            | none => none
          vcpus := (vm.vcpus_count).getD 1
          disk := disk_mb_of vm.proxmox_virtual_disks
          cluster := cluster_id
          comments := (vm.proxmox_description).getD ""
          tags := if tag_ids.isEmpty then none else some tag_ids
          platform := platform_id
          custom_fields := build_custom_fields_payload vm now }

/-- Name-keyed map of the existing registry disks of one VM, as
sync_vm_virtual_disks builds it. -/
def existing_disk_map (st : NBState) (vm_id : Nat) : List (String × NBDisk) :=
  (st.disks.filter (fun d => d.virtual_machine == vm_id)).foldl
    (fun m d => pyDictInsert m d.name d) []

/-- Disk convergence for one VM: distinct source names, every valid
source disk matched exactly by name with equal size and description,
and every existing registry disk name covered by a source disk. -/
def disks_converged (st : NBState) (vm_id : Nat) (vm : VMData) : Bool :=
  let pdisks := (vm.proxmox_virtual_disks).getD []
  let map0 := existing_disk_map st vm_id
  decide (pdisks.filterMap (fun p => p.name)).Nodup &&
  pdisks.all (fun p =>
    match p.name with
    | none => true
    | some nm =>
      if nm = "" then true
      else
        match p.size_mb with
        | some sz =>
          if sz > 0 then
            match map0.lookup nm with
            | some d => d.size == sz && !disk_description_differs d.description p.proxmox_raw_config
            | none => false
          else true
        | none => true) &&
  map0.all (fun kv => kv.1 ≠ "" && pdisks.any (fun p => p.name == some kv.1))

/-- MAC object the interface reconciler would reuse: the first object
holding the uppercased string that is assigned to exactly this
interface. -/
def iface_mac_candidate (st : NBState) (mac_up : String) (iface_id : Nat) : Option MacObj :=
  (st.macs.filter (fun o => o.mac_address == mac_up)).find? (fun o =>
    o.mac_address == mac_up && o.assigned_object_id == some iface_id &&
      (o.assigned_object_type.map pyLower) == some (pyLower NETBOX_OBJECT_TYPE_VMINTERFACE))

/-- VLAN convergence of one registry interface against the source
tag. -/
def iface_vlan_converged (st : NBState) (nb0 : NBIface) (tag : Option Int) : Bool :=
  match tag with
  | some t =>
    if t ≠ 0 then
      match st.vlans.find? (fun v => v.vid == t) with
      | some v => nb0.mode == some "access" && nb0.untagged_vlan == some v.id
      | none => false
    else nb0.untagged_vlan.isNone && !(nb0.mode == some "access")
  | none => nb0.untagged_vlan.isNone && !(nb0.mode == some "access")

/-- IP convergence of one registry interface against the source CIDR
string. -/
def iface_ip_converged (st : NBState) (iface_id : Nat) (cidr? : Option String) : Bool :=
  match cidr? with
  | none => true
  | some c =>
    if c = "" then true
    else
      match st.ips.find? (fun i => i.address == c) with
      | some ip =>
        ip.assigned_object_id == some iface_id &&
          ip.assigned_object_type == some NETBOX_OBJECT_TYPE_VMINTERFACE
      | none => false

/-- Convergence of one source interface: the registry counterpart
exists with the right enabled flag, custom fields, VLAN state,
correctly assigned MAC object linked as primary, and correctly
assigned IP. -/
def iface_converged_one (st : NBState) (vm_id : Nat) (p : PIface) : Bool :=
  let p_name := (p.name).getD "net_unnamed"
  let p_mac := (p.mac_address).getD ""
  if p_mac = "" then true
  else
    match (st.ifaces.filter (fun i => i.virtual_machine == vm_id && i.name == p_name)).head? with
    | none => false
    | some nb0 =>
      match iface_mac_candidate st (pyUpper p_mac) nb0.id with
      | none => false
      | some mobj =>
        nb0.enabled &&
        nb0.custom_fields == build_iface_custom_fields p &&
        iface_vlan_converged st nb0 p.vlan_tag &&
        nb0.primary_mac_address == some mobj.id &&
        iface_ip_converged st nb0.id p.ip_cidr

/-- Interface convergence for one VM: every source interface with a MAC
is converged. -/
def ifaces_converged (st : NBState) (vm_id : Nat) (vm : VMData) : Bool :=
  ((vm.proxmox_network_interfaces).getD []).all (iface_converged_one st vm_id)

/-- Full per-entity convergence: vmid matched through the caches to a
record that equals the previous payload, no in-scope name conflict, no
registry-wide name clash, resolvable taxonomy, converged children. -/
def vm_converged (st : NBState) (caches : SyncCaches) (cluster_id : Option Nat)
    (t1 : String) (vm : VMData) : Bool :=
  match caches.by_vmid.lookup vm.vmid with
  | none => false
  | some rid =>
    match st.vms.find? (fun v => v.id == rid) with
    | none => false
    | some r =>
      ((caches.by_name_vmid.lookup vm.name).getD []).all (fun kv => kv.1 == some vm.vmid) &&
      st.vms.all (fun v => v.id == rid || !(v.name == vm.name)) &&
      (match resolved_payload st cluster_id t1 vm.name vm with
       | some p1 => r == vm_of_payload rid p1
       | none => false) &&
      disks_converged st rid vm &&
      ifaces_converged st rid vm

/-! ### Concrete scenario inputs used by the counterexamples and
witnesses -/

/-- Minimal source entity with only a name and a vmid. -/
def simpleVMData (n : String) (v : Int) : VMData :=
  { name := n
    vmid := v
    maxmem := none
    vcpus_count := none
    actual_status := none
    proxmox_description := none
    proxmox_tags := none
    proxmox_ostype := none
    vtype := none
    proxmox_cpu_sockets := none
    proxmox_min_memory_mb := none
    proxmox_qemu_cpu_type := none
    proxmox_qemu_bios_type := none
    proxmox_qemu_machine_type := none
    proxmox_qemu_numa_enabled := none
    proxmox_qemu_cores_per_socket := none
    proxmox_qemu_boot_order := none
    proxmox_lxc_architecture := none
    proxmox_lxc_unprivileged := none
    proxmox_lxc_features := none
    proxmox_virtual_disks := none
    proxmox_network_interfaces := none }

/-- Source entity for the idempotence scenario: a running QEMU VM with
memory, cpus, tags, a platform, one boot disk and one interface with
VLAN and a static IP. -/
def c1_vm : VMData :=
  { simpleVMData "alpha" 100 with
    maxmem := some 2147483648
    vcpus_count := some 2
    actual_status := some "running"
    proxmox_ostype := some "l26"
    proxmox_tags := some "prod; web"
    vtype := some "qemu"
    proxmox_virtual_disks :=
      some [{ name := some "scsi0"
              size_mb := some 32768
              storage_id := some "local-lvm"
              format := some "raw"
              is_boot_disk := true
              mount_point := none
              proxmox_raw_config := some "local-lvm:vm-100-disk-0,size=32G"
              volume_name_or_path := some "vm-100-disk-0" }]
    proxmox_network_interfaces :=
      some [{ name := some "net0"
              mac_address := some "AA:BB:CC:DD:EE:FF"
              ip_cidr := some "192.168.1.10/24"
              bridge := some "vmbr0"
              model := some "virtio"
              vlan_tag := some 10
              agent_ips := [] }] }

/-- Registry state after the first pass of the idempotence scenario. -/
def c1_state1 : NBState :=
  (sync_to_netbox NBState.empty [c1_vm] "cl" "Proxmox" "T1").1

/-- Second pass of the idempotence scenario, on the unchanged snapshot
with a fresh timestamp. -/
def c1_run2 : NBState × List Op × (Nat × Nat × Nat × Nat) :=
  sync_to_netbox c1_state1 [c1_vm] "cl" "Proxmox" "T2"

/-- Registry state after the first pass of the disambiguation scenario
(two source entities named web, vmids 100 and 101, empty scope). -/
def c2_state1 : NBState :=
  (sync_to_netbox NBState.empty [simpleVMData "web" 100, simpleVMData "web" 101]
    "cl" "Proxmox" "T1").1

/-- Second pass of the disambiguation scenario on the unchanged
snapshot. -/
def c2_state2 : NBState :=
  (sync_to_netbox c2_state1 [simpleVMData "web" 100, simpleVMData "web" 101]
    "cl" "Proxmox" "T2").1

/-- Registry VM interface used by the orphan-interface scenario. -/
def c4_iface : NBIface :=
  { id := 5
    virtual_machine := 1
    name := "eth9"
    itype := "virtual"
    enabled := true
    custom_fields := ⟨none, none⟩
    mode := none
    untagged_vlan := none
    primary_mac_address := none }

/-- Registry holding one VM interface that the source no longer
reports. -/
def c4_state : NBState :=
  { NBState.empty with ifaces := [c4_iface], next_id := 10 }

/-- Source interface processed in the orphan-interface scenario while
eth9 stays absent from the source. -/
def c4_piface : PIface :=
  { name := some "net0"
    mac_address := some "AA:BB:CC:00:00:01"
    ip_cidr := none
    bridge := some "vmbr0"
    model := some "virtio"
    vlan_tag := none
    agent_ips := [] }

/-- Source disk with a missing size used by the invalid-size
scenario. -/
def c9_pdisk : PDisk :=
  { name := some "scsi0"
    size_mb := none
    storage_id := some "local-lvm"
    format := some "raw"
    is_boot_disk := false
    mount_point := none
    proxmox_raw_config := some "local-lvm:vm-1-disk-0"
    volume_name_or_path := some "vm-1-disk-0" }

/-- Registry with a disk matching the invalid-size source disk by name
and one unrelated orphaned disk. -/
def c9_state : NBState :=
  { NBState.empty with
    disks := [⟨10, 1, "scsi0", 100, ""⟩, ⟨11, 1, "ide0", 50, ""⟩]
    next_id := 20 }

/-- Placeholder registry record used as the getD fallback of concrete
lookups. -/
def dummyVm : NBVm :=
  { id := 0, name := "", status := "", memory := none, vcpus := none, disk := none,
    cluster := none, comments := "", tags := [], platform := none,
    custom_fields :=
      { vmid := none, vm_status := none, vm_last_sync := none, cpu_sockets := none,
        min_memory_mb := none, qemu_cpu_type := none, qemu_bios_type := none,
        qemu_machine_type := none, qemu_numa_enabled := none, qemu_cores_per_socket := none,
        qemu_boot_order := none, lxc_architecture := none, lxc_unprivileged := none,
        lxc_features := none, boot_disk_storage := none, boot_disk_format := none,
        lxc_rootfs_storage := none } }

/-- Registry after the orphan sweep of the reappearance scenario: the
entity of the first pass is marked Deleted. -/
def c3_state : NBState := (mark_orphaned_vms_as_deleted c1_state1 "cl" [] "T3").1

/-- Pass-start accumulator over the swept registry. -/
def c3_acc : SyncAcc :=
  ⟨c3_state,
    ⟨build_existing_map c3_state, (build_scope_maps c3_state (some ⟨2, "cl", 1⟩)).1,
      (build_scope_maps c3_state (some ⟨2, "cl", 1⟩)).2⟩,
    [], 0, 0, [], []⟩

/-- The registry record of the scenario entity before the sweep. -/
def c3_v : NBVm := (c1_state1.vms.find? (fun v => v.id == 6)).getD dummyVm

/-- The registry record of the scenario entity after the sweep. -/
def c3_r : NBVm := (c3_state.vms.find? (fun v => v.id == 6)).getD dummyVm

/-- Registry disk orphaned in the child-deletion scenario. -/
def c4_disk : NBDisk := ⟨30, 1, "sata1", 10, ""⟩

/-- Registry used by the child-deletion witness: one VM interface and
one VM disk that the source no longer reports. -/
def c4w_state : NBState :=
  { NBState.empty with
    ifaces := [c4_iface]
    disks := [c4_disk]
    next_id := 40 }

/-- Pass-start accumulator of the idempotence scenario over the
converged registry of the first pass. -/
def c1_acc : SyncAcc :=
  ⟨c1_state1,
    ⟨build_existing_map c1_state1, (build_scope_maps c1_state1 (some ⟨2, "cl", 1⟩)).1,
      (build_scope_maps c1_state1 (some ⟨2, "cl", 1⟩)).2⟩,
    [], 0, 0, [], []⟩

/-- Concrete net entry with a lowercase MAC used by the C10 witness. -/
def c10_config : List (String × String) := [("net0", "virtio=aa:bb:cc:dd:ee:ff,bridge=vmbr0")]

/-- The interface the normalizer emits for that entry. -/
def c10_p : PIface :=
  (extract_network_interfaces_from_config c10_config "qemu" none).headD
    ⟨none, none, none, none, none, none, []⟩

/-! ## Theorems

Helper lemmas come first, then one theorem per claim (with its witness
or counterexample where required). -/

/-- The disk-sum fold computes the sum of the positive sizes. -/
theorem calculated_disk_sum_fst (l : List PDisk) :
    (calculated_disk_sum l).1 = spec_positive_disk_sum l := by
  suffices h : ∀ (acc : Int) (flag : Bool),
      (l.foldl
        (fun (a : Int × Bool) d =>
          match d.size_mb with
          | some v => if v > 0 then (a.1 + v, true) else a
          | none => a)
        (acc, flag)).1 = acc + spec_positive_disk_sum l by
    simpa [calculated_disk_sum] using h 0 false
  induction l with
  | nil => intro acc flag; simp [spec_positive_disk_sum]
  | cons d tl ih =>
    intro acc flag
    cases h : d.size_mb with
    | none =>
      simp only [List.foldl_cons, h]
      rw [ih]
      simp [spec_positive_disk_sum, h]
    | some v =>
      by_cases hv : v > 0
      · simp only [List.foldl_cons, h, if_pos hv]
        rw [ih]
        simp [spec_positive_disk_sum, h, hv, List.filter_cons]
        ring
      · simp only [List.foldl_cons, h, if_neg hv]
        rw [ih]
        simp [spec_positive_disk_sum, h, List.filter_cons, hv]

/-- C5: the disk field of the entity payload is the sum of the source
disk sizes that are positive numbers (zero when the list is nonempty
but holds no valid size), and the field is omitted entirely when the
source disk list is absent or empty. -/
theorem C5_disk_total (st : NBState) (cluster_id : Option Nat) (now final_name : String)
    (vm : VMData) :
    (build_vm_payload st cluster_id now final_name vm).2.2.1.disk =
      disk_mb_of vm.proxmox_virtual_disks ∧
    disk_mb_of vm.proxmox_virtual_disks =
      (if ((vm.proxmox_virtual_disks).getD []).isEmpty then none
       else some (spec_positive_disk_sum ((vm.proxmox_virtual_disks).getD []))) := by
  constructor
  · rfl
  · unfold disk_mb_of
    by_cases h : ((vm.proxmox_virtual_disks).getD []).isEmpty
    · simp [h]
    · simp [h, calculated_disk_sum_fst]

/-- C6: the size parser maps K, M, G, T suffixed strings to megabytes
with binary multiples, defaults a missing unit to gigabytes, and
returns None for malformed strings (no leading digit and no integer
fallback). -/
theorem C6_size_parsing :
    parse_size_to_mb "32G" = some 32768 ∧
    parse_size_to_mb "10240M" = some 10240 ∧
    parse_size_to_mb "2T" = some 2097152 ∧
    parse_size_to_mb "50" = some 51200 ∧
    parse_size_to_mb "1024K" = some 1 ∧
    parse_size_to_mb "" = none ∧
    (∀ s : String, ((pyUpper s).data.takeWhile Char.isDigit).isEmpty = true →
      pyIntOfString s = none → parse_size_to_mb s = none) := by
  refine ⟨by decide, by decide, by decide, by decide, by decide, by decide, ?_⟩
  intro s h1 h2
  unfold parse_size_to_mb
  by_cases hs : s = ""
  · simp [hs]
  · simp [hs, h1, h2]

/-- Witness for C6: the malformed-string clause applied to a concrete
input. -/
theorem C6_size_parsing_witness :
    ((pyUpper "junk").data.takeWhile Char.isDigit).isEmpty = true ∧
    pyIntOfString "junk" = none ∧
    parse_size_to_mb "junk" = none :=
  ⟨by decide, by decide, C6_size_parsing.2.2.2.2.2.2 "junk" (by decide) (by decide)⟩

/-- C7: the source truncates the boot-order list at its first semicolon
before filtering out net entries, so a VM that lists a network device
first (boot order net0;scsi0, no legacy bootdisk) gets no boot disk,
while the documented selection (first non-network device of the order
list) picks scsi0.  When the first entry is already a disk the two
agree. -/
theorem C7_boot_order_truncated :
    qemu_boot_disk_key [("boot", "order=net0;scsi0")] = none ∧
    boot_disk_key_spec [("boot", "order=net0;scsi0")] = some "scsi0" ∧
    qemu_boot_disk_key [("boot", "order=scsi0;net0")] = some "scsi0" ∧
    boot_disk_key_spec [("boot", "order=scsi0;net0")] = some "scsi0" ∧
    qemu_boot_disk_key [("boot", "order=net0;scsi0"), ("bootdisk", "virtio0")] = some "virtio0" := by
  decide

/-- C1 counterexample: one unchanged snapshot, two consecutive passes.
The second pass still performs a write (exactly one entity update),
refuting the zero-write reading of idempotence. -/
theorem C1_counterexample :
    c1_run2.2.1 ≠ [] ∧
    c1_run2.2.1.length = 1 ∧
    c1_run2.2.1.all Op.isUpdateVM = true := by
  decide

/-- C2 counterexample: the pass that follows a successful
disambiguation.  The registry enters the pass holding web (100) and
web (101); after the pass the record with vmid 100 holds the bare name
web again, so it no longer embeds its vmid. -/
theorem C2_counterexample :
    c2_state1.vms.map (fun v => (v.name, v.custom_fields.vmid)) =
      [("web (100)", some 100), ("web (101)", some 101)] ∧
    (c2_state2.vms.find? (fun v => v.custom_fields.vmid == some 100)).map (fun v => v.name) =
      some "web" := by
  decide

/-- C2 amended: for a pass in which the colliding entities are not yet
registered (first sighting from an empty scope), the scenario holds:
the newcomer is created under the suffixed name and the bare-name
holder is renamed to its own suffixed form, so the registry ends with
web (100) and web (101). -/
theorem C2_disambiguation_first_sighting :
    c2_state1.vms.map (fun v => (v.name, v.custom_fields.vmid)) =
      [("web (100)", some 100), ("web (101)", some 101)] ∧
    Op.renameVM 3 "web (100)" ∈
      (sync_to_netbox NBState.empty [simpleVMData "web" 100, simpleVMData "web" 101]
        "cl" "Proxmox" "T1").2.1 := by
  decide

theorem mark_deleted_record_idem (now : String) (v : NBVm) :
    mark_deleted_record now (mark_deleted_record now v) = mark_deleted_record now v := rfl

theorem mark_deleted_record_id (now : String) (v : NBVm) :
    (mark_deleted_record now v).id = v.id := rfl

theorem mark_orphaned_step_eq (active : List (String × Int)) (now : String)
    (a : NBState × List Op × Nat) (nb : NBVm) :
    mark_orphaned_step active now a nb =
      if should_mark active nb then
        (markOne now a.1 nb.id, a.2.1 ++ [.markDeleted nb.id now], a.2.2 + 1)
      else a := by
  obtain ⟨s, ops, cnt⟩ := a
  unfold mark_orphaned_step should_mark orphan_candidate markOne mark_deleted_record
  cases h : nb.custom_fields.vmid with
  | none =>
    by_cases hst : nb.custom_fields.vm_status = some "Deleted" <;> simp [hst]
  | some vid =>
    by_cases h1 : active.contains (nb.name, vid) <;>
      by_cases h2 : active.contains (strip_disambiguation nb.name vid, vid) <;>
      by_cases hst : nb.custom_fields.vm_status = some "Deleted" <;>
      simp [h1, h2, hst]

theorem mark_fold_eq (active : List (String × Int)) (now : String) (l : List NBVm) :
    ∀ (s : NBState) (ops0 : List Op) (n0 : Nat),
      l.foldl (mark_orphaned_step active now) (s, ops0, n0) =
        (markAll now s (l.filter (should_mark active)),
          ops0 ++ (l.filter (should_mark active)).map (fun v => Op.markDeleted v.id now),
          n0 + (l.filter (should_mark active)).length) := by
  induction l with
  | nil => intro s ops0 n0; simp [markAll]
  | cons x tl ih =>
    intro s ops0 n0
    rw [List.foldl_cons, mark_orphaned_step_eq]
    by_cases hx : should_mark active x = true
    · rw [if_pos hx, ih]
      simp [markAll, List.filter_cons, hx, Nat.add_assoc, Nat.add_comm 1]
    · rw [if_neg hx, ih]
      simp [List.filter_cons, Bool.of_not_eq_true hx]

theorem markOne_vms (now : String) (s : NBState) (i : Nat) :
    (markOne now s i).vms =
      s.vms.map (fun v => if v.id == i then mark_deleted_record now v else v) := rfl

theorem markAll_vms (now : String) (xs : List NBVm) :
    ∀ (s : NBState),
      (markAll now s xs).vms =
        s.vms.map (fun v =>
          if xs.any (fun w => w.id == v.id) then mark_deleted_record now v else v) := by
  induction xs with
  | nil => intro s; simp [markAll]
  | cons x tl ih =>
    intro s
    have hcons : markAll now s (x :: tl) = markAll now (markOne now s x.id) tl := rfl
    rw [hcons, ih, markOne_vms, List.map_map]
    apply List.map_congr_left
    intro v _
    have hid : (mark_deleted_record now v).id = v.id := rfl
    by_cases h1 : v.id = x.id
    · have h1b : (v.id == x.id) = true := by simp [h1]
      have hxb : (x.id == v.id) = true := by simp [h1]
      simp only [Function.comp, h1b, if_true, List.any_cons, hxb, Bool.true_or, hid]
      by_cases h2 : tl.any (fun w => w.id == v.id) = true
      · simp [h2, mark_deleted_record_idem]
      · simp [h2]
    · have h1b : (v.id == x.id) = false := by simp [h1]
      have hxb : (x.id == v.id) = false := by
        simp only [beq_eq_false_iff_ne, ne_eq]
        exact fun h => h1 h.symm
      simp only [Function.comp, h1b, Bool.false_eq_true, if_false, List.any_cons, hxb,
        Bool.false_or]

theorem markAll_frame (now : String) (xs : List NBVm) :
    ∀ (s : NBState),
      (markAll now s xs).disks = s.disks ∧ (markAll now s xs).ifaces = s.ifaces ∧
      (markAll now s xs).ips = s.ips ∧ (markAll now s xs).macs = s.macs ∧
      (markAll now s xs).clusters = s.clusters := by
  induction xs with
  | nil => intro s; exact ⟨rfl, rfl, rfl, rfl, rfl⟩
  | cons x tl ih =>
    intro s
    have hcons : markAll now s (x :: tl) = markAll now (markOne now s x.id) tl := rfl
    rw [hcons]
    exact ih (markOne now s x.id)



theorem sweep_marks_split (c_id : Nat) (active : List (String × Int)) (v : NBVm) :
    sweep_marks c_id active v = ((v.cluster == some c_id) && should_mark active v) := by
  unfold sweep_marks should_mark
  rw [Bool.and_assoc]

theorem sweep_cond_eq (st : NBState) (c_id : Nat) (active : List (String × Int))
    (hids : (st.vms.map (fun v => v.id)).Nodup) (v : NBVm) (hv : v ∈ st.vms) :
    ((st.vms.filter (fun w => w.cluster == some c_id)).filter (should_mark active)).any
        (fun w => w.id == v.id) = sweep_marks c_id active v := by
  rw [sweep_marks_split]
  by_cases h : ((v.cluster == some c_id) && should_mark active v) = true
  · rw [h, List.any_eq_true]
    obtain ⟨h1, h2⟩ := Bool.and_eq_true_iff.mp h
    exact ⟨v, by rw [List.mem_filter, List.mem_filter]; exact ⟨⟨hv, h1⟩, h2⟩, by simp⟩
  · rw [Bool.not_eq_true] at h
    rw [h, List.any_eq_false]
    intro w hw
    rw [List.mem_filter] at hw
    obtain ⟨hw1, hw2⟩ := hw
    rw [List.mem_filter] at hw1
    obtain ⟨hwmem, hwcl⟩ := hw1
    intro hbeq
    have hwid : w.id = v.id := by simpa using hbeq
    have hwv : w = v := List.inj_on_of_nodup_map hids hwmem hv hwid
    subst hwv
    have htrue : ((w.cluster == some c_id) && should_mark active w) = true :=
      Bool.and_eq_true_iff.mpr ⟨hwcl, hw2⟩
    rw [h] at htrue
    cases htrue

theorem mark_orphaned_eq (st : NBState) (cname : String) (active : List (String × Int))
    (now : String) (c : ClusterObj)
    (hc : st.clusters.find? (fun x => x.name == cname) = some c) :
    mark_orphaned_vms_as_deleted st cname active now =
      (if (st.vms.filter (fun v => v.cluster == some c.id)).isEmpty then (st, [], none)
       else
        (markAll now st
          ((st.vms.filter (fun v => v.cluster == some c.id)).filter (should_mark active)),
         ((st.vms.filter (fun v => v.cluster == some c.id)).filter (should_mark active)).map
            (fun v => Op.markDeleted v.id now),
         some ((((st.vms.filter (fun v => v.cluster == some c.id)).filter
            (should_mark active))).length, 0))) := by
  unfold mark_orphaned_vms_as_deleted
  rw [hc]
  by_cases hL : (st.vms.filter (fun v => v.cluster == some c.id)).isEmpty = true
  · simp [hL]
  · simp only [hL, if_false, Bool.false_eq_true]
    rw [mark_fold_eq]
    simp

theorem double_filter_eq_sweep (st : NBState) (c_id : Nat) (active : List (String × Int)) :
    (st.vms.filter (fun v => v.cluster == some c_id)).filter (should_mark active) =
      st.vms.filter (sweep_marks c_id active) := by
  rw [List.filter_filter]
  apply List.filter_congr
  intro v _
  rw [sweep_marks_split, Bool.and_comm]


/-- C8: the orphan sweep only ever writes the pair (vm_status Deleted,
fresh sync timestamp) to the VMs it marks, touches nothing else on
those records, never removes a record, leaves every other registry
table untouched, and performs no write at all on a VM whose status is
already Deleted. -/
theorem C8_orphan_sweep_frame (st : NBState) (cname : String) (active : List (String × Int))
    (now : String) (c : ClusterObj)
    (hc : st.clusters.find? (fun x => x.name == cname) = some c)
    (hids : (st.vms.map (fun v => v.id)).Nodup) :
    (mark_orphaned_vms_as_deleted st cname active now).1.vms =
      st.vms.map (fun v =>
        if sweep_marks c.id active v then mark_deleted_record now v else v) ∧
    (mark_orphaned_vms_as_deleted st cname active now).2.1 =
      (st.vms.filter (sweep_marks c.id active)).map (fun v => Op.markDeleted v.id now) ∧
    (mark_orphaned_vms_as_deleted st cname active now).1.disks = st.disks ∧
    (mark_orphaned_vms_as_deleted st cname active now).1.ifaces = st.ifaces ∧
    (∀ v ∈ st.vms, v.custom_fields.vm_status = some "Deleted" →
      ∀ op ∈ (mark_orphaned_vms_as_deleted st cname active now).2.1,
        op ≠ Op.markDeleted v.id now) := by
  rw [mark_orphaned_eq st cname active now c hc]
  by_cases hL : (st.vms.filter (fun v => v.cluster == some c.id)).isEmpty = true
  · rw [if_pos hL]
    have hnil := List.isEmpty_iff.mp hL
    have hnone : ∀ v ∈ st.vms, sweep_marks c.id active v = false := by
      intro v hv
      rw [sweep_marks_split]
      have := List.filter_eq_nil_iff.mp hnil v hv
      simp only [Bool.not_eq_true] at this
      rw [this, Bool.false_and]
    have hfilter : st.vms.filter (sweep_marks c.id active) = [] := by
      rw [List.filter_eq_nil_iff]
      intro v hv
      rw [hnone v hv]
      simp
    refine ⟨?_, by rw [hfilter]; rfl, rfl, rfl, ?_⟩
    · conv_lhs => rw [show st.vms = st.vms.map id from (List.map_id _).symm]
      apply List.map_congr_left
      intro v hv
      rw [hnone v hv]
      rfl
    · intro v _ _ op hop
      simp at hop
  · rw [if_neg (by simpa using hL)]
    have hops :
        ((st.vms.filter (fun v => v.cluster == some c.id)).filter (should_mark active)).map
            (fun v => Op.markDeleted v.id now) =
          (st.vms.filter (sweep_marks c.id active)).map (fun v => Op.markDeleted v.id now) := by
      rw [double_filter_eq_sweep]
    refine ⟨?_, hops, ?_, ?_, ?_⟩
    · rw [markAll_vms]
      apply List.map_congr_left
      intro v hv
      rw [sweep_cond_eq st c.id active hids v hv]
    · exact (markAll_frame now _ st).1
    · exact (markAll_frame now _ st).2.1
    · intro v hv hdel op hop hbad
      rw [hops] at hop
      subst hbad
      rw [List.mem_map] at hop
      obtain ⟨w, hw, hweq⟩ := hop
      rw [List.mem_filter] at hw
      obtain ⟨hwmem, hwsweep⟩ := hw
      have hwid : w.id = v.id := by
        injection hweq
      have hwv : w = v := List.inj_on_of_nodup_map hids hwmem hv hwid
      subst hwv
      rw [sweep_marks_split] at hwsweep
      obtain ⟨-, hsm⟩ := Bool.and_eq_true_iff.mp hwsweep
      unfold should_mark at hsm
      obtain ⟨-, hnd⟩ := Bool.and_eq_true_iff.mp hsm
      rw [hdel] at hnd
      simp at hnd

/-- Witness for C8 at a concrete registry and an empty active set. -/
theorem C8_orphan_sweep_frame_witness :
    (mark_orphaned_vms_as_deleted c1_state1 "cl" [] "T3").2.1 =
      (c1_state1.vms.filter (sweep_marks 2 [])).map (fun v => Op.markDeleted v.id "T3") :=
  (C8_orphan_sweep_frame c1_state1 "cl" [] "T3" ⟨2, "cl", 1⟩ (by decide) (by decide)).2.1


@[simp]
theorem mac_fn_vms (st : NBState) (m : String) (a : Option Nat) (o : Option String) :
    (get_or_create_and_assign_netbox_mac_address st m a o).1.vms = st.vms := by
  unfold get_or_create_and_assign_netbox_mac_address
  simp only []
  repeat' split
  all_goals rfl

@[simp]
theorem mac_fn_disks (st : NBState) (m : String) (a : Option Nat) (o : Option String) :
    (get_or_create_and_assign_netbox_mac_address st m a o).1.disks = st.disks := by
  unfold get_or_create_and_assign_netbox_mac_address
  simp only []
  repeat' split
  all_goals rfl

@[simp]
theorem vlan_fn_vms (st : NBState) (t : Int) :
    (get_or_create_netbox_vlan st t).1.vms = st.vms := by
  unfold get_or_create_netbox_vlan
  repeat' split
  all_goals rfl

@[simp]
theorem vlan_fn_disks (st : NBState) (t : Int) :
    (get_or_create_netbox_vlan st t).1.disks = st.disks := by
  unfold get_or_create_netbox_vlan
  repeat' split
  all_goals rfl

@[simp]
theorem ip_step_vms (st : NBState) (i : Nat) (p : PIface) :
    (sync_vm_iface_ip_step st i p).1.vms = st.vms := by
  unfold sync_vm_iface_ip_step
  repeat' split
  all_goals rfl

@[simp]
theorem ip_step_disks (st : NBState) (i : Nat) (p : PIface) :
    (sync_vm_iface_ip_step st i p).1.disks = st.disks := by
  unfold sync_vm_iface_ip_step
  repeat' split
  all_goals rfl

@[simp]
theorem applyIfaceUpdate_vms (st : NBState) (i : Nat) (u : IfaceUpdate) :
    (applyIfaceUpdate st i u).vms = st.vms := rfl

@[simp]
theorem applyIfaceUpdate_disks (st : NBState) (i : Nat) (u : IfaceUpdate) :
    (applyIfaceUpdate st i u).disks = st.disks := rfl

@[simp]
theorem vlan_update_vms (st : NBState) (nb0 : NBIface) (t : Option Int) (u : IfaceUpdate) :
    (vm_iface_vlan_update st nb0 t u).1.vms = st.vms := by
  unfold vm_iface_vlan_update
  simp only []
  repeat' split
  all_goals simp

@[simp]
theorem vlan_update_disks (st : NBState) (nb0 : NBIface) (t : Option Int) (u : IfaceUpdate) :
    (vm_iface_vlan_update st nb0 t u).1.disks = st.disks := by
  unfold vm_iface_vlan_update
  simp only []
  repeat' split
  all_goals simp

@[simp]
theorem vlan_create_vms (st : NBState) (t : Option Int) :
    (vm_iface_vlan_create st t).1.vms = st.vms := by
  unfold vm_iface_vlan_create
  simp only []
  repeat' split
  all_goals simp

@[simp]
theorem vlan_create_disks (st : NBState) (t : Option Int) :
    (vm_iface_vlan_create st t).1.disks = st.disks := by
  unfold vm_iface_vlan_create
  simp only []
  repeat' split
  all_goals simp

theorem vm_iface_update_branch_frame (st : NBState) (ops : List Op) (p : PIface)
    (pn pm : String) (cf : IfaceCF) (nb0 : NBIface) :
    (vm_iface_update_branch st ops p pn pm cf nb0).1.vms = st.vms ∧
    (vm_iface_update_branch st ops p pn pm cf nb0).1.disks = st.disks := by
  unfold vm_iface_update_branch
  refine ⟨?_, ?_⟩ <;>
    · simp only []
      repeat' split
      all_goals simp

theorem vm_iface_create_branch_frame (vm_id : Nat) (st : NBState) (ops : List Op) (p : PIface)
    (pn pm : String) (cf : IfaceCF) :
    (vm_iface_create_branch vm_id st ops p pn pm cf).1.vms = st.vms ∧
    (vm_iface_create_branch vm_id st ops p pn pm cf).1.disks = st.disks := by
  unfold vm_iface_create_branch
  refine ⟨?_, ?_⟩ <;>
    · simp only []
      repeat' split
      all_goals simp

theorem sync_vm_interfaces_step_frame (vm_id : Nat) (a : NBState × List Op) (p : PIface) :
    (sync_vm_interfaces_step vm_id a p).1.vms = a.1.vms ∧
    (sync_vm_interfaces_step vm_id a p).1.disks = a.1.disks := by
  obtain ⟨st, ops⟩ := a
  unfold sync_vm_interfaces_step
  simp only []
  repeat' split
  · exact ⟨rfl, rfl⟩
  · exact vm_iface_update_branch_frame st ops p _ _ _ _
  · exact vm_iface_create_branch_frame vm_id st ops p _ _ _

theorem sync_vm_interfaces_fold_frame (vm_id : Nat) (l : List PIface) :
    ∀ (a : NBState × List Op),
      (l.foldl (sync_vm_interfaces_step vm_id) a).1.vms = a.1.vms ∧
      (l.foldl (sync_vm_interfaces_step vm_id) a).1.disks = a.1.disks := by
  induction l with
  | nil => intro a; exact ⟨rfl, rfl⟩
  | cons x tl ih =>
    intro a
    rw [List.foldl_cons]
    refine ⟨?_, ?_⟩
    · rw [(ih _).1, (sync_vm_interfaces_step_frame vm_id a x).1]
    · rw [(ih _).2, (sync_vm_interfaces_step_frame vm_id a x).2]

theorem sync_vm_interfaces_vms (st : NBState) (i : Nat) (l : List PIface) :
    (sync_vm_interfaces st i l).1.vms = st.vms :=
  (sync_vm_interfaces_fold_frame i l (st, [])).1

theorem pyDictInsert_mem {κ α : Type} [DecidableEq κ] (m : List (κ × α)) (k : κ) (v : α)
    (kv : κ × α) (h : kv ∈ pyDictInsert m k v) : kv ∈ m ∨ kv = (k, v) := by
  unfold pyDictInsert at h
  by_cases hc : m.any (fun p => p.1 = k) = true
  · rw [if_pos hc] at h
    rw [List.mem_map] at h
    obtain ⟨p, hp, hpe⟩ := h
    by_cases hk : p.1 = k
    · right; rw [if_pos hk] at hpe; exact hpe.symm
    · left; rw [if_neg hk] at hpe; exact hpe ▸ hp
  · rw [if_neg hc] at h
    rcases List.mem_append.mp h with h1 | h1
    · exact Or.inl h1
    · exact Or.inr (List.mem_singleton.mp h1)

theorem pyDictInsert_not_present {κ α : Type} [DecidableEq κ] (m : List (κ × α)) (k : κ) (v : α)
    (h : ∀ p ∈ m, p.1 ≠ k) : pyDictInsert m k v = m ++ [(k, v)] := by
  unfold pyDictInsert
  rw [if_neg]
  rw [List.any_eq_true]
  rintro ⟨p, hp, hpe⟩
  exact h p hp (of_decide_eq_true hpe)

theorem keyed_fold_eq {α κ : Type} [DecidableEq κ] (key : α → κ) :
    ∀ (l : List α) (m0 : List (κ × α)), (l.map key).Nodup →
      (∀ i ∈ l, ∀ p ∈ m0, p.1 ≠ key i) →
      l.foldl (fun m i => pyDictInsert m (key i) i) m0 = m0 ++ l.map (fun i => (key i, i)) := by
  intro l
  induction l with
  | nil => intro m0 _ _; simp
  | cons x tl ih =>
    intro m0 hnd hdis
    rw [List.map_cons, List.nodup_cons] at hnd
    rw [List.foldl_cons, pyDictInsert_not_present m0 (key x) x (fun p hp => hdis x (by simp) p hp)]
    rw [ih (m0 ++ [(key x, x)]) hnd.2]
    · simp
    · intro i hi p hp
      rcases List.mem_append.mp hp with h1 | h1
      · exact hdis i (by simp [hi]) p h1
      · have hx : p = (key x, x) := List.mem_singleton.mp h1
        subst hx
        intro hk
        have hk2 : key x = key i := hk
        exact hnd.1 (by rw [hk2]; exact List.mem_map_of_mem key hi)

theorem keyed_fold_mem {α κ : Type} [DecidableEq κ] (key : α → κ) :
    ∀ (l : List α) (m0 : List (κ × α)) (kv : κ × α),
      kv ∈ l.foldl (fun m i => pyDictInsert m (key i) i) m0 →
      kv ∈ m0 ∨ ∃ i ∈ l, kv = (key i, i) := by
  intro l
  induction l with
  | nil => intro m0 kv h; exact Or.inl h
  | cons x tl ih =>
    intro m0 kv h
    rw [List.foldl_cons] at h
    rcases ih (pyDictInsert m0 (key x) x) kv h with h1 | h1
    · rcases pyDictInsert_mem m0 (key x) x kv h1 with h2 | h2
      · exact Or.inl h2
      · exact Or.inr ⟨x, by simp, h2⟩
    · obtain ⟨i, hi, he⟩ := h1
      exact Or.inr ⟨i, by simp [hi], he⟩

theorem disk_step_map_shrink (vm_id : Nat) (acc : DiskLoopState) (p : PDisk) :
    ∀ kv ∈ (sync_vm_virtual_disks_step vm_id acc p).map, kv ∈ acc.map := by
  intro kv h
  unfold sync_vm_virtual_disks_step at h
  revert h
  simp only []
  repeat' split
  all_goals intro h
  all_goals first
    | exact h
    | exact List.mem_of_mem_filter h

theorem disk_step_map_keep (vm_id : Nat) (acc : DiskLoopState) (p : PDisk)
    (kv : String × NBDisk) (hkv : kv ∈ acc.map) (hne : p.name ≠ some kv.1) :
    kv ∈ (sync_vm_virtual_disks_step vm_id acc p).map := by
  unfold sync_vm_virtual_disks_step
  simp only []
  repeat' split
  all_goals first
    | exact hkv
    | (refine List.mem_filter.mpr ⟨hkv, ?_⟩
       simp only [decide_eq_true_eq]
       intro hk
       simp_all)

theorem disk_step_ops_named (vm_id : Nat) (acc : DiskLoopState) (p : PDisk) (n : String)
    (hp : ∀ nm, p.name = some nm → disk_invalid p = true ∨ nm ≠ n) :
    ∀ op ∈ (sync_vm_virtual_disks_step vm_id acc p).ops,
      op ∈ acc.ops ∨ op.isDiskOpNamed n = false := by
  intro op hop
  unfold sync_vm_virtual_disks_step at hop
  split at hop
  · exact Or.inl hop
  · rename_i m hq
    by_cases hm : m = ""
    · rw [if_pos hm] at hop; exact Or.inl hop
    · rw [if_neg hm] at hop
      try simp only [] at hop
      by_cases hinv : disk_invalid p = true
      · rw [if_pos hinv] at hop; exact Or.inl hop
      · rw [if_neg hinv] at hop
        have hmn : m ≠ n := (hp m hq).resolve_left hinv
        try simp only [] at hop
        repeat' split at hop
        all_goals
          first
            | exact Or.inl hop
            | (rcases List.mem_append.mp hop with h1 | h1
               · exact Or.inl h1
               · right
                 simp only [List.mem_singleton] at h1
                 subst h1
                 simp [Op.isDiskOpNamed, hmn])

theorem disk_step_map_purged (vm_id : Nat) (acc : DiskLoopState) (p : PDisk) (n : String)
    (hnm : p.name = some n) (hne : n ≠ "") (hinv : disk_invalid p = true) :
    ∀ kv ∈ (sync_vm_virtual_disks_step vm_id acc p).map, kv.1 ≠ n := by
  intro kv hkv
  unfold sync_vm_virtual_disks_step at hkv
  split at hkv
  · rename_i heq
    rw [hnm] at heq
    cases heq
  · rename_i m hq
    rw [hnm] at hq
    injection hq with hq2
    subst hq2
    rw [if_neg hne] at hkv
    try simp only [] at hkv
    rw [if_pos hinv] at hkv
    have := List.of_mem_filter hkv
    simpa using this

theorem disk_fold_map_shrink (vm_id : Nat) (l : List PDisk) :
    ∀ (acc : DiskLoopState) kv, kv ∈ (l.foldl (sync_vm_virtual_disks_step vm_id) acc).map →
      kv ∈ acc.map := by
  induction l with
  | nil => intro acc kv h; exact h
  | cons x tl ih =>
    intro acc kv h
    rw [List.foldl_cons] at h
    exact disk_step_map_shrink vm_id acc x kv (ih _ kv h)

theorem disk_fold_map_keep (vm_id : Nat) (l : List PDisk) :
    ∀ (acc : DiskLoopState) kv, kv ∈ acc.map → (∀ q ∈ l, q.name ≠ some kv.1) →
      kv ∈ (l.foldl (sync_vm_virtual_disks_step vm_id) acc).map := by
  induction l with
  | nil => intro acc kv h _; exact h
  | cons x tl ih =>
    intro acc kv h hq
    rw [List.foldl_cons]
    exact ih _ kv (disk_step_map_keep vm_id acc x kv h (hq x (by simp)))
      (fun q hqt => hq q (by simp [hqt]))

theorem disk_fold_ops_named (vm_id : Nat) (l : List PDisk) (n : String) :
    ∀ (acc : DiskLoopState),
      (∀ q ∈ l, ∀ nm, q.name = some nm → disk_invalid q = true ∨ nm ≠ n) →
      ∀ op ∈ (l.foldl (sync_vm_virtual_disks_step vm_id) acc).ops,
        op ∈ acc.ops ∨ op.isDiskOpNamed n = false := by
  induction l with
  | nil => intro acc _ op hop; exact Or.inl hop
  | cons x tl ih =>
    intro acc hq op hop
    rw [List.foldl_cons] at hop
    rcases ih _ (fun q hqt => hq q (by simp [hqt])) op hop with h1 | h1
    · exact disk_step_ops_named vm_id acc x n (hq x (by simp)) op h1
    · exact Or.inr h1

theorem disk_fold_map_purged (vm_id : Nat) (l : List PDisk) (n : String) (p : PDisk)
    (hp : p ∈ l) (hnm : p.name = some n) (hne : n ≠ "") (hinv : disk_invalid p = true) :
    ∀ (acc : DiskLoopState) kv,
      kv ∈ (l.foldl (sync_vm_virtual_disks_step vm_id) acc).map → kv.1 ≠ n := by
  obtain ⟨l1, l2, rfl⟩ := List.append_of_mem hp
  intro acc kv hkv
  rw [List.foldl_append, List.foldl_cons] at hkv
  have h2 := disk_fold_map_shrink vm_id l2 _ kv hkv
  exact disk_step_map_purged vm_id _ p n hnm hne hinv kv h2

theorem disk_finish_ops (m : List (String × NBDisk)) :
    ∀ (a : NBState × List Op),
      (m.foldl
        (fun (a : NBState × List Op) kv =>
          ({ a.1 with disks := a.1.disks.filter (fun d => d.id ≠ kv.2.id) },
            a.2 ++ [.deleteDisk kv.2.id kv.1])) a).2 =
        a.2 ++ m.map (fun kv => Op.deleteDisk kv.2.id kv.1) := by
  induction m with
  | nil => intro a; simp
  | cons x tl ih =>
    intro a
    rw [List.foldl_cons, ih]
    simp

theorem disk_finish_disks_mem (m : List (String × NBDisk)) :
    ∀ (a : NBState × List Op) (x : NBDisk),
      x ∈ (m.foldl
        (fun (a : NBState × List Op) kv =>
          ({ a.1 with disks := a.1.disks.filter (fun d => d.id ≠ kv.2.id) },
            a.2 ++ [.deleteDisk kv.2.id kv.1])) a).1.disks →
      x ∈ a.1.disks ∧ ∀ kv ∈ m, x.id ≠ kv.2.id := by
  induction m with
  | nil => intro a x h; exact ⟨h, by simp⟩
  | cons y tl ih =>
    intro a x h
    rw [List.foldl_cons] at h
    obtain ⟨h1, h2⟩ := ih _ x h
    have h3 := List.mem_filter.mp h1
    refine ⟨h3.1, ?_⟩
    intro kv hkv
    rcases List.mem_cons.mp hkv with h4 | h4
    · subst h4
      simpa using h3.2
    · exact h2 kv h4

@[simp]
theorem mac_fn_ifaces (st : NBState) (m : String) (a : Option Nat) (o : Option String) :
    (get_or_create_and_assign_netbox_mac_address st m a o).1.ifaces = st.ifaces := by
  unfold get_or_create_and_assign_netbox_mac_address
  simp only []
  repeat' split
  all_goals rfl

@[simp]
theorem vlan_fn_ifaces (st : NBState) (t : Int) :
    (get_or_create_netbox_vlan st t).1.ifaces = st.ifaces := by
  unfold get_or_create_netbox_vlan
  repeat' split
  all_goals rfl

@[simp]
theorem vlan_update_ifaces (st : NBState) (nb0 : NBIface) (t : Option Int) (u : IfaceUpdate) :
    (vm_iface_vlan_update st nb0 t u).1.ifaces = st.ifaces := by
  unfold vm_iface_vlan_update
  simp only []
  repeat' split
  all_goals simp

@[simp]
theorem vlan_create_ifaces (st : NBState) (t : Option Int) :
    (vm_iface_vlan_create st t).1.ifaces = st.ifaces := by
  unfold vm_iface_vlan_create
  simp only []
  repeat' split
  all_goals simp

@[simp]
theorem ip_step_ifaces (st : NBState) (i : Nat) (p : PIface) :
    (sync_vm_iface_ip_step st i p).1.ifaces = st.ifaces := by
  unfold sync_vm_iface_ip_step
  repeat' split
  all_goals rfl

theorem applyIfaceUpdate_id_mem (st : NBState) (iid : Nat) (u : IfaceUpdate) (i : NBIface)
    (h : i ∈ st.ifaces) : ∃ j ∈ (applyIfaceUpdate st iid u).ifaces, j.id = i.id := by
  unfold applyIfaceUpdate
  refine ⟨_, List.mem_map_of_mem _ h, ?_⟩
  dsimp only []
  split
  · rfl
  · rfl

theorem vm_iface_update_branch_ifaces_survive (st : NBState) (ops : List Op) (p : PIface)
    (pn pm : String) (cf : IfaceCF) (nb0 : NBIface) (i : NBIface) (h : i ∈ st.ifaces) :
    ∃ j ∈ (vm_iface_update_branch st ops p pn pm cf nb0).1.ifaces, j.id = i.id := by
  unfold vm_iface_update_branch
  simp only []
  rw [ip_step_ifaces]
  repeat' split
  all_goals first
    | (rw [vlan_update_ifaces, mac_fn_ifaces]; exact ⟨i, h, rfl⟩)
    | (refine applyIfaceUpdate_id_mem _ nb0.id _ i ?_
       rw [vlan_update_ifaces, mac_fn_ifaces]
       exact h)

theorem vm_iface_create_branch_ifaces_survive (vm_id : Nat) (st : NBState) (ops : List Op)
    (p : PIface) (pn pm : String) (cf : IfaceCF) (i : NBIface) (h : i ∈ st.ifaces) :
    ∃ j ∈ (vm_iface_create_branch vm_id st ops p pn pm cf).1.ifaces, j.id = i.id := by
  unfold vm_iface_create_branch
  simp only []
  rw [ip_step_ifaces]
  split
  · refine applyIfaceUpdate_id_mem _ _ _ i ?_
    simp only [mac_fn_ifaces, vlan_create_ifaces]
    exact List.mem_append_left _ h
  · simp only [mac_fn_ifaces, vlan_create_ifaces]
    exact ⟨i, List.mem_append_left _ h, rfl⟩

theorem sync_vm_interfaces_step_ifaces_survive (vm_id : Nat) (a : NBState × List Op)
    (p : PIface) (i : NBIface) (h : i ∈ a.1.ifaces) :
    ∃ j ∈ (sync_vm_interfaces_step vm_id a p).1.ifaces, j.id = i.id := by
  obtain ⟨st, ops⟩ := a
  unfold sync_vm_interfaces_step
  simp only []
  repeat' split
  · exact ⟨i, h, rfl⟩
  · exact vm_iface_update_branch_ifaces_survive st ops p _ _ _ _ i h
  · exact vm_iface_create_branch_ifaces_survive vm_id st ops p _ _ _ i h

theorem sync_vm_interfaces_fold_ifaces_survive (vm_id : Nat) (l : List PIface) :
    ∀ (a : NBState × List Op) (i : NBIface), i ∈ a.1.ifaces →
      ∃ j ∈ (l.foldl (sync_vm_interfaces_step vm_id) a).1.ifaces, j.id = i.id := by
  induction l with
  | nil => intro a i h; exact ⟨i, h, rfl⟩
  | cons x tl ih =>
    intro a i h
    rw [List.foldl_cons]
    obtain ⟨j1, hj1, hid1⟩ := sync_vm_interfaces_step_ifaces_survive vm_id a x i h
    obtain ⟨j2, hj2, hid2⟩ := ih (sync_vm_interfaces_step vm_id a x) j1 hj1
    exact ⟨j2, hj2, hid2.trans hid1⟩

theorem dev_iface_fn_no_delete (st : NBState) (device_id : Nat) (nm ty : String) (en : Bool)
    (de : Option String) (cf : Option NodeIfaceCF) :
    ∀ op ∈ (get_or_create_device_interface st device_id nm ty en de cf).2.1,
      op.isDeleteDevIface = false := by
  intro op hop
  unfold get_or_create_device_interface at hop
  repeat' (first | split at hop | simp only [] at hop)
  all_goals first
    | exact absurd hop (List.not_mem_nil op)
    | (have he := List.mem_singleton.mp hop
       subst he
       rfl)

theorem mac_fn_no_delete (st : NBState) (m : String) (a : Option Nat) (o : Option String) :
    ∀ op ∈ (get_or_create_and_assign_netbox_mac_address st m a o).2.1,
      op.isDeleteDevIface = false := by
  intro op hop
  unfold get_or_create_and_assign_netbox_mac_address at hop
  repeat' (first | split at hop | simp only [] at hop)
  all_goals first
    | exact absurd hop (List.not_mem_nil op)
    | (have he := List.mem_singleton.mp hop
       subst he
       rfl)
    | (rcases List.mem_cons.mp hop with he | hop2
       · subst he
         rfl
       · have he := List.mem_singleton.mp hop2
         subst he
         rfl)

theorem node_ip_no_delete (st : NBState) (iid : Nat) (p : PNodeIface) :
    ∀ op ∈ (sync_node_iface_ip_step st iid p).2, op.isDeleteDevIface = false := by
  intro op hop
  unfold sync_node_iface_ip_step at hop
  repeat' (first | split at hop | simp only [] at hop)
  all_goals first
    | exact absurd hop (List.not_mem_nil op)
    | (have he := List.mem_singleton.mp hop
       subst he
       rfl)

theorem node_step_no_delete (device_id : Nat) (a : NBState × List Op × List String)
    (p : PNodeIface) (h : ∀ op ∈ a.2.1, op.isDeleteDevIface = false) :
    ∀ op ∈ (sync_node_interfaces_step device_id a p).2.1, op.isDeleteDevIface = false := by
  intro op hop
  unfold sync_node_interfaces_step at hop
  split at hop
  · exact h op hop
  · split at hop
    · exact h op hop
    · try simp only [] at hop
      split at hop
      · rcases List.mem_append.mp hop with h1 | h1
        · exact h op h1
        · exact dev_iface_fn_no_delete _ _ _ _ _ _ _ op h1
      · rcases List.mem_append.mp hop with h2 | hip
        · rcases List.mem_append.mp h2 with h3 | hmac
          · rcases List.mem_append.mp h3 with h4 | hg
            · exact h op h4
            · exact dev_iface_fn_no_delete _ _ _ _ _ _ _ op hg
          · revert hmac
            repeat' split
            all_goals intro hmac
            all_goals
              first
                | exact mac_fn_no_delete _ _ _ _ op hmac
                | exact absurd hmac (List.not_mem_nil op)
                | (rcases List.mem_append.mp hmac with h5 | h5
                   · exact mac_fn_no_delete _ _ _ _ op h5
                   · have he := List.mem_singleton.mp h5
                     subst he
                     rfl)
        · exact node_ip_no_delete _ _ _ op hip

theorem node_fold_no_delete (device_id : Nat) (l : List PNodeIface) :
    ∀ (a : NBState × List Op × List String), (∀ op ∈ a.2.1, op.isDeleteDevIface = false) →
      ∀ op ∈ (l.foldl (sync_node_interfaces_step device_id) a).2.1,
        op.isDeleteDevIface = false := by
  induction l with
  | nil => intro a h; exact h
  | cons x tl ih =>
    intro a h
    rw [List.foldl_cons]
    exact ih _ (node_step_no_delete device_id a x h)

theorem node_sweep_ops (pn : List String) :
    ∀ (m : List (String × DcimIface)) (a : NBState × List Op),
      ∀ op ∈ (node_orphan_sweep m pn a).2,
        op ∈ a.2 ∨ ∃ kv ∈ m, op = Op.deleteDevIface kv.2.id kv.1 ∧
          mgmt_only_preserved kv.2.mgmt_only = false := by
  intro m
  induction m with
  | nil => intro a op hop; exact Or.inl hop
  | cons x tl ih =>
    intro a op hop
    unfold node_orphan_sweep at hop
    rw [List.foldl_cons] at hop
    by_cases hc1 : pn.contains x.1 = true
    · rw [if_pos hc1] at hop
      rcases ih a op hop with h1 | ⟨kv, hkv, he⟩
      · exact Or.inl h1
      · exact Or.inr ⟨kv, by simp [hkv], he⟩
    · rw [if_neg hc1] at hop
      by_cases hc2 : mgmt_only_preserved x.2.mgmt_only = true
      · rw [if_pos hc2] at hop
        rcases ih a op hop with h1 | ⟨kv, hkv, he⟩
        · exact Or.inl h1
        · exact Or.inr ⟨kv, by simp [hkv], he⟩
      · rw [if_neg hc2] at hop
        rcases ih _ op hop with h1 | ⟨kv, hkv, he⟩
        · rcases List.mem_append.mp h1 with h2 | h2
          · exact Or.inl h2
          · simp only [List.mem_singleton] at h2
            exact Or.inr ⟨x, by simp, h2, by simpa using hc2⟩
        · exact Or.inr ⟨kv, by simp [hkv], he⟩

theorem sync_vm_interfaces_ifaces_survive (st : NBState) (vm_id : Nat) (l : List PIface)
    (i0 : NBIface) (h : i0 ∈ st.ifaces) :
    ∃ j ∈ (sync_vm_interfaces st vm_id l).1.ifaces, j.id = i0.id :=
  sync_vm_interfaces_fold_ifaces_survive vm_id l (st, []) i0 h

theorem disk_orphan_deleted (st : NBState) (vm_id : Nat) (pdisks : List PDisk) (d : NBDisk)
    (hd : d ∈ st.disks) (hdvm : d.virtual_machine = vm_id)
    (hnodup : ((st.disks.filter (fun x => x.virtual_machine == vm_id)).map
      (fun x => x.name)).Nodup)
    (habsent : ∀ q ∈ pdisks, q.name ≠ some d.name) :
    Op.deleteDisk d.id d.name ∈ (sync_vm_virtual_disks st vm_id pdisks).2 ∧
    ∀ x ∈ (sync_vm_virtual_disks st vm_id pdisks).1.disks, x.id ≠ d.id := by
  have hd2 : d ∈ st.disks.filter (fun x => x.virtual_machine == vm_id) :=
    List.mem_filter.mpr ⟨hd, by simp [hdvm]⟩
  have hmap0 : (d.name, d) ∈
      (st.disks.filter (fun x => x.virtual_machine == vm_id)).foldl
        (fun m x => pyDictInsert m x.name x) [] := by
    rw [keyed_fold_eq (fun x : NBDisk => x.name) _ [] hnodup (by simp)]
    simpa using List.mem_map_of_mem (fun x : NBDisk => (x.name, x)) hd2
  have hkeep := disk_fold_map_keep vm_id pdisks
    ⟨(st.disks.filter (fun x => x.virtual_machine == vm_id)).foldl
        (fun m x => pyDictInsert m x.name x) [], [], st, []⟩
    (d.name, d) hmap0 habsent
  constructor
  · unfold sync_vm_virtual_disks
    simp only []
    rw [disk_finish_ops]
    refine List.mem_append_right _ ?_
    exact List.mem_map_of_mem (fun kv => Op.deleteDisk kv.2.id kv.1) hkeep
  · intro x hx
    unfold sync_vm_virtual_disks at hx
    simp only [] at hx
    have := (disk_finish_disks_mem _ _ x hx).2 (d.name, d) hkeep
    simpa using this

theorem node_delete_only_nonmgmt (st : NBState) (device_id : Nat) (pnips : List PNodeIface) :
    ∀ op ∈ (sync_node_interfaces_and_ips st device_id pnips).2, ∀ i nm,
      op = Op.deleteDevIface i nm →
      ∃ r, r ∈ st.dcim_ifaces ∧ r.device = device_id ∧ r.id = i ∧ r.name = nm ∧
        mgmt_only_preserved r.mgmt_only = false := by
  intro op hop i nm heq
  subst heq
  unfold sync_node_interfaces_and_ips at hop
  simp only [] at hop
  rcases node_sweep_ops _ _ _ _ hop with h1 | ⟨kv, hkv, he, hmg⟩
  · have h2 := node_fold_no_delete device_id pnips (st, [], [])
      (fun o ho => absurd ho (List.not_mem_nil o)) _ h1
    simp [Op.isDeleteDevIface] at h2
  · rcases keyed_fold_mem (fun x : DcimIface => x.name) _ [] kv hkv with h3 | ⟨r, hr, hre⟩
    · exact absurd h3 (List.not_mem_nil kv)
    · subst hre
      obtain ⟨hrmem, hrdev⟩ := List.mem_filter.mp hr
      injection he with he1 he2
      exact ⟨r, hrmem, by simpa using hrdev, he1.symm, he2.symm, by simpa using hmg⟩

/-- C4, corrected: the VM disk reconciler does delete a registry disk
of the entity whose name no source disk carries, and the node
interface reconciler deletes only device interfaces whose mgmt_only
flag does not preserve them, but the VM network interface reconciler
never removes a registry interface: every existing interface id
survives the pass. -/
theorem C4_child_orphan_deletion (st : NBState) (vm_id device_id : Nat)
    (pifs : List PIface) (pdisks : List PDisk) (pnips : List PNodeIface)
    (i0 : NBIface) (d : NBDisk)
    (hi : i0 ∈ st.ifaces)
    (hd : d ∈ st.disks) (hdvm : d.virtual_machine = vm_id)
    (hnodup : ((st.disks.filter (fun x => x.virtual_machine == vm_id)).map
      (fun x => x.name)).Nodup)
    (habsent : ∀ q ∈ pdisks, q.name ≠ some d.name) :
    (∃ j ∈ (sync_vm_interfaces st vm_id pifs).1.ifaces, j.id = i0.id) ∧
    (Op.deleteDisk d.id d.name ∈ (sync_vm_virtual_disks st vm_id pdisks).2 ∧
      ∀ x ∈ (sync_vm_virtual_disks st vm_id pdisks).1.disks, x.id ≠ d.id) ∧
    (∀ op ∈ (sync_node_interfaces_and_ips st device_id pnips).2, ∀ i nm,
      op = Op.deleteDevIface i nm →
      ∃ r, r ∈ st.dcim_ifaces ∧ r.device = device_id ∧ r.id = i ∧ r.name = nm ∧
        mgmt_only_preserved r.mgmt_only = false) :=
  ⟨sync_vm_interfaces_ifaces_survive st vm_id pifs i0 hi,
   disk_orphan_deleted st vm_id pdisks d hd hdvm hnodup habsent,
   node_delete_only_nonmgmt st device_id pnips⟩

/-- Witness for C4 at a concrete registry: the orphaned disk is
deleted, the orphaned VM interface survives. -/
theorem C4_child_orphan_deletion_witness :
    (∃ j ∈ (sync_vm_interfaces c4w_state 1 [c4_piface]).1.ifaces, j.id = c4_iface.id) ∧
    (Op.deleteDisk c4_disk.id c4_disk.name ∈ (sync_vm_virtual_disks c4w_state 1 []).2 ∧
      ∀ x ∈ (sync_vm_virtual_disks c4w_state 1 []).1.disks, x.id ≠ c4_disk.id) ∧
    (∀ op ∈ (sync_node_interfaces_and_ips c4w_state 1 []).2, ∀ i nm,
      op = Op.deleteDevIface i nm →
      ∃ r, r ∈ c4w_state.dcim_ifaces ∧ r.device = 1 ∧ r.id = i ∧ r.name = nm ∧
        mgmt_only_preserved r.mgmt_only = false) :=
  C4_child_orphan_deletion c4w_state 1 1 [c4_piface] [] [] c4_iface c4_disk
    (by decide) (by decide) (by decide) (by decide) (by decide)

/-- C4 counterexample to the original claim: a registry VM interface
absent from the source survives the interface pass untouched even
though the pass does process another interface. -/
theorem C4_counterexample :
    ((sync_vm_interfaces c4_state 1 [c4_piface]).1.ifaces.any
      (fun j => j.id == 5 && j.name == "eth9")) = true ∧
    (sync_vm_interfaces c4_state 1 [c4_piface]).2 ≠ [] := by
  constructor
  · decide
  · decide

/-- C9: a source disk whose size is missing or non-positive produces no
disk write under its name: no create, no update, and no delete of the
same-named existing registry disk. -/
theorem C9_invalid_disk_not_written (st : NBState) (vm_id : Nat) (disks : List PDisk)
    (n : String) (p : PDisk)
    (hne : n ≠ "") (hp : p ∈ disks) (hnm : p.name = some n) (hinv : disk_invalid p = true)
    (hall : ∀ q ∈ disks, q.name = some n → disk_invalid q = true) :
    ∀ op ∈ (sync_vm_virtual_disks st vm_id disks).2, op.isDiskOpNamed n = false := by
  have hfold : ∀ q ∈ disks, ∀ nm, q.name = some nm → disk_invalid q = true ∨ nm ≠ n := by
    intro q hq nm hqnm
    by_cases hx : nm = n
    · subst hx
      exact Or.inl (hall q hq hqnm)
    · exact Or.inr hx
  intro op hop
  unfold sync_vm_virtual_disks at hop
  simp only [] at hop
  rw [disk_finish_ops] at hop
  rcases List.mem_append.mp hop with h1 | h1
  · rcases disk_fold_ops_named vm_id disks n _ hfold op h1 with h2 | h2
    · exact absurd h2 (List.not_mem_nil op)
    · exact h2
  · rw [List.mem_map] at h1
    obtain ⟨kv, hkv, hkveq⟩ := h1
    have hkvne := disk_fold_map_purged vm_id disks n p hp hnm hne hinv _ kv hkv
    subst hkveq
    simp [Op.isDiskOpNamed, hkvne]

/-- Witness for C9: the invalid-size source disk scsi0 triggers no
scsi0 write while the genuinely orphaned disk ide0 is still deleted. -/
theorem C9_invalid_disk_not_written_witness :
    Op.isDiskOpNamed (Op.deleteDisk 11 "ide0") "scsi0" = false ∧
    Op.deleteDisk 11 "ide0" ∈ (sync_vm_virtual_disks c9_state 1 [c9_pdisk]).2 :=
  ⟨C9_invalid_disk_not_written c9_state 1 [c9_pdisk] "scsi0" c9_pdisk
      (by decide) (by decide) (by decide) (by decide) (by decide)
      (Op.deleteDisk 11 "ide0") (by decide),
    by decide⟩

@[simp]
theorem tag_step_vms (acc : NBState × List Op × List Nat) (n : String) :
    (get_or_create_tag_step acc n).1.vms = acc.1.vms := by
  unfold get_or_create_tag_step
  repeat' split
  all_goals rfl

theorem tags_fold_vms (names : List String) :
    ∀ (acc : NBState × List Op × List Nat),
      (names.foldl get_or_create_tag_step acc).1.vms = acc.1.vms := by
  induction names with
  | nil => intro acc; rfl
  | cons x tl ih =>
    intro acc
    rw [List.foldl_cons, ih, tag_step_vms]

@[simp]
theorem platform_fn_vms (st : NBState) (n : String) :
    (get_or_create_netbox_platform st n).1.vms = st.vms := by
  unfold get_or_create_netbox_platform
  repeat' split
  all_goals rfl

theorem build_vm_payload_vms (st : NBState) (cid : Option Nat) (now n : String) (vm : VMData) :
    (build_vm_payload st cid now n vm).1.vms = st.vms := by
  unfold build_vm_payload
  simp only []
  repeat' split
  all_goals simp [get_or_create_netbox_tags, tags_fold_vms]

theorem build_vm_payload_name (st : NBState) (cid : Option Nat) (now n : String) (vm : VMData) :
    (build_vm_payload st cid now n vm).2.2.1.name = n := rfl

theorem build_vm_payload_cf (st : NBState) (cid : Option Nat) (now n : String) (vm : VMData) :
    (build_vm_payload st cid now n vm).2.2.1.custom_fields =
      build_custom_fields_payload vm now := rfl

theorem build_cf_status (vm : VMData) (now : String) :
    (build_custom_fields_payload vm now).vm_status = some "Deployed" := by
  unfold build_custom_fields_payload
  split
  · rfl
  · rfl

theorem build_cf_last_sync (vm : VMData) (now : String) :
    (build_custom_fields_payload vm now).vm_last_sync = some now := by
  unfold build_custom_fields_payload
  split
  · rfl
  · rfl

theorem tag_step_noop (st : NBState) (ops : List Op) (ids : List Nat) (n : String) (i : Nat)
    (h : lookup_tag_id st n = some i) :
    get_or_create_tag_step (st, ops, ids) n = (st, ops, ids ++ [i]) := by
  unfold get_or_create_tag_step
  unfold lookup_tag_id at h
  simp only []
  cases h1 : st.tags.find? (fun t => t.name == n) with
  | some t =>
    rw [h1] at h
    simp only [Option.some.injEq] at h
    subst h
    rfl
  | none =>
    rw [h1] at h
    cases h2 : st.tags.find? (fun t => t.slug == simpleSlug n) with
    | some t =>
      rw [h2] at h
      simp at h
      subst h
      rfl
    | none =>
      rw [h2] at h
      cases h

theorem tags_fold_noop (st : NBState) :
    ∀ (names : List String) (ids : List Nat), names.mapM (lookup_tag_id st) = some ids →
      ∀ (ops0 : List Op) (ids0 : List Nat),
        names.foldl get_or_create_tag_step (st, ops0, ids0) = (st, ops0, ids0 ++ ids) := by
  intro names
  induction names with
  | nil =>
    intro ids h ops0 ids0
    simp only [List.mapM_nil, pure, Option.some.injEq] at h
    subst h
    simp
  | cons x tl ih =>
    intro ids h ops0 ids0
    rw [List.mapM_cons] at h
    cases hx : lookup_tag_id st x with
    | none => rw [hx] at h; cases h
    | some i =>
      rw [hx] at h
      cases htl : tl.mapM (lookup_tag_id st) with
      | none => rw [htl] at h; cases h
      | some itl =>
        rw [htl] at h
        simp at h
        subst h
        rw [List.foldl_cons, tag_step_noop st ops0 ids0 x i hx, ih itl htl]
        simp

theorem platform_fn_noop (st : NBState) (n : String) (i : Nat)
    (hne : n ≠ "") (h : lookup_platform_id st n = some i) :
    get_or_create_netbox_platform st n = (st, [], some i) := by
  unfold get_or_create_netbox_platform
  unfold lookup_platform_id at h
  rw [if_neg hne]
  cases h1 : st.platforms.find? (fun p => p.name == n) with
  | some t =>
    rw [h1] at h
    simp only [Option.some.injEq] at h
    subst h
    rfl
  | none =>
    rw [h1] at h
    cases h2 : st.platforms.find? (fun p => p.slug == platformSlug n) with
    | some t =>
      rw [h2] at h
      simp at h
      subst h
      rfl
    | none =>
      rw [h2] at h
      cases h

theorem findSome?_ne_empty_aux :
    ∀ (l : List String) (n : String),
      l.findSome? (fun line =>
        let t := pyStrip line
        if pyStartsWith (pyLower t) "os:" then
          let potential := pyStrip ⟨t.data.drop 3⟩
          if potential ≠ "" then some potential else none
        else none) = some n → n ≠ "" := by
  intro l
  induction l with
  | nil => intro n h; cases h
  | cons x tl ih =>
    intro n h
    rw [List.findSome?_cons] at h
    revert h
    split
    · rename_i heq
      intro h
      simp only [Option.some.injEq] at h
      subst h
      revert heq
      simp only []
      split
      · split
        · intro heq
          simp only [Option.some.injEq] at heq
          subst heq
          simpa using ‹_›
        · intro heq; cases heq
      · intro heq; cases heq
    · intro h
      exact ih n h

theorem platform_name_of_ne_empty (vm : VMData) (n : String)
    (h : platform_name_of vm = some n) : n ≠ "" := by
  unfold platform_name_of at h
  revert h
  split
  · rename_i m heq
    intro h
    simp only [Option.some.injEq] at h
    subst h
    exact findSome?_ne_empty_aux _ _ heq
  · split
    · rename_i o heq
      split
      · intro h
        simp only [Option.some.injEq] at h
        subst h
        assumption
      · intro h; cases h
    · intro h; cases h

theorem build_vm_payload_noop (st : NBState) (cid : Option Nat) (now n : String) (vm : VMData)
    (p : VMPayload) (h : resolved_payload st cid now n vm = some p) :
    (build_vm_payload st cid now n vm).1 = st ∧
    (build_vm_payload st cid now n vm).2.1 = [] ∧
    (build_vm_payload st cid now n vm).2.2.1 = p := by
  unfold resolved_payload at h
  cases hti : resolved_tag_ids st vm with
  | none => rw [hti] at h; exact Option.noConfusion h
  | some tag_ids =>
    rw [hti] at h
    cases hpl : resolved_platform_id st vm with
    | none => rw [hpl] at h; exact Option.noConfusion h
    | some platform_id =>
      rw [hpl] at h
      have hp := Option.some.inj h
      unfold build_vm_payload
      simp only []
      unfold resolved_tag_ids at hti
      have htagsval : (if (vm.proxmox_tags).getD "" ≠ "" then
          get_or_create_netbox_tags st (tag_names_of vm)
        else ((st, [], []) : NBState × List Op × List Nat)) = (st, [], tag_ids) := by
        by_cases htag : ((vm.proxmox_tags).getD "" ≠ "")
        · rw [if_pos htag] at hti ⊢
          have h2 := tags_fold_noop st (tag_names_of vm) tag_ids hti [] []
          simpa [get_or_create_netbox_tags] using h2
        · rw [if_neg htag] at hti ⊢
          have h3 := Option.some.inj hti
          subst h3
          rfl
      rw [htagsval]
      have hplatval : (match platform_name_of vm with
          | some pn =>
            get_or_create_netbox_platform ((st, [], tag_ids) :
              NBState × List Op × List Nat).1 pn
          | none => (((st, [], tag_ids) : NBState × List Op × List Nat).1, [], none)) =
          (st, [], platform_id) := by
        unfold resolved_platform_id at hpl
        cases hpn : platform_name_of vm with
        | none =>
          rw [hpn] at hpl
          have h4 := Option.some.inj hpl
          rw [← h4]
          try rfl
        | some pn =>
          rw [hpn] at hpl
          have h5 : (lookup_platform_id st pn).map some = some platform_id := hpl
          cases hlk : lookup_platform_id st pn with
          | none => rw [hlk] at h5; exact Option.noConfusion h5
          | some pi =>
            rw [hlk] at h5
            have h6 := Option.some.inj h5
            rw [← h6]
            exact platform_fn_noop st pn pi (platform_name_of_ne_empty vm pn hpn) hlk
      rw [hplatval]
      exact ⟨rfl, rfl, hp⟩

@[simp]
theorem disk_step_st_vms (vm_id : Nat) (acc : DiskLoopState) (p : PDisk) :
    (sync_vm_virtual_disks_step vm_id acc p).st.vms = acc.st.vms := by
  unfold sync_vm_virtual_disks_step
  simp only []
  repeat' split
  all_goals rfl

theorem disks_fold_st_vms (vm_id : Nat) (l : List PDisk) :
    ∀ acc : DiskLoopState,
      (l.foldl (sync_vm_virtual_disks_step vm_id) acc).st.vms = acc.st.vms := by
  induction l with
  | nil => intro acc; rfl
  | cons x tl ih => intro acc; rw [List.foldl_cons, ih, disk_step_st_vms]

theorem disk_finish_st_vms (m : List (String × NBDisk)) :
    ∀ a : NBState × List Op,
      (m.foldl
        (fun (a : NBState × List Op) kv =>
          ({ a.1 with disks := a.1.disks.filter (fun d => d.id ≠ kv.2.id) },
            a.2 ++ [.deleteDisk kv.2.id kv.1])) a).1.vms = a.1.vms := by
  induction m with
  | nil => intro a; rfl
  | cons x tl ih => intro a; rw [List.foldl_cons, ih]

theorem sync_vm_virtual_disks_vms (st : NBState) (i : Nat) (l : List PDisk) :
    (sync_vm_virtual_disks st i l).1.vms = st.vms := by
  unfold sync_vm_virtual_disks
  simp only []
  rw [disk_finish_st_vms, disks_fold_st_vms]

theorem sync_children_vms (A : SyncAcc) (i : Nat) (vm : VMData) :
    (sync_children A i vm).st.vms = A.st.vms := by
  unfold sync_children
  simp only []
  rw [sync_vm_virtual_disks_vms, sync_vm_interfaces_vms]

theorem sync_children_ops (A : SyncAcc) (i : Nat) (vm : VMData) :
    (sync_children A i vm).ops =
      A.ops ++
        ((sync_vm_interfaces A.st i ((vm.proxmox_network_interfaces).getD [])).2 ++
          (sync_vm_virtual_disks
            (sync_vm_interfaces A.st i ((vm.proxmox_network_interfaces).getD [])).1 i
            ((vm.proxmox_virtual_disks).getD [])).2) := by
  unfold sync_children
  simp only []
  rw [List.append_assoc]

theorem apply_vm_payload_status (x : NBVm) (p : VMPayload)
    (h : p.custom_fields.vm_status = some "Deployed") :
    (apply_vm_payload x p).custom_fields.vm_status = some "Deployed" := by
  unfold apply_vm_payload apply_cf
  simp only [h]

theorem orphan_sweep_vms_eq (st : NBState) (cname : String) (active : List (String × Int))
    (now : String) (c : ClusterObj)
    (hc : st.clusters.find? (fun x => x.name == cname) = some c)
    (hids : (st.vms.map (fun v => v.id)).Nodup) :
    (mark_orphaned_vms_as_deleted st cname active now).1.vms =
      st.vms.map (fun v =>
        if sweep_marks c.id active v then mark_deleted_record now v else v) := by
  rw [mark_orphaned_eq st cname active now c hc]
  by_cases hL : (st.vms.filter (fun v => v.cluster == some c.id)).isEmpty = true
  · rw [if_pos hL]
    have hnil := List.isEmpty_iff.mp hL
    have hnone : ∀ v ∈ st.vms, sweep_marks c.id active v = false := by
      intro v hv
      rw [sweep_marks_split]
      have := List.filter_eq_nil_iff.mp hnil v hv
      simp only [Bool.not_eq_true] at this
      rw [this, Bool.false_and]
    conv_lhs => rw [show st.vms = st.vms.map id from (List.map_id _).symm]
    apply List.map_congr_left
    intro v hv
    rw [hnone v hv]
    rfl
  · rw [if_neg (by simpa using hL)]
    rw [markAll_vms]
    apply List.map_congr_left
    intro v hv
    rw [sweep_cond_eq st c.id active hids v hv]

theorem process_vm_forced_update (cluster_id : Option Nat) (t2 : String) (acc : SyncAcc)
    (vm : VMData) (rid : Nat) (r : NBVm)
    (hmatch : acc.caches.by_vmid.lookup vm.vmid = some rid)
    (hnotaken : (((acc.caches.by_name_vmid.lookup vm.name).getD []).any
      (fun kv => !(kv.1 == some vm.vmid))) = false)
    (hfind : acc.st.vms.find? (fun x => x.id == rid) = some r)
    (hdel : r.custom_fields.vm_status = some "Deleted")
    (hnoconf : (acc.st.vms.any (fun x => !(x.id == r.id) && x.name == vm.name)) = false) :
    process_vm cluster_id t2 acc vm =
      sync_children
        { st := { (build_vm_payload acc.st cluster_id t2 vm.name vm).1 with
              vms := acc.st.vms.map (fun x =>
                if x.id == r.id then
                  apply_vm_payload x (build_vm_payload acc.st cluster_id t2 vm.name vm).2.2.1
                else x) }
          caches := acc.caches
          ops := acc.ops ++ (build_vm_payload acc.st cluster_id t2 vm.name vm).2.1 ++
            [Op.updateVM r.id (build_vm_payload acc.st cluster_id t2 vm.name vm).2.2.1]
          total_processed := acc.total_processed + 1
          successfully_synced := acc.successfully_synced + 1
          warnings :=
            if (build_vm_payload acc.st cluster_id t2 vm.name vm).2.2.2 then
              setAdd acc.warnings vm.name
            else acc.warnings
          errors := acc.errors }
        r.id vm := by
  unfold process_vm
  simp only []
  rw [hnotaken]
  simp only [Bool.false_eq_true, if_false]
  rw [build_vm_payload_vms]
  split
  · rename_i rid2 heq
    rw [hmatch] at heq
    injection heq with he
    subst he
    split
    · rename_i heq2
      rw [hfind] at heq2
      cases heq2
    · rename_i r2 heq2
      rw [hfind] at heq2
      injection heq2 with he2
      subst he2
      rw [hdel, build_vm_payload_cf, build_cf_status]
      simp only [beq_self_eq_true, Bool.true_and, Bool.true_or, Bool.not_true,
        Bool.false_eq_true, if_false]
      rw [build_vm_payload_name, hnoconf]
      simp only [Bool.false_eq_true, if_false]
  · rename_i heq
    rw [hmatch] at heq
    cases heq

/-- C3: a registry entity of the swept cluster whose identity is absent
from the active set under both its current and its suffix-stripped
name ends the sweep with lifecycle status Deleted, and an entity that
reappears in the source while its record is marked Deleted is forced
through an update that flips the status back to Deployed even when no
other field differs. -/
theorem C3_orphan_transition (st : NBState) (cname : String) (active : List (String × Int))
    (now : String) (c : ClusterObj) (v : NBVm) (vid : Int)
    (cluster_id : Option Nat) (t2 : String) (acc : SyncAcc) (vm : VMData) (rid : Nat) (r : NBVm)
    (hc : st.clusters.find? (fun x => x.name == cname) = some c)
    (hids : (st.vms.map (fun x => x.id)).Nodup)
    (hv : v ∈ st.vms) (hcl : v.cluster = some c.id)
    (hvmid : v.custom_fields.vmid = some vid)
    (habs1 : active.contains (v.name, vid) = false)
    (habs2 : active.contains (strip_disambiguation v.name vid, vid) = false)
    (hmatch : acc.caches.by_vmid.lookup vm.vmid = some rid)
    (hnotaken : (((acc.caches.by_name_vmid.lookup vm.name).getD []).any
      (fun kv => !(kv.1 == some vm.vmid))) = false)
    (hfind : acc.st.vms.find? (fun x => x.id == rid) = some r)
    (hdel : r.custom_fields.vm_status = some "Deleted")
    (hnoconf : (acc.st.vms.any (fun x => !(x.id == r.id) && x.name == vm.name)) = false) :
    (∃ w ∈ (mark_orphaned_vms_as_deleted st cname active now).1.vms,
      w.id = v.id ∧ w.custom_fields.vm_status = some "Deleted") ∧
    (∃ p, Op.updateVM r.id p ∈ (process_vm cluster_id t2 acc vm).ops ∧
      p.custom_fields.vm_status = some "Deployed") ∧
    (∃ w ∈ (process_vm cluster_id t2 acc vm).st.vms,
      w.id = r.id ∧ w.custom_fields.vm_status = some "Deployed") := by
  have hpstat : (build_vm_payload acc.st cluster_id t2 vm.name vm).2.2.1.custom_fields.vm_status
      = some "Deployed" := by
    rw [build_vm_payload_cf, build_cf_status]
  refine ⟨?_, ?_, ?_⟩
  · rw [orphan_sweep_vms_eq st cname active now c hc hids]
    refine ⟨_, List.mem_map_of_mem _ hv, ?_⟩
    by_cases hs : sweep_marks c.id active v = true
    · rw [hs]
      exact ⟨rfl, rfl⟩
    · have hs2 : sweep_marks c.id active v = false := by
        simpa using hs
      rw [hs2]
      refine ⟨rfl, ?_⟩
      have hcl2 : (v.cluster == some c.id) = true := by simp [hcl]
      have horv : orphan_candidate active v = true := by
        have he : orphan_candidate active v =
            (!active.contains (v.name, vid) &&
              !active.contains (strip_disambiguation v.name vid, vid)) := by
          unfold orphan_candidate
          rw [hvmid]
        rw [he, habs1, habs2]
        rfl
      unfold sweep_marks at hs2
      rw [hcl2, horv] at hs2
      simpa using hs2
  · refine ⟨(build_vm_payload acc.st cluster_id t2 vm.name vm).2.2.1, ?_, hpstat⟩
    rw [process_vm_forced_update cluster_id t2 acc vm rid r hmatch hnotaken hfind hdel hnoconf]
    rw [sync_children_ops]
    refine List.mem_append_left _ ?_
    simp only []
    exact List.mem_append_right _ (List.mem_singleton_self _)
  · rw [process_vm_forced_update cluster_id t2 acc vm rid r hmatch hnotaken hfind hdel hnoconf]
    rw [sync_children_vms]
    have hr := List.mem_of_find?_eq_some hfind
    refine ⟨_, List.mem_map_of_mem _ hr, ?_⟩
    have hself : (r.id == r.id) = true := by simp
    rw [hself]
    simp only [if_true]
    exact ⟨rfl, apply_vm_payload_status r _ hpstat⟩

/-- Witness for C3 on the concrete reappearance scenario. -/
theorem C3_orphan_transition_witness :
    (∃ w ∈ (mark_orphaned_vms_as_deleted c1_state1 "cl" [] "T3").1.vms,
      w.id = c3_v.id ∧ w.custom_fields.vm_status = some "Deleted") ∧
    (∃ p, Op.updateVM c3_r.id p ∈ (process_vm (some 2) "T4" c3_acc c1_vm).ops ∧
      p.custom_fields.vm_status = some "Deployed") ∧
    (∃ w ∈ (process_vm (some 2) "T4" c3_acc c1_vm).st.vms,
      w.id = c3_r.id ∧ w.custom_fields.vm_status = some "Deployed") :=
  C3_orphan_transition c1_state1 "cl" [] "T3" ⟨2, "cl", 1⟩ c3_v 100 (some 2) "T4" c3_acc
    c1_vm 6 c3_r (by decide) (by decide) (by decide) (by decide) (by decide) (by decide)
    (by decide) (by decide) (by decide) (by decide) (by decide) (by decide)

theorem lookup_filter_ne (k0 k : String) (h : k ≠ k0) :
    ∀ (m : List (String × NBDisk)),
      (m.filter (fun kv => kv.1 ≠ k0)).lookup k = m.lookup k := by
  intro m
  induction m with
  | nil => rfl
  | cons a tl ih =>
    obtain ⟨x, b⟩ := a
    rw [List.filter_cons]
    by_cases hx : x = k0
    · rw [if_neg (by simp [hx])]
      rw [ih]
      have hkx : (k == x) = false := by
        simp only [beq_eq_false_iff_ne, ne_eq]
        intro he
        exact h (he.trans hx)
      simp [List.lookup, hkx]
    · rw [if_pos (by simpa using hx)]
      by_cases hkx : k = x
      · subst hkx
        simp [List.lookup]
      · have hkx2 : (k == x) = false := by simp [hkx]
        simp only [List.lookup, hkx2]
        exact ih

theorem disk_step_skip_none (vm_id : Nat) (acc : DiskLoopState) (p : PDisk)
    (hnm : p.name = none) : sync_vm_virtual_disks_step vm_id acc p = acc := by
  unfold sync_vm_virtual_disks_step
  rw [hnm]

theorem disk_step_skip_empty (vm_id : Nat) (acc : DiskLoopState) (p : PDisk)
    (hnm : p.name = some "") : sync_vm_virtual_disks_step vm_id acc p = acc := by
  unfold sync_vm_virtual_disks_step
  rw [hnm]
  rfl

theorem disk_step_converged_eq (vm_id : Nat) (m : List (String × NBDisk)) (pr : List String)
    (s : NBState) (ops : List Op) (p : PDisk) (nm : String)
    (hnm : p.name = some nm) (hne : nm ≠ "")
    (h : disk_invalid p = true ∨
      (disk_invalid p = false ∧
        ∃ dd, m.lookup nm = some dd ∧ dd.size = (p.size_mb).getD 0 ∧
          disk_description_differs dd.description p.proxmox_raw_config = false)) :
    sync_vm_virtual_disks_step vm_id ⟨m, pr, s, ops⟩ p =
      ⟨m.filter (fun kv => kv.1 ≠ nm), pr ++ [nm], s, ops⟩ := by
  unfold sync_vm_virtual_disks_step
  split
  · rename_i heq
    rw [hnm] at heq
    cases heq
  · rename_i nm2 heq
    rw [hnm] at heq
    injection heq with he
    subst he
    rw [if_neg hne]
    simp only []
    rcases h with hinv | ⟨hval, dd, hlk, hsz, hdesc⟩
    · rw [if_pos hinv]
    · rw [hval]
      simp only [Bool.false_eq_true, if_false]
      split
    -- lookup match
      · rename_i dd2 heq2
        rw [hlk] at heq2
        injection heq2 with he2
        subst he2
        have e1 : (if dd.size ≠ (p.size_mb).getD 0 then some ((p.size_mb).getD 0) else none) =
            none := by
          simp [hsz]
        have e2 : (if disk_description_differs dd.description p.proxmox_raw_config = true then
            some ((p.proxmox_raw_config).getD "") else none) = none := by
          simp [hdesc]
        try simp only []
        rw [e1, e2, if_pos rfl]
      · rename_i heq2
        rw [hlk] at heq2
        cases heq2

theorem disks_noop_fold (vm_id : Nat) :
    ∀ (l : List PDisk) (m : List (String × NBDisk)) (pr : List String) (s : NBState)
      (ops : List Op),
      (l.filterMap (fun p => p.name)).Nodup →
      (∀ p ∈ l, ∀ nm, p.name = some nm → nm ≠ "" → disk_invalid p = false →
        ∃ dd, m.lookup nm = some dd ∧ dd.size = (p.size_mb).getD 0 ∧
          disk_description_differs dd.description p.proxmox_raw_config = false) →
      (∀ kv ∈ m, kv.1 ≠ "" ∧ ∃ p ∈ l, p.name = some kv.1) →
      ∃ pr2, l.foldl (sync_vm_virtual_disks_step vm_id) ⟨m, pr, s, ops⟩ = ⟨[], pr2, s, ops⟩ := by
  intro l
  induction l with
  | nil =>
    intro m pr s ops _ _ hcov
    have hm : m = [] := by
      rw [List.eq_nil_iff_forall_not_mem]
      intro kv hkv
      obtain ⟨-, q, hq, -⟩ := hcov kv hkv
      exact absurd hq (List.not_mem_nil q)
    subst hm
    exact ⟨pr, rfl⟩
  | cons p tl ih =>
    intro m pr s ops hnd hmatch hcov
    rw [List.foldl_cons]
    cases hnm : p.name with
    | none =>
      rw [disk_step_skip_none vm_id _ p hnm]
      refine ih m pr s ops (by simpa [List.filterMap_cons, hnm] using hnd) ?_ ?_
      · intro q hq nm h1 h2 h3
        exact hmatch q (by simp [hq]) nm h1 h2 h3
      · intro kv hkv
        obtain ⟨hk1, q, hq, hq2⟩ := hcov kv hkv
        rcases List.mem_cons.mp hq with rfl | hq3
        · rw [hnm] at hq2; cases hq2
        · exact ⟨hk1, q, hq3, hq2⟩
    | some nm =>
      by_cases hne : nm = ""
      · subst hne
        rw [disk_step_skip_empty vm_id _ p hnm]
        have hnd2 : ((p :: tl).filterMap (fun q => q.name)) =
            "" :: tl.filterMap (fun q => q.name) := by
          simp [List.filterMap_cons, hnm]
        rw [hnd2, List.nodup_cons] at hnd
        refine ih m pr s ops hnd.2 ?_ ?_
        · intro q hq nm2 h1 h2 h3
          exact hmatch q (by simp [hq]) nm2 h1 h2 h3
        · intro kv hkv
          obtain ⟨hk1, q, hq, hq2⟩ := hcov kv hkv
          rcases List.mem_cons.mp hq with rfl | hq3
          · rw [hnm] at hq2
            injection hq2 with he
            exact absurd he.symm hk1
          · exact ⟨hk1, q, hq3, hq2⟩
      · have hstep := disk_step_converged_eq vm_id m pr s ops p nm hnm hne (by
          by_cases hval : disk_invalid p = true
          · exact Or.inl hval
          · refine Or.inr ⟨by simpa using hval, ?_⟩
            exact hmatch p (by simp) nm hnm hne (by simpa using hval))
        rw [hstep]
        have hnd2 : ((p :: tl).filterMap (fun q => q.name)) = nm :: tl.filterMap (fun q => q.name) := by
          simp [List.filterMap_cons, hnm]
        rw [hnd2] at hnd
        rw [List.nodup_cons] at hnd
        refine ih _ (pr ++ [nm]) s ops hnd.2 ?_ ?_
        · intro q hq nm2 h1 h2 h3
          have hne2 : nm2 ≠ nm := by
            intro he
            subst he
            exact hnd.1 (by
              rw [List.mem_filterMap]
              exact ⟨q, hq, h1⟩)
          rw [lookup_filter_ne nm nm2 hne2]
          exact hmatch q (by simp [hq]) nm2 h1 h2 h3
        · intro kv hkv
          have hkv2 := List.mem_of_mem_filter hkv
          have hkne : (kv.1 ≠ nm) := by
            have := List.of_mem_filter hkv
            simpa using this
          obtain ⟨hk1, q, hq, hq2⟩ := hcov kv hkv2
          rcases List.mem_cons.mp hq with rfl | hq3
          · rw [hnm] at hq2
            injection hq2 with he
            exact absurd he.symm hkne
          · exact ⟨hk1, q, hq3, hq2⟩

theorem disks_converged_noop (st : NBState) (vm_id : Nat) (vm : VMData)
    (h : disks_converged st vm_id vm = true) :
    sync_vm_virtual_disks st vm_id ((vm.proxmox_virtual_disks).getD []) = (st, []) := by
  unfold disks_converged at h
  simp only [] at h
  rw [Bool.and_eq_true_iff, Bool.and_eq_true_iff] at h
  obtain ⟨⟨hnodup, hall⟩, hcov⟩ := h
  have hall2 := List.all_eq_true.mp hall
  have hcov2 := List.all_eq_true.mp hcov
  unfold sync_vm_virtual_disks
  simp only []
  have H2 : ∀ p ∈ (vm.proxmox_virtual_disks).getD [], ∀ nm, p.name = some nm → nm ≠ "" →
      disk_invalid p = false →
      ∃ dd, (existing_disk_map st vm_id).lookup nm = some dd ∧
        dd.size = (p.size_mb).getD 0 ∧
        disk_description_differs dd.description p.proxmox_raw_config = false := by
    intro p hp nm hnm hne hval
    have hf := hall2 p hp
    rw [hnm] at hf
    have hf2 : (if nm = "" then true
      else
        match p.size_mb with
        | some sz =>
          if sz > 0 then
            match (existing_disk_map st vm_id).lookup nm with
            | some d =>
              d.size == sz && !disk_description_differs d.description p.proxmox_raw_config
            | none => false
          else true
        | none => true) = true := hf
    rw [if_neg hne] at hf2
    unfold disk_invalid at hval
    cases hsz : p.size_mb with
    | none => rw [hsz] at hval; cases hval
    | some sz =>
      rw [hsz] at hval hf2
      have hpos : sz > 0 := by simpa using hval
      have hf3 : (if sz > 0 then
          match (existing_disk_map st vm_id).lookup nm with
          | some d =>
            d.size == sz && !disk_description_differs d.description p.proxmox_raw_config
          | none => false
        else true) = true := hf2
    -- select the positive branch
      rw [if_pos hpos] at hf3
      cases hlk : (existing_disk_map st vm_id).lookup nm with
      | none =>
        rw [hlk] at hf3
        have hFalse : false = true := hf3
        cases hFalse
      | some dd =>
        rw [hlk] at hf3
        have hf4 : (dd.size == sz &&
            !disk_description_differs dd.description p.proxmox_raw_config) = true := hf3
        obtain ⟨hA, hB⟩ := Bool.and_eq_true_iff.mp hf4
        refine ⟨dd, rfl, ?_, ?_⟩
        · simpa using hA
        · simpa using hB
  have H3 : ∀ kv ∈ existing_disk_map st vm_id, kv.1 ≠ "" ∧
      ∃ p ∈ (vm.proxmox_virtual_disks).getD [], p.name = some kv.1 := by
    intro kv hkv
    have hf := hcov2 kv hkv
    obtain ⟨hA, hB⟩ := Bool.and_eq_true_iff.mp hf
    refine ⟨by simpa using hA, ?_⟩
    obtain ⟨q, hq, hq2⟩ := List.any_eq_true.mp hB
    exact ⟨q, hq, by simpa using hq2⟩
  obtain ⟨pr2, hfold⟩ := disks_noop_fold vm_id ((vm.proxmox_virtual_disks).getD [])
    (existing_disk_map st vm_id) [] st [] (of_decide_eq_true hnodup) H2 H3
  rw [show ((st.disks.filter (fun d => d.virtual_machine == vm_id)).foldl
      (fun m d => pyDictInsert m d.name d) []) = existing_disk_map st vm_id from rfl]
  rw [hfold]
  rfl

theorem vlan_fn_noop (st : NBState) (t : Int) (v : VlanObj)
    (hne : ¬t = 0) (hf : st.vlans.find? (fun x => x.vid == t) = some v) :
    get_or_create_netbox_vlan st t = (st, [], some v.id) := by
  unfold get_or_create_netbox_vlan
  rw [if_neg hne, hf]

theorem vlan_clear_skip (st : NBState) (nb0 : NBIface) (u : IfaceUpdate)
    (hA : nb0.untagged_vlan.isNone = true) (hB : (!(nb0.mode == some "access")) = true) :
    (if nb0.untagged_vlan.isSome || nb0.mode == some "access" then
        ((st, [], { u with mode := some none, untagged_vlan := some none }) :
          NBState × List Op × IfaceUpdate)
      else (st, [], u)) = (st, [], u) := by
  have h1 : nb0.untagged_vlan.isSome = false := by
    simp [Option.isNone_iff_eq_none.mp hA]
  have h2 : (nb0.mode == some "access") = false := by simpa using hB
  rw [h1, h2]
  simp

theorem vlan_update_noop (st : NBState) (nb0 : NBIface) (tag : Option Int) (u : IfaceUpdate)
    (h : iface_vlan_converged st nb0 tag = true) :
    vm_iface_vlan_update st nb0 tag u = (st, [], u) := by
  unfold iface_vlan_converged at h
  unfold vm_iface_vlan_update
  split
  · rename_i t
    have h2 : (if t ≠ 0 then
        match st.vlans.find? (fun v => v.vid == t) with
        | some v => nb0.mode == some "access" && nb0.untagged_vlan == some v.id
        | none => false
      else nb0.untagged_vlan.isNone && !(nb0.mode == some "access")) = true := h
    by_cases ht0 : t = 0
    · rw [if_neg (not_not_intro ht0)] at h2
      obtain ⟨hA, hB⟩ := Bool.and_eq_true_iff.mp h2
      rw [if_neg (not_not_intro ht0)]
      exact vlan_clear_skip st nb0 u hA hB
    · rw [if_pos ht0] at h2
      rw [if_pos ht0]
      simp only []
      cases hf : st.vlans.find? (fun v => v.vid == t) with
      | none =>
        rw [hf] at h2
        have hF : false = true := h2
        cases hF
      | some v =>
        rw [hf] at h2
        have h3 : (nb0.mode == some "access" && nb0.untagged_vlan == some v.id) = true := h2
        obtain ⟨hA, hB⟩ := Bool.and_eq_true_iff.mp h3
        rw [vlan_fn_noop st t v ht0 hf]
        show (if nb0.mode ≠ some "access" ∨ nb0.untagged_vlan ≠ some v.id then
            (((st, [], some v.id) : NBState × List Op × Option Nat).1,
              ((st, [], some v.id) : NBState × List Op × Option Nat).2.1,
              { u with mode := some (some "access"), untagged_vlan := some (some v.id) })
          else (((st, [], some v.id) : NBState × List Op × Option Nat).1,
            ((st, [], some v.id) : NBState × List Op × Option Nat).2.1, u)) = (st, [], u)
        have hcond : ¬(nb0.mode ≠ some "access" ∨ nb0.untagged_vlan ≠ some v.id) := by
          simp only [not_or, not_not, ne_eq]
          exact ⟨by simpa using hA, by simpa using hB⟩
        rw [if_neg hcond]
  · have h2 : (nb0.untagged_vlan.isNone && !(nb0.mode == some "access")) = true := h
    obtain ⟨hA, hB⟩ := Bool.and_eq_true_iff.mp h2
    exact vlan_clear_skip st nb0 u hA hB

theorem mac_fn_reuse (st : NBState) (m : String) (iid : Nat) (mobj : MacObj)
    (hm : ¬m = "")
    (hf : iface_mac_candidate st (pyUpper m) iid = some mobj) :
    get_or_create_and_assign_netbox_mac_address st m (some iid)
      (some NETBOX_OBJECT_TYPE_VMINTERFACE) = (st, [], some mobj.id) := by
  unfold iface_mac_candidate at hf
  unfold get_or_create_and_assign_netbox_mac_address
  rw [if_neg hm]
  simp only []
  split
  · rename_i o heq
    have heq2 : (st.macs.filter (fun o => o.mac_address == pyUpper m)).find? (fun o =>
        o.mac_address == pyUpper m && o.assigned_object_id == some iid &&
          (o.assigned_object_type.map pyLower) ==
            some (pyLower NETBOX_OBJECT_TYPE_VMINTERFACE)) = some o := heq
    rw [hf] at heq2
    injection heq2 with he
    subst he
    rfl
  · rename_i heq
    have heq2 : (st.macs.filter (fun o => o.mac_address == pyUpper m)).find? (fun o =>
        o.mac_address == pyUpper m && o.assigned_object_id == some iid &&
          (o.assigned_object_type.map pyLower) ==
            some (pyLower NETBOX_OBJECT_TYPE_VMINTERFACE)) = none := heq
    rw [hf] at heq2
    cases heq2

theorem ip_step_noop (st : NBState) (iid : Nat) (p : PIface)
    (h : iface_ip_converged st iid p.ip_cidr = true) :
    sync_vm_iface_ip_step st iid p = (st, []) := by
  unfold iface_ip_converged at h
  unfold sync_vm_iface_ip_step
  split
  · rfl
  · rename_i c heq
    rw [heq] at h
    have h2 : (if c = "" then true
      else
        match st.ips.find? (fun i => i.address == c) with
        | some ip =>
          ip.assigned_object_id == some iid &&
            ip.assigned_object_type == some NETBOX_OBJECT_TYPE_VMINTERFACE
        | none => false) = true := h
    by_cases hce : c = ""
    · rw [if_pos hce]
    · rw [if_neg hce] at h2
      rw [if_neg hce]
      split
      · rename_i ipobj hfip
        rw [hfip] at h2
        have h3 : (ipobj.assigned_object_id == some iid &&
            ipobj.assigned_object_type == some NETBOX_OBJECT_TYPE_VMINTERFACE) = true := h2
        obtain ⟨hA, hB⟩ := Bool.and_eq_true_iff.mp h3
        rw [if_neg]
        simp only [not_or, not_not]
        exact ⟨by simpa using hA, by simpa using hB⟩
      · rename_i hfip
        rw [hfip] at h2
        have hF : false = true := h2
        cases hF

theorem vm_iface_update_branch_noop (st : NBState) (ops : List Op) (p : PIface)
    (pn pm : String) (nb0 : NBIface) (mobj : MacObj)
    (hm : ¬pm = "")
    (hmac : iface_mac_candidate st (pyUpper pm) nb0.id = some mobj)
    (hname : nb0.name = pn)
    (hen : nb0.enabled = true)
    (hcf : nb0.custom_fields = build_iface_custom_fields p)
    (hvlan : iface_vlan_converged st nb0 p.vlan_tag = true)
    (hprim : nb0.primary_mac_address = some mobj.id)
    (hip : iface_ip_converged st nb0.id p.ip_cidr = true) :
    vm_iface_update_branch st ops p pn pm (build_iface_custom_fields p) nb0 = (st, ops) := by
  unfold vm_iface_update_branch
  simp only []
  rw [mac_fn_reuse st pm nb0.id mobj hm hmac]
  have e1 : (if nb0.name ≠ pn then some pn else none) = none := by simp [hname]
  have e2 : (if ¬nb0.enabled = true then some true else none) = none := by simp [hen]
  have e3 : (if build_iface_custom_fields p ≠ nb0.custom_fields then
      some (build_iface_custom_fields p) else none) = none := by simp [hcf]
  rw [e1, e2, e3]
  rw [show ((st, ([] : List Op), some mobj.id) :
      NBState × List Op × Option Nat).1 = st from rfl]
  rw [vlan_update_noop st nb0 p.vlan_tag _ hvlan]
  simp [hprim, IfaceUpdate.isEmptyPayload, IfaceUpdate.empty,
    ip_step_noop st nb0.id p hip]

theorem iface_step_noop (vm_id : Nat) (st : NBState) (ops : List Op) (p : PIface)
    (h : iface_converged_one st vm_id p = true) :
    sync_vm_interfaces_step vm_id (st, ops) p = (st, ops) := by
  unfold iface_converged_one at h
  unfold sync_vm_interfaces_step
  simp only []
  simp only [] at h
  by_cases hm : (p.mac_address).getD "" = ""
  · rw [if_pos hm]
  · rw [if_neg hm] at h ⊢
    cases hh : (st.ifaces.filter (fun i =>
        i.virtual_machine == vm_id && i.name == (p.name).getD "net_unnamed")).head? with
    | none =>
      rw [hh] at h
      have hF : false = true := h
      cases hF
    | some nb0 =>
      rw [hh] at h
      have hB : (match iface_mac_candidate st (pyUpper ((p.mac_address).getD "")) nb0.id with
        | none => false
        | some mobj =>
          nb0.enabled && nb0.custom_fields == build_iface_custom_fields p &&
            iface_vlan_converged st nb0 p.vlan_tag &&
            nb0.primary_mac_address == some mobj.id &&
            iface_ip_converged st nb0.id p.ip_cidr) = true := h
      cases hmc : iface_mac_candidate st (pyUpper ((p.mac_address).getD "")) nb0.id with
      | none =>
        rw [hmc] at hB
        have hF : false = true := hB
        cases hF
      | some mobj =>
        rw [hmc] at hB
        have h2 : (nb0.enabled &&
            (nb0.custom_fields == build_iface_custom_fields p &&
              (iface_vlan_converged st nb0 p.vlan_tag &&
                (nb0.primary_mac_address == some mobj.id &&
                  iface_ip_converged st nb0.id p.ip_cidr)))) = true := by
          have h3 : (nb0.enabled &&
              nb0.custom_fields == build_iface_custom_fields p &&
              iface_vlan_converged st nb0 p.vlan_tag &&
              nb0.primary_mac_address == some mobj.id &&
              iface_ip_converged st nb0.id p.ip_cidr) = true := hB
          simpa [Bool.and_assoc] using h3
        obtain ⟨hen, h4⟩ := Bool.and_eq_true_iff.mp h2
        obtain ⟨hcf, h5⟩ := Bool.and_eq_true_iff.mp h4
        obtain ⟨hvl, h6⟩ := Bool.and_eq_true_iff.mp h5
        obtain ⟨hpr, hip⟩ := Bool.and_eq_true_iff.mp h6
        have hname : nb0.name = (p.name).getD "net_unnamed" := by
          have hmem : nb0 ∈ st.ifaces.filter (fun i =>
              i.virtual_machine == vm_id && i.name == (p.name).getD "net_unnamed") :=
            List.mem_of_mem_head? (by rw [hh]; simp)
          have := List.of_mem_filter hmem
          obtain ⟨-, hb⟩ := Bool.and_eq_true_iff.mp this
          simpa using hb
        exact vm_iface_update_branch_noop st ops p ((p.name).getD "net_unnamed")
          ((p.mac_address).getD "") nb0 mobj hm hmc hname (by simpa using hen)
          (by simpa using hcf) hvl (by simpa using hpr) hip

theorem ifaces_fold_noop (vm_id : Nat) (st : NBState) (l : List PIface)
    (h : ∀ p ∈ l, iface_converged_one st vm_id p = true) :
    ∀ ops : List Op, l.foldl (sync_vm_interfaces_step vm_id) (st, ops) = (st, ops) := by
  induction l with
  | nil => intro ops; rfl
  | cons x tl ih =>
    intro ops
    rw [List.foldl_cons, iface_step_noop vm_id st ops x (h x (by simp))]
    exact ih (fun p hp => h p (by simp [hp])) ops

theorem ifaces_converged_noop (st : NBState) (vm_id : Nat) (vm : VMData)
    (h : ifaces_converged st vm_id vm = true) :
    sync_vm_interfaces st vm_id ((vm.proxmox_network_interfaces).getD []) = (st, []) := by
  unfold ifaces_converged at h
  unfold sync_vm_interfaces
  exact ifaces_fold_noop vm_id st _ (List.all_eq_true.mp h) []

theorem contains_self_all (l : List Nat) : (l.all (fun x => l.contains x)) = true := by
  rw [List.all_eq_true]
  intro x hx
  simpa using hx

theorem tag_ids_set_ne_self (l : List Nat) : tag_ids_set_ne l l = false := by
  unfold tag_ids_set_ne
  rw [contains_self_all]
  simp

theorem resolved_payload_shift (st : NBState) (cid : Option Nat) (t1 t2 n : String)
    (vm : VMData) (p1 : VMPayload)
    (h : resolved_payload st cid t1 n vm = some p1) :
    resolved_payload st cid t2 n vm =
      some { p1 with custom_fields := build_custom_fields_payload vm t2 } := by
  unfold resolved_payload at h ⊢
  split at h
  · exact Option.noConfusion h
  · rename_i tag_ids hti
    split at h
    · exact Option.noConfusion h
    · rename_i platform_id hpl
      have hp := Option.some.inj h
      rw [← hp]
      try rfl

theorem resolved_payload_fields (st : NBState) (cid : Option Nat) (t1 n : String)
    (vm : VMData) (p1 : VMPayload)
    (h : resolved_payload st cid t1 n vm = some p1) :
    p1.name = n ∧ p1.custom_fields = build_custom_fields_payload vm t1 := by
  unfold resolved_payload at h
  split at h
  · exact Option.noConfusion h
  · split at h
    · exact Option.noConfusion h
    · have hp := Option.some.inj h
      rw [← hp]
      exact ⟨rfl, rfl⟩

theorem vm_has_changes_cf_only (rid : Nat) (p1 : VMPayload) (cf2 : CustomFieldsVM) :
    vm_has_changes (vm_of_payload rid p1) { p1 with custom_fields := cf2 } =
      !(p1.custom_fields == cf2) := by
  unfold vm_has_changes vm_of_payload
  cases hm : p1.memory <;> cases hd : p1.disk <;> cases hc : p1.cluster <;>
    cases ht : p1.tags <;> cases hp : p1.platform <;>
    simp [tag_ids_set_ne_self]

theorem build_cf_ne (vm : VMData) (t1 t2 : String) (h : t1 ≠ t2) :
    (build_custom_fields_payload vm t1 == build_custom_fields_payload vm t2) = false := by
  apply beq_eq_false_iff_ne.mpr
  intro he
  have h2 := congrArg CustomFieldsVM.vm_last_sync he
  rw [build_cf_last_sync, build_cf_last_sync] at h2
  exact h (Option.some.inj h2)

theorem sync_children_noop (A : SyncAcc) (i : Nat) (vm : VMData)
    (hi : ifaces_converged A.st i vm = true) (hd : disks_converged A.st i vm = true) :
    sync_children A i vm = A := by
  unfold sync_children
  simp only []
  rw [ifaces_converged_noop A.st i vm hi]
  rw [disks_converged_noop ((A.st, ([] : List Op)) : NBState × List Op).1 i vm hd]
  simp

theorem process_vm_nochange (cluster_id : Option Nat) (now : String) (acc : SyncAcc)
    (vm : VMData) (rid : Nat) (r : NBVm)
    (hmatch : acc.caches.by_vmid.lookup vm.vmid = some rid)
    (hnotaken : (((acc.caches.by_name_vmid.lookup vm.name).getD []).any
      (fun kv => !(kv.1 == some vm.vmid))) = false)
    (hfind : acc.st.vms.find? (fun x => x.id == rid) = some r)
    (hnc : (r.custom_fields.vm_status == some "Deleted" &&
        (build_vm_payload acc.st cluster_id now vm.name vm).2.2.1.custom_fields.vm_status ==
          some "Deployed" ||
      vm_has_changes r (build_vm_payload acc.st cluster_id now vm.name vm).2.2.1) = false) :
    process_vm cluster_id now acc vm =
      sync_children
        { st := (build_vm_payload acc.st cluster_id now vm.name vm).1
          caches := acc.caches
          ops := acc.ops ++ (build_vm_payload acc.st cluster_id now vm.name vm).2.1
          total_processed := acc.total_processed + 1
          successfully_synced := acc.successfully_synced + 1
          warnings :=
            if (build_vm_payload acc.st cluster_id now vm.name vm).2.2.2 then
              setAdd acc.warnings vm.name
            else acc.warnings
          errors := acc.errors }
        r.id vm := by
  unfold process_vm
  simp only []
  rw [hnotaken]
  simp only [Bool.false_eq_true, if_false]
  rw [build_vm_payload_vms]
  split
  · rename_i rid2 heq
    rw [hmatch] at heq
    injection heq with he
    subst he
    split
    · rename_i heq2
      rw [hfind] at heq2
      cases heq2
    · rename_i r2 heq2
      rw [hfind] at heq2
      injection heq2 with he2
      subst he2
      rw [hnc]
      simp only [Bool.not_false, eq_self_iff_true, if_true]
  · rename_i heq
    rw [hmatch] at heq
    cases heq

theorem process_vm_update (cluster_id : Option Nat) (now : String) (acc : SyncAcc)
    (vm : VMData) (rid : Nat) (r : NBVm)
    (hmatch : acc.caches.by_vmid.lookup vm.vmid = some rid)
    (hnotaken : (((acc.caches.by_name_vmid.lookup vm.name).getD []).any
      (fun kv => !(kv.1 == some vm.vmid))) = false)
    (hfind : acc.st.vms.find? (fun x => x.id == rid) = some r)
    (hch : (r.custom_fields.vm_status == some "Deleted" &&
        (build_vm_payload acc.st cluster_id now vm.name vm).2.2.1.custom_fields.vm_status ==
          some "Deployed" ||
      vm_has_changes r (build_vm_payload acc.st cluster_id now vm.name vm).2.2.1) = true)
    (hnoconf : (acc.st.vms.any (fun x => !(x.id == r.id) &&
      x.name == (build_vm_payload acc.st cluster_id now vm.name vm).2.2.1.name)) = false) :
    process_vm cluster_id now acc vm =
      sync_children
        { st := { (build_vm_payload acc.st cluster_id now vm.name vm).1 with
              vms := acc.st.vms.map (fun x =>
                if x.id == r.id then
                  apply_vm_payload x (build_vm_payload acc.st cluster_id now vm.name vm).2.2.1
                else x) }
          caches := acc.caches
          ops := acc.ops ++ (build_vm_payload acc.st cluster_id now vm.name vm).2.1 ++
            [Op.updateVM r.id (build_vm_payload acc.st cluster_id now vm.name vm).2.2.1]
          total_processed := acc.total_processed + 1
          successfully_synced := acc.successfully_synced + 1
          warnings :=
            if (build_vm_payload acc.st cluster_id now vm.name vm).2.2.2 then
              setAdd acc.warnings vm.name
            else acc.warnings
          errors := acc.errors }
        r.id vm := by
  unfold process_vm
  simp only []
  rw [hnotaken]
  simp only [Bool.false_eq_true, if_false]
  rw [build_vm_payload_vms]
  split
  · rename_i rid2 heq
    rw [hmatch] at heq
    injection heq with he
    subst he
    split
    · rename_i heq2
      rw [hfind] at heq2
      cases heq2
    · rename_i r2 heq2
      rw [hfind] at heq2
      injection heq2 with he2
      subst he2
      rw [hch]
      simp only [Bool.not_true, Bool.false_eq_true, if_false]
      rw [hnoconf]
      simp only [Bool.false_eq_true, if_false]
  · rename_i heq
    rw [hmatch] at heq
    cases heq


/-- C1 (amended): rerunning the reconciliation on a converged entity is
not write-free in general.  When the second pass carries the same
timestamp string as the converging pass, it performs zero writes; when
the timestamp differs, it performs exactly one write, an update of the
matched record whose payload repeats the stored one except for the
regenerated custom-fields block (which differs only by the sync
timestamp). -/
theorem C1_rerun_timestamp_only (cluster_id : Option Nat) (t1 t2 : String) (acc : SyncAcc)
    (vm : VMData)
    (hconv : vm_converged acc.st acc.caches cluster_id t1 vm = true) :
    (t2 = t1 →
      (process_vm cluster_id t2 acc vm).st = acc.st ∧
      (process_vm cluster_id t2 acc vm).ops = acc.ops) ∧
    (t2 ≠ t1 → ∃ rid p1,
      acc.st.vms.find? (fun v => v.id == rid) = some (vm_of_payload rid p1) ∧
      p1.custom_fields = build_custom_fields_payload vm t1 ∧
      (process_vm cluster_id t2 acc vm).ops =
        acc.ops ++ [Op.updateVM rid
          { p1 with custom_fields := build_custom_fields_payload vm t2 }] ∧
      (process_vm cluster_id t2 acc vm).st.vms =
        acc.st.vms.map (fun v => if v.id == rid then
          apply_vm_payload v { p1 with custom_fields := build_custom_fields_payload vm t2 }
          else v)) := by
  unfold vm_converged at hconv
  split at hconv
  · exact Bool.noConfusion hconv
  · rename_i rid hmatch
    split at hconv
    · exact Bool.noConfusion hconv
    · rename_i r hfind
      obtain ⟨h4, hE⟩ := Bool.and_eq_true_iff.mp hconv
      obtain ⟨h3, hD⟩ := Bool.and_eq_true_iff.mp h4
      obtain ⟨h2, hM⟩ := Bool.and_eq_true_iff.mp h3
      obtain ⟨hA, hB⟩ := Bool.and_eq_true_iff.mp h2
      cases hres : resolved_payload acc.st cluster_id t1 vm.name vm with
      | none =>
        rw [hres] at hM
        have hF : false = true := hM
        exact Bool.noConfusion hF
      | some p1 =>
        rw [hres] at hM
        have hMc : (r == vm_of_payload rid p1) = true := hM
        have hreq : r = vm_of_payload rid p1 := by simpa using hMc
        subst hreq
        obtain ⟨hp1name, hp1cf⟩ := resolved_payload_fields acc.st cluster_id t1 vm.name vm p1 hres
        have hnotaken : (((acc.caches.by_name_vmid.lookup vm.name).getD []).any
            (fun kv => !(kv.1 == some vm.vmid))) = false := by
          cases hcase : (((acc.caches.by_name_vmid.lookup vm.name).getD []).any
              (fun kv => !(kv.1 == some vm.vmid))) with
          | false => rfl
          | true =>
            obtain ⟨x, hx, hpx⟩ := List.any_eq_true.mp hcase
            have h9 := List.all_eq_true.mp hA x hx
            rw [h9] at hpx
            simp at hpx
        have hnoconf : (acc.st.vms.any (fun x => !(x.id == rid) && x.name == vm.name)) = false := by
          cases hcase : (acc.st.vms.any (fun x => !(x.id == rid) && x.name == vm.name)) with
          | false => rfl
          | true =>
            obtain ⟨x, hx, hpx⟩ := List.any_eq_true.mp hcase
            have h9 := List.all_eq_true.mp hB x hx
            obtain ⟨hpa, hpb⟩ := Bool.and_eq_true_iff.mp hpx
            simp only [Bool.or_eq_true] at h9
            rcases h9 with h10 | h10
            · rw [h10] at hpa
              simp at hpa
            · rw [hpb] at h10
              simp at h10
        have hres2 : resolved_payload acc.st cluster_id t2 vm.name vm =
            some { p1 with custom_fields := build_custom_fields_payload vm t2 } :=
          resolved_payload_shift acc.st cluster_id t1 t2 vm.name vm p1 hres
        obtain ⟨hb1, hb2, hb3⟩ :=
          build_vm_payload_noop acc.st cluster_id t2 vm.name vm _ hres2
        have hstat : ((vm_of_payload rid p1).custom_fields.vm_status == some "Deleted") = false := by
          show (p1.custom_fields.vm_status == some "Deleted") = false
          rw [hp1cf, build_cf_status]
          decide
        have hchanges : vm_has_changes (vm_of_payload rid p1)
            ((build_vm_payload acc.st cluster_id t2 vm.name vm).2.2.1) =
            !(build_custom_fields_payload vm t1 == build_custom_fields_payload vm t2) := by
          rw [hb3, vm_has_changes_cf_only, hp1cf]
        constructor
        · intro ht
          subst ht
          have hnc : ((vm_of_payload rid p1).custom_fields.vm_status == some "Deleted" &&
              (build_vm_payload acc.st cluster_id t2 vm.name vm).2.2.1.custom_fields.vm_status ==
                some "Deployed" ||
            vm_has_changes (vm_of_payload rid p1)
              (build_vm_payload acc.st cluster_id t2 vm.name vm).2.2.1) = false := by
            rw [hstat, hchanges]
            simp
          have hpv := process_vm_nochange cluster_id t2 acc vm rid (vm_of_payload rid p1)
            hmatch hnotaken hfind hnc
          rw [hb1, hb2] at hpv
          rw [sync_children_noop] at hpv
          · exact ⟨by rw [hpv], by rw [hpv]; simp⟩
          · exact hE
          · exact hD
        · intro hne
          have hne2 : (build_custom_fields_payload vm t1 ==
              build_custom_fields_payload vm t2) = false :=
            build_cf_ne vm t1 t2 (fun he => hne he.symm)
          have hch : ((vm_of_payload rid p1).custom_fields.vm_status == some "Deleted" &&
              (build_vm_payload acc.st cluster_id t2 vm.name vm).2.2.1.custom_fields.vm_status ==
                some "Deployed" ||
            vm_has_changes (vm_of_payload rid p1)
              (build_vm_payload acc.st cluster_id t2 vm.name vm).2.2.1) = true := by
            rw [hstat, hchanges, hne2]
            simp
          have hname2 : (build_vm_payload acc.st cluster_id t2 vm.name vm).2.2.1.name = vm.name := by
            rw [hb3]
            exact hp1name
          have hnoconfP : (acc.st.vms.any (fun x => !(x.id == (vm_of_payload rid p1).id) &&
              x.name == (build_vm_payload acc.st cluster_id t2 vm.name vm).2.2.1.name)) = false := by
            rw [show (vm_of_payload rid p1).id = rid from rfl, hname2]
            exact hnoconf
          have hpv := process_vm_update cluster_id t2 acc vm rid (vm_of_payload rid p1)
            hmatch hnotaken hfind hch hnoconfP
          rw [hb1, hb2, hb3] at hpv
          rw [sync_children_noop] at hpv
          · refine ⟨rid, p1, hfind, hp1cf, ?_, ?_⟩
            · rw [hpv]
              simp [vm_of_payload]
            · rw [hpv]
              simp [vm_of_payload]
          · exact hE
          · exact hD

/-- Witness for C1 at the concrete converged scenario: the pass rerun
with the unchanged timestamp leaves both the registry and the op log
untouched. -/
theorem C1_rerun_timestamp_only_witness :
    vm_converged c1_acc.st c1_acc.caches (some 2) "T1" c1_vm = true ∧
    ((process_vm (some 2) "T1" c1_acc c1_vm).st = c1_acc.st ∧
      (process_vm (some 2) "T1" c1_acc c1_vm).ops = c1_acc.ops) := by
  have hc : vm_converged c1_acc.st c1_acc.caches (some 2) "T1" c1_vm = true := by decide
  exact ⟨hc, (C1_rerun_timestamp_only (some 2) "T1" "T1" c1_acc c1_vm hc).1 rfl⟩

theorem pyUpper_ne_empty (s : String) (h : ¬s = "") : pyUpper s ≠ "" := by
  intro he
  apply h
  unfold pyUpper at he
  have h2 := congrArg String.data he
  simp only [List.map_eq_nil_iff] at h2
  cases s
  simp only [] at h2
  rw [h2]

theorem extract_one_mac (rt : String) (agent : Option (List AgentIface)) (k v : String)
    (p : PIface) (h : extract_one_interface rt agent k v = some p) :
    ∃ raw, p.mac_address = some (pyUpper raw) ∧ pyUpper raw ≠ "" := by
  unfold extract_one_interface at h
  simp only [] at h
  split at h
  · exact Option.noConfusion h
  · rename_i m hmeq
    split at h
    · exact Option.noConfusion h
    · rename_i hm
      have hp := Option.some.inj h
      refine ⟨m, ?_, pyUpper_ne_empty m hm⟩
      rw [← hp]

theorem extract_fold_mac (rt : String) (agent : Option (List AgentIface))
    (config : List (String × String)) :
    ∀ (acc : List PIface),
      (∀ p ∈ acc, ∃ raw, p.mac_address = some (pyUpper raw) ∧ pyUpper raw ≠ "") →
      ∀ p ∈ config.foldl (fun acc kv =>
          if pyStartsWith kv.1 "net" then
            match extract_one_interface rt agent kv.1 kv.2 with
            | some iface => acc ++ [iface]
            | none => acc
          else acc) acc,
        ∃ raw, p.mac_address = some (pyUpper raw) ∧ pyUpper raw ≠ "" := by
  induction config with
  | nil => intro acc hacc p hp; exact hacc p hp
  | cons kv tl ih =>
    intro acc hacc p hp
    rw [List.foldl_cons] at hp
    refine ih _ ?_ p hp
    intro q hq
    by_cases hs : pyStartsWith kv.1 "net" = true
    · rw [if_pos hs] at hq
      cases hone : extract_one_interface rt agent kv.1 kv.2 with
      | none =>
        rw [hone] at hq
        exact hacc q hq
      | some iface =>
        rw [hone] at hq
        have hq2 : q ∈ acc ++ [iface] := hq
        rcases List.mem_append.mp hq2 with h | h
        · exact hacc q h
        · rw [List.mem_singleton.mp h]
          exact extract_one_mac rt agent kv.1 kv.2 iface hone
    · rw [if_neg hs] at hq
      exact hacc q hq

theorem mac_fn_macs (st : NBState) (mac_str : String) (i : Option Nat) (t : Option String)
    (o : MacObj)
    (ho : o ∈ (get_or_create_and_assign_netbox_mac_address st mac_str i t).1.macs) :
    o.mac_address = pyUpper mac_str ∨ ∃ o0 ∈ st.macs, o.mac_address = o0.mac_address := by
  unfold get_or_create_and_assign_netbox_mac_address at ho
  simp only [] at ho
  split at ho
  · exact Or.inr ⟨o, ho, rfl⟩
  · split at ho
    · exact Or.inr ⟨o, ho, rfl⟩
    · split at ho
      · rename_i ii tt hmeq
        have ho2 : o ∈ (st.macs ++ [(⟨st.next_id, pyUpper mac_str, none, none⟩ : MacObj)]).map
            (fun x => if x.id == st.next_id then
              { x with assigned_object_type := some tt, assigned_object_id := some ii }
            else x) := ho
        obtain ⟨x, hx, hfx⟩ := List.mem_map.mp ho2
        rcases List.mem_append.mp hx with hxx | hxx
        · refine Or.inr ⟨x, hxx, ?_⟩
          rw [← hfx]
          by_cases hid : (x.id == st.next_id) = true
          · rw [if_pos hid]
          · rw [if_neg hid]
        · left
          rw [List.mem_singleton.mp hxx] at hfx
          rw [← hfx]
          by_cases hid : ((⟨st.next_id, pyUpper mac_str, none, none⟩ : MacObj).id ==
              st.next_id) = true
          · rw [if_pos hid]
          · rw [if_neg hid]
      · have ho2 : o ∈ st.macs ++ [(⟨st.next_id, pyUpper mac_str, none, none⟩ : MacObj)] := ho
        rcases List.mem_append.mp ho2 with h | h
        · exact Or.inr ⟨o, h, rfl⟩
        · left
          rw [List.mem_singleton.mp h]

theorem mac_fn_ops_upper (st : NBState) (mac_str : String) (i : Option Nat) (t : Option String)
    (m : String)
    (hm : Op.createMac m ∈ (get_or_create_and_assign_netbox_mac_address st mac_str i t).2.1) :
    m = pyUpper mac_str := by
  unfold get_or_create_and_assign_netbox_mac_address at hm
  simp only [] at hm
  split at hm
  · exact absurd hm (List.not_mem_nil _)
  · split at hm
    · exact absurd hm (List.not_mem_nil _)
    · split at hm
      · rename_i ii tt hmeq
        have hm2 : Op.createMac m ∈
            [Op.createMac (pyUpper mac_str), Op.assignMac st.next_id tt ii] := hm
        rcases List.mem_cons.mp hm2 with h | h
        · simpa using h
        · rw [List.mem_singleton] at h
          exact absurd h (by simp)
      · have hm2 : Op.createMac m ∈ [Op.createMac (pyUpper mac_str)] := hm
        rw [List.mem_singleton] at hm2
        simpa using hm2

/-- C10: every interface the config normalizer emits carries a
non-empty uppercased MAC string, and the MACAddress reconciler only
ever stores and logs the uppercased form of the requested string, so
MAC comparison between source and registry is case-insensitive by
construction. -/
theorem C10_mac_uppercase (config : List (String × String)) (rt : String)
    (agent : Option (List AgentIface)) (st : NBState) (mac_str : String) (i : Option Nat)
    (t : Option String) :
    (∀ p ∈ extract_network_interfaces_from_config config rt agent,
      ∃ raw, p.mac_address = some (pyUpper raw) ∧ pyUpper raw ≠ "") ∧
    (∀ o ∈ (get_or_create_and_assign_netbox_mac_address st mac_str i t).1.macs,
      o.mac_address = pyUpper mac_str ∨ ∃ o0 ∈ st.macs, o.mac_address = o0.mac_address) ∧
    (∀ m, Op.createMac m ∈ (get_or_create_and_assign_netbox_mac_address st mac_str i t).2.1 →
      m = pyUpper mac_str) := by
  refine ⟨?_, ?_, ?_⟩
  · intro p hp
    unfold extract_network_interfaces_from_config at hp
    exact extract_fold_mac rt agent config []
      (fun q hq => absurd hq (List.not_mem_nil q)) p hp
  · intro o ho
    exact mac_fn_macs st mac_str i t o ho
  · intro m hm
    exact mac_fn_ops_upper st mac_str i t m hm



/-- Witness for C10 at a concrete QEMU net entry with a lowercase MAC:
the emitted interface carries a non-empty uppercased MAC, and the
create call against the empty registry logs the uppercased string. -/
theorem C10_mac_uppercase_witness :
    (∃ raw, c10_p.mac_address = some (pyUpper raw) ∧ pyUpper raw ≠ "") ∧
    "AA:BB:CC:DD:EE:FF" = pyUpper "aa:bb:cc:dd:ee:ff" :=
  ⟨(C10_mac_uppercase c10_config "qemu" none NBState.empty "aa:bb:cc:dd:ee:ff" (some 7)
      (some NETBOX_OBJECT_TYPE_VMINTERFACE)).1 c10_p (by decide),
   (C10_mac_uppercase c10_config "qemu" none NBState.empty "aa:bb:cc:dd:ee:ff" (some 7)
      (some NETBOX_OBJECT_TYPE_VMINTERFACE)).2.2 "AA:BB:CC:DD:EE:FF" (by decide)⟩

end ProxSyncBox
